import Mathlib

/-!
# terraform-provider-fluence: the VM retry loops, provider configuration, resources and data sources

A shallow embedding of `internal/provider/vm_resource.go`, `provider.go`,
`ssh_key_resource.go` and the `Read` of each data source.

* Framework values (`types.String`, `types.Bool`) are three-state: null, unknown or known.
* The remote API client is an oracle: `ListVmsV3` answers the n-th call of an operation,
  the other methods answer the single call an operation makes.
* `time.Sleep` is accumulated in nanoseconds, `tflog` calls are not modelled.
* A Go `error` is its message text; `nil` is `none`.
* A Go slice is a list; a nil slice and an empty one are both the empty list.
* `resp.State.Set` of a model that matches its schema returns no diagnostics.
-/

namespace Fluence

/-! ## Framework values -/

/-- The framework's `types.String`: null, unknown, or a known string. -/
inductive TfString where
  | null : TfString
  | unknown : TfString
  | value (s : String) : TfString
deriving DecidableEq, Repr

namespace TfString

/-- Go `types.String.IsNull`. -/
def IsNull : TfString → Bool
  | null => true
  | _ => false

/-- Go `types.String.IsUnknown`. -/
def IsUnknown : TfString → Bool
  | unknown => true
  | _ => false

/-- Go `types.String.ValueString`: the known value, the empty string for null and unknown. -/
def ValueString : TfString → String
  | value s => s
  | _ => ""

end TfString

/-- The framework's `types.Bool`. -/
inductive TfBool where
  | null : TfBool
  | unknown : TfBool
  | value (b : Bool) : TfBool
deriving DecidableEq, Repr

/-- The framework's `types.Int64`. -/
inductive TfInt64 where
  | null : TfInt64
  | unknown : TfInt64
  | value (i : Int) : TfInt64
deriving DecidableEq, Repr

/-- Severity of a framework diagnostic. -/
inductive Severity where
  | error : Severity
  | warning : Severity
deriving DecidableEq, Repr

/-- One framework diagnostic; `path` is the attribute it is attached to, if any. -/
structure Diagnostic where
  severity : Severity
  summary : String
  detail : String
  path : Option String
deriving DecidableEq, Repr

/-- The framework's `diag.Diagnostics`. -/
abbrev Diagnostics := List Diagnostic

/-- Go `Diagnostics.HasError`. -/
def HasError (ds : Diagnostics) : Bool :=
  ds.any (fun d => d.severity == Severity.error)

/-- Go `Diagnostics.AddError`. -/
def AddError (ds : Diagnostics) (summary detail : String) : Diagnostics :=
  ds ++ [⟨Severity.error, summary, detail, none⟩]

/-- Go `Diagnostics.AddAttributeError` with `path.Root(attr)`. -/
def AddAttributeError (ds : Diagnostics) (attr summary detail : String) : Diagnostics :=
  ds ++ [⟨Severity.error, summary, detail, some attr⟩]

/-- What `req.Plan.Get`, `req.State.Get` or `req.Config.Get` hands back: the diagnostics it
returns and the model it decoded into. -/
structure Decoded (α : Type) where
  diags : Diagnostics
  value : α

/-- What an operation did to `resp.State`. -/
inductive StateAction (α : Type) where
  | untouched : StateAction α
  | set (m : α) : StateAction α
  | removed : StateAction α
deriving DecidableEq, Repr

/-! ## VM resource model -/

/-- Go `OpenPortModel`. -/
structure OpenPortModel where
  Port : TfInt64
  Protocol : TfString
deriving DecidableEq, Repr

/-- Go `VmResourceModel`. -/
structure VmResourceModel where
  ID : TfString
  Name : TfString
  Hostname : TfString
  OsImage : TfString
  SshKeys : List TfString
  OpenPorts : List OpenPortModel
  Instances : TfInt64
  BasicConfiguration : TfString
  MaxTotalPricePerEpochUsd : TfString
  Countries : List TfString
  Status : TfString
  StatusChangedAt : TfString
  PricePerEpoch : TfString
  CreatedAt : TfString
  NextBillingAt : TfString
  ReservedBalance : TfString
  TotalSpent : TfString
  PublicIp : TfString
deriving DecidableEq, Repr

/-- The API client's `RunningInstanceV3`, with the fields the provider reads. -/
structure RunningInstanceV3 where
  Id : String
  Status : String
  StatusChangedAt : String
  PricePerEpoch : String
  CreatedAt : String
  NextBillingAt : String
  ReservedBalance : String
  TotalSpent : String
  OsImage : Option String
  PublicIp : Option String
  VmName : Option String
deriving DecidableEq, Repr

/-- The part of the API client the two VM loops use: the answer to the n-th `ListVmsV3`
call (counted from 0), either an error text or a listing. -/
structure VmClient where
  ListVmsV3 : Nat → Except String (List RunningInstanceV3)

/-- Go `time.Second`, in nanoseconds. -/
def Second : Nat := 1000000000

/-- Go `time.Minute`, in nanoseconds. -/
def Minute : Nat := 60 * Second

/-- Go `time.Duration.String` (the `%v` verb), for durations that are a whole number of
seconds: hours and minutes are printed from the first non-zero unit on. -/
def durationString (d : Nat) : String :=
  let secs := d / Second
  let h := secs / 3600
  let m := secs % 3600 / 60
  let s := secs % 60
  if h > 0 then toString h ++ "h" ++ toString m ++ "m" ++ toString s ++ "s"
  else if m > 0 then toString m ++ "m" ++ toString s ++ "s"
  else toString s ++ "s"

/-- The scan `for _, vm := range vms { if vm.Id == vmId { foundVm = &vm; break } }`. -/
def findVm (vmId : String) (vms : List RunningInstanceV3) : Option RunningInstanceV3 :=
  vms.find? (fun vm => vm.Id == vmId)

/-- What a retry loop hands back: the returned error, the model as left in place, the
number of `ListVmsV3` calls made and the nanoseconds slept. -/
structure LoopResult where
  err : Option String
  data : VmResourceModel
  calls : Nat
  slept : Nat
deriving DecidableEq, Repr

/-! ## waitForVmActive -/

/-- Go `createTimeout := 10 * time.Minute` of `waitForVmActive`. -/
def createTimeout : Nat := 10 * Minute

/-- Go `retryInterval := time.Second * 10` of `waitForVmActive`. -/
def waitRetryInterval : Nat := Second * 10

/-- Go `maxRetries := int(createTimeout / retryInterval)` of `waitForVmActive`. -/
def waitMaxRetries : Nat := createTimeout / waitRetryInterval

/-- The block "Update the model with current data" of `waitForVmActive` (lines 551-571). -/
def waitUpdateModel (data : VmResourceModel) (foundVm : RunningInstanceV3) : VmResourceModel :=
  let data := { data with Status := TfString.value foundVm.Status }
  let data := { data with StatusChangedAt := TfString.value foundVm.StatusChangedAt }
  let data := { data with PricePerEpoch := TfString.value foundVm.PricePerEpoch }
  let data := { data with CreatedAt := TfString.value foundVm.CreatedAt }
  let data := { data with NextBillingAt := TfString.value foundVm.NextBillingAt }
  let data := { data with ReservedBalance := TfString.value foundVm.ReservedBalance }
  let data := { data with TotalSpent := TfString.value foundVm.TotalSpent }
  let data := match foundVm.OsImage with
    | some img => { data with OsImage := TfString.value img }
    | none => data
  let data := match foundVm.PublicIp with
    | some ip => { data with PublicIp := TfString.value ip }
    | none => { data with PublicIp := TfString.null }
  match foundVm.VmName with
  | some name => { data with Name := TfString.value name }
  | none => data

/-- The `for attempt := 0; attempt < maxRetries; attempt++` loop of `waitForVmActive`
followed by the code after it. `remaining` is `maxRetries - attempt`. -/
def waitLoop (client : VmClient) (vmId : String) :
    Nat → Nat → VmResourceModel → Nat → Nat → LoopResult
  | 0, _, data, calls, slept =>
    let currentStatus := if !data.Status.IsNull then data.Status.ValueString else "unknown"
    { err := some ("VM did not become active within " ++ durationString createTimeout ++
        " (current status: " ++ currentStatus ++ ")"),
      data := data, calls := calls, slept := slept }
  | remaining + 1, attempt, data, calls, slept =>
    let slept := if attempt > 0 then slept + waitRetryInterval else slept
    match client.ListVmsV3 calls with
    | Except.error _ => waitLoop client vmId remaining (attempt + 1) data (calls + 1) slept
    | Except.ok vms =>
      match findVm vmId vms with
      | none => waitLoop client vmId remaining (attempt + 1) data (calls + 1) slept
      | some foundVm =>
        let data := waitUpdateModel data foundVm
        if foundVm.Status = "Active" then
          { err := none, data := data, calls := calls + 1, slept := slept }
        else if foundVm.Status = "failed" ∨ foundVm.Status = "error" ∨
            foundVm.Status = "Failed" ∨ foundVm.Status = "Error" then
          { err := some ("VM creation failed with status: " ++ foundVm.Status),
            data := data, calls := calls + 1, slept := slept }
        else waitLoop client vmId remaining (attempt + 1) data (calls + 1) slept

/-- Go `(*VmResource).waitForVmActive`. -/
def waitForVmActive (client : VmClient) (data : VmResourceModel) : LoopResult :=
  waitLoop client data.ID.ValueString waitMaxRetries 0 data 0 0

/-! ## refreshVmData and Read -/

/-- Go `maxRetries := 5` of `refreshVmData`. -/
def refreshMaxRetries : Nat := 5

/-- Go `retryDelay := time.Second * 2` of `refreshVmData`. -/
def refreshRetryDelay : Nat := Second * 2

/-- The block "Update the model with the current data" of `refreshVmData` (lines 383-403). -/
def refreshUpdateModel (data : VmResourceModel) (foundVm : RunningInstanceV3) :
    VmResourceModel :=
  let data := { data with Status := TfString.value foundVm.Status }
  let data := { data with StatusChangedAt := TfString.value foundVm.StatusChangedAt }
  let data := { data with PricePerEpoch := TfString.value foundVm.PricePerEpoch }
  let data := { data with CreatedAt := TfString.value foundVm.CreatedAt }
  let data := { data with NextBillingAt := TfString.value foundVm.NextBillingAt }
  let data := { data with ReservedBalance := TfString.value foundVm.ReservedBalance }
  let data := { data with TotalSpent := TfString.value foundVm.TotalSpent }
  let data := match foundVm.OsImage with
    | some img => { data with OsImage := TfString.value img }
    | none => data
  let data := match foundVm.PublicIp with
    | some ip => { data with PublicIp := TfString.value ip }
    | none => { data with PublicIp := TfString.null }
  match foundVm.VmName with
  | some name => { data with Name := TfString.value name }
  | none => data

/-- The `for attempt := 0; attempt < maxRetries; attempt++` loop of `refreshVmData`
followed by the code after it. `remaining` is `maxRetries - attempt`. -/
def refreshLoop (client : VmClient) (vmId : String) :
    Nat → Nat → VmResourceModel → Nat → Nat → LoopResult
  | 0, _, data, calls, slept =>
    { err := some ("VM not found after " ++ toString refreshMaxRetries ++ " attempts"),
      data := data, calls := calls, slept := slept }
  | remaining + 1, attempt, data, calls, slept =>
    let slept := if attempt > 0 then slept + refreshRetryDelay else slept
    match client.ListVmsV3 calls with
    | Except.error e =>
      { err := some ("unable to read VMs: " ++ e), data := data, calls := calls + 1,
        slept := slept }
    | Except.ok vms =>
      match findVm vmId vms with
      | some foundVm =>
        { err := none, data := refreshUpdateModel data foundVm, calls := calls + 1,
          slept := slept }
      | none => refreshLoop client vmId remaining (attempt + 1) data (calls + 1) slept

/-- Go `(*VmResource).refreshVmData`. -/
def refreshVmData (client : VmClient) (data : VmResourceModel) : LoopResult :=
  refreshLoop client data.ID.ValueString refreshMaxRetries 0 data 0 0

/-- The request of the VM resource `Read`: what `req.State.Get` decodes. -/
structure VmReadRequest where
  State : Decoded VmResourceModel

/-- The response of the VM resource `Read`, with the number of `ListVmsV3` calls made. -/
structure VmReadResponse where
  Diagnostics : Diagnostics
  State : StateAction VmResourceModel
  calls : Nat
deriving DecidableEq, Repr

/-- Go `(*VmResource).Read`. `resp.State.Set` of a model that matches the schema returns
no diagnostics. -/
def VmResource.Read (client : VmClient) (req : VmReadRequest) : VmReadResponse :=
  let diags : Diagnostics := [] ++ req.State.diags
  if HasError diags then
    { Diagnostics := diags, State := StateAction.untouched, calls := 0 }
  else
    let r := refreshVmData client req.State.value
    match r.err with
    | some err =>
      if err = "VM not found" then
        { Diagnostics := diags, State := StateAction.removed, calls := r.calls }
      else
        { Diagnostics := AddError diags "Client Error" ("Unable to refresh VM data: " ++ err),
          State := StateAction.untouched, calls := r.calls }
    | none =>
      { Diagnostics := diags, State := StateAction.set r.data, calls := r.calls }

/-! ## Provider configuration -/

/-- Go `fluenceProviderModel`. -/
structure fluenceProviderModel where
  Host : TfString
  ApiKey : TfString
deriving DecidableEq, Repr

/-- The request of the provider `Configure`: what `req.Config.Get` decodes. -/
structure ConfigureRequest where
  Config : Decoded fluenceProviderModel

/-- The response of the provider `Configure`, with the `(host, api_key)` arguments of every
`fluenceapi.NewClient` call made. -/
structure ConfigureResponse (Client : Type) where
  Diagnostics : Diagnostics
  DataSourceData : Option Client
  ResourceData : Option Client
  newClientCalls : List (String × String)

/-- Detail text of the "Unknown Fluence API Host" diagnostic. -/
def unknownHostDetail : String :=
  "The provider cannot create the Fluence API client as there is an unknown configuration value for the Fluence API host. " ++
  "Either target apply the source of the value first, set the value statically in the configuration, or use the FLUENCE_HOST environment variable."

/-- Detail text of the "Unknown Fluence API Key" diagnostic. -/
def unknownApiKeyDetail : String :=
  "The provider cannot create the Fluence API client as there is an unknown configuration value for the Fluence API key. " ++
  "Either target apply the source of the value first, set the value statically in the configuration, or use the FLUENCE_API_KEY environment variable."

/-- Detail text of the "Missing Fluence API Host" diagnostic. -/
def missingHostDetail : String :=
  "The provider cannot create the Fluence API client as there is a missing or empty value for the Fluence API host. " ++
  "Set the host value in the configuration or use the FLUENCE_HOST environment variable. " ++
  "If either is already set, ensure the value is not empty."

/-- Detail text of the "Missing Fluence API ApiKey" diagnostic. -/
def missingApiKeyDetail : String :=
  "The provider cannot create the Fluence API client as there is a missing or empty value for the Fluence API key. " ++
  "Set the API key value in the configuration or use the FLUENCE_API_KEY environment variable. " ++
  "If either is already set, ensure the value is not empty."

/-- Lines 80-96 of `Configure`: an attribute error for each attribute that is unknown. -/
def fluenceProvider.checkUnknown (diags : Diagnostics) (config : fluenceProviderModel) :
    Diagnostics :=
  let diags := if config.Host.IsUnknown then
      AddAttributeError diags "host" "Unknown Fluence API Host" unknownHostDetail
    else diags
  if config.ApiKey.IsUnknown then
    AddAttributeError diags "api_key" "Unknown Fluence API Key" unknownApiKeyDetail
  else diags

/-- Lines 105-119 of `Configure`: the final values of the locals `host` and `api_key`.
`getenv` is `os.Getenv` (the empty string for an unset variable). -/
def fluenceProvider.resolve (config : fluenceProviderModel) (getenv : String → String) :
    String × String :=
  let host := getenv "FLUENCE_HOST"
  let api_key := getenv "FLUENCE_API_KEY"
  let host := if host = "" then "https://api.fluence.dev" else host
  let host := if !config.Host.IsNull then config.Host.ValueString else host
  let api_key := if !config.ApiKey.IsNull then config.ApiKey.ValueString else api_key
  (host, api_key)

/-- Lines 124-142 of `Configure`: an attribute error for each of `host` and `api_key` that
is empty. -/
def fluenceProvider.checkMissing (diags : Diagnostics) (host api_key : String) : Diagnostics :=
  let diags := if host = "" then
      AddAttributeError diags "host" "Missing Fluence API Host" missingHostDetail
    else diags
  if api_key = "" then
    AddAttributeError diags "api_key" "Missing Fluence API ApiKey" missingApiKeyDetail
  else diags

/-- Go `(*fluenceProvider).Configure`. `NewClient` is the API client constructor
`fluenceapi.NewClient`, `getenv` is `os.Getenv`. -/
def fluenceProvider.Configure {Client : Type}
    (NewClient : String → String → Except String Client) (getenv : String → String)
    (req : ConfigureRequest) : ConfigureResponse Client :=
  let diags : Diagnostics := [] ++ req.Config.diags
  if HasError diags then
    { Diagnostics := diags, DataSourceData := none, ResourceData := none, newClientCalls := [] }
  else
    let config := req.Config.value
    let diags := fluenceProvider.checkUnknown diags config
    if HasError diags then
      { Diagnostics := diags, DataSourceData := none, ResourceData := none,
        newClientCalls := [] }
    else
      let host := (fluenceProvider.resolve config getenv).1
      let api_key := (fluenceProvider.resolve config getenv).2
      let diags := fluenceProvider.checkMissing diags host api_key
      if HasError diags then
        { Diagnostics := diags, DataSourceData := none, ResourceData := none,
          newClientCalls := [] }
      else
        match NewClient host api_key with
        | Except.error err =>
          { Diagnostics := AddError diags "Unable to Create Fluence API Client"
              ("An unexpected error occurred when creating the Fluence API client. " ++
                "If the error is not clear, please contact the provider developers.\n\n" ++
                "Fluence Client Error: " ++ err),
            DataSourceData := none, ResourceData := none,
            newClientCalls := [(host, api_key)] }
        | Except.ok client =>
          { Diagnostics := diags, DataSourceData := some client, ResourceData := some client,
            newClientCalls := [(host, api_key)] }

/-! ## SSH key resource -/

/-- Go `SshKeyResourceModel`. -/
structure SshKeyResourceModel where
  ID : TfString
  Name : TfString
  PublicKey : TfString
  Fingerprint : TfString
  Algorithm : TfString
  Comment : TfString
  Active : TfBool
  CreatedAt : TfString
deriving DecidableEq, Repr

/-- The API client's `SshKey`, with the fields the provider reads. -/
structure SshKey where
  Name : Option String
  PublicKey : String
  Fingerprint : String
  Algorithm : String
  Comment : String
  Active : Bool
  CreatedAt : String
deriving DecidableEq, Repr

/-- The API client's `AddSshKey` request. -/
structure AddSshKey where
  Name : String
  PublicKey : String
deriving DecidableEq, Repr

/-- The part of the API client the SSH key resource uses; each operation makes at most one
call, so each method is its answer to that call. -/
structure SshClient where
  CreateSshKey : AddSshKey → Except String SshKey
  ListSshKeys : Except String (List SshKey)
  RemoveSshKey : String → Option String

/-- One call on the API client made by the SSH key resource. -/
inductive SshClientCall where
  | CreateSshKey (req : AddSshKey) : SshClientCall
  | ListSshKeys : SshClientCall
  | RemoveSshKey (fingerprint : String) : SshClientCall
deriving DecidableEq, Repr

/-- The response of an SSH key resource operation, with the client calls it made. -/
structure SshKeyResponse where
  Diagnostics : Diagnostics
  State : StateAction SshKeyResourceModel
  calls : List SshClientCall
deriving DecidableEq, Repr

/-- The request of the SSH key `Create`: what `req.Plan.Get` decodes, and what
`req.Plan.GetAttribute` returns for `public_key`. -/
structure SshKeyCreateRequest where
  Plan : Decoded SshKeyResourceModel
  PublicKey : Decoded TfString

/-- The request of the SSH key `Read` and `Delete`: what `req.State.Get` decodes. -/
structure SshKeyStateRequest where
  State : Decoded SshKeyResourceModel

/-- The request of the SSH key `Update`: what `req.Plan.Get` decodes. -/
structure SshKeyUpdateRequest where
  Plan : Decoded SshKeyResourceModel

/-- The `createReq` that the SSH key `Create` builds (lines 129-137). -/
def SshKeyResource.createReq (data : SshKeyResourceModel) (publicKey : TfString) : AddSshKey :=
  let createReq : AddSshKey := { PublicKey := publicKey.ValueString, Name := "" }
  if !data.Name.IsNull && !data.Name.IsUnknown then
    { createReq with Name := data.Name.ValueString }
  else createReq

/-- The block "Map response to resource model" of the SSH key `Create` (lines 147-158). -/
def SshKeyResource.createModel (data : SshKeyResourceModel) (sshKey : SshKey) :
    SshKeyResourceModel :=
  let data := { data with ID := TfString.value sshKey.Fingerprint }
  let data := match sshKey.Name with
    | some name => { data with Name := TfString.value name }
    | none => { data with Name := TfString.null }
  let data := { data with PublicKey := TfString.value sshKey.PublicKey }
  let data := { data with Fingerprint := TfString.value sshKey.Fingerprint }
  let data := { data with Algorithm := TfString.value sshKey.Algorithm }
  let data := { data with Comment := TfString.value sshKey.Comment }
  let data := { data with Active := TfBool.value sshKey.Active }
  { data with CreatedAt := TfString.value sshKey.CreatedAt }

/-- Go `(*SshKeyResource).Create`. `resp.State.Set` of a model that matches the schema
returns no diagnostics. -/
def SshKeyResource.Create (client : SshClient) (req : SshKeyCreateRequest) : SshKeyResponse :=
  let diags : Diagnostics := [] ++ req.Plan.diags
  if HasError diags then
    { Diagnostics := diags, State := StateAction.untouched, calls := [] }
  else
    let data := req.Plan.value
    let diags := diags ++ req.PublicKey.diags
    if HasError diags then
      { Diagnostics := diags, State := StateAction.untouched, calls := [] }
    else
      let createReq := SshKeyResource.createReq data req.PublicKey.value
      match client.CreateSshKey createReq with
      | Except.error err =>
        { Diagnostics := AddError diags "Client Error"
            ("Unable to create SSH key, got error: " ++ err),
          State := StateAction.untouched, calls := [SshClientCall.CreateSshKey createReq] }
      | Except.ok sshKey =>
        { Diagnostics := diags,
          State := StateAction.set (SshKeyResource.createModel data sshKey),
          calls := [SshClientCall.CreateSshKey createReq] }

/-- The scan `for _, key := range sshKeys { if key.Fingerprint == data.ID.ValueString() {
foundKey = &key; break } }` of the SSH key `Read`. -/
def findKey (id : String) (sshKeys : List SshKey) : Option SshKey :=
  sshKeys.find? (fun key => key.Fingerprint == id)

/-- The block "Update the model with the current data" of the SSH key `Read`
(lines 200-210). -/
def SshKeyResource.readModel (data : SshKeyResourceModel) (foundKey : SshKey) :
    SshKeyResourceModel :=
  let data := match foundKey.Name with
    | some name => { data with Name := TfString.value name }
    | none => { data with Name := TfString.null }
  let data := { data with PublicKey := TfString.value foundKey.PublicKey }
  let data := { data with Fingerprint := TfString.value foundKey.Fingerprint }
  let data := { data with Algorithm := TfString.value foundKey.Algorithm }
  let data := { data with Comment := TfString.value foundKey.Comment }
  let data := { data with Active := TfBool.value foundKey.Active }
  { data with CreatedAt := TfString.value foundKey.CreatedAt }

/-- Go `(*SshKeyResource).Read`. -/
def SshKeyResource.Read (client : SshClient) (req : SshKeyStateRequest) : SshKeyResponse :=
  let diags : Diagnostics := [] ++ req.State.diags
  if HasError diags then
    { Diagnostics := diags, State := StateAction.untouched, calls := [] }
  else
    let data := req.State.value
    match client.ListSshKeys with
    | Except.error err =>
      { Diagnostics := AddError diags "Client Error"
          ("Unable to read SSH keys, got error: " ++ err),
        State := StateAction.untouched, calls := [SshClientCall.ListSshKeys] }
    | Except.ok sshKeys =>
      match findKey data.ID.ValueString sshKeys with
      | none =>
        { Diagnostics := diags, State := StateAction.removed,
          calls := [SshClientCall.ListSshKeys] }
      | some foundKey =>
        { Diagnostics := diags,
          State := StateAction.set (SshKeyResource.readModel data foundKey),
          calls := [SshClientCall.ListSshKeys] }

/-- Go `(*SshKeyResource).Update`. -/
def SshKeyResource.Update (_client : SshClient) (req : SshKeyUpdateRequest) : SshKeyResponse :=
  let diags : Diagnostics := [] ++ req.Plan.diags
  if HasError diags then
    { Diagnostics := diags, State := StateAction.untouched, calls := [] }
  else
    { Diagnostics := AddError diags "Update Not Supported"
        "SSH key updates are not currently supported. Please recreate the resource.",
      State := StateAction.untouched, calls := [] }

/-- Go `(*SshKeyResource).Delete`. -/
def SshKeyResource.Delete (client : SshClient) (req : SshKeyStateRequest) : SshKeyResponse :=
  let diags : Diagnostics := [] ++ req.State.diags
  if HasError diags then
    { Diagnostics := diags, State := StateAction.untouched, calls := [] }
  else
    let data := req.State.value
    match client.RemoveSshKey data.Fingerprint.ValueString with
    | some err =>
      { Diagnostics := AddError diags "Client Error"
          ("Unable to delete SSH key, got error: " ++ err),
        State := StateAction.untouched,
        calls := [SshClientCall.RemoveSshKey data.Fingerprint.ValueString] }
    | none =>
      { Diagnostics := diags, State := StateAction.untouched,
        calls := [SshClientCall.RemoveSshKey data.Fingerprint.ValueString] }

/-! ## Vocabulary of the statements -/

/-- The five literals at which `waitForVmActive` stops polling. -/
def isTerminalStatus (s : String) : Bool :=
  s == "Active" || s == "failed" || s == "error" || s == "Failed" || s == "Error"

/-- The four failure literals. -/
def isFailureStatus (s : String) : Bool :=
  s == "failed" || s == "error" || s == "Failed" || s == "Error"

/-- The VM that lookup number `n` (from 0) lists under the id: none when the call fails or
the listing does not contain the id. -/
def listedVm (client : VmClient) (vmId : String) (n : Nat) : Option RunningInstanceV3 :=
  match client.ListVmsV3 n with
  | Except.error _ => none
  | Except.ok vms => findVm vmId vms

/-- Lookup number `n` is non-terminal: it fails, does not list the id, or lists it with a
status outside the five terminal literals. -/
def nonTerminalAttempt (client : VmClient) (vmId : String) (n : Nat) : Bool :=
  match listedVm client vmId n with
  | none => true
  | some vm => !isTerminalStatus vm.Status

/-- The model after lookup number `n` of the wait loop, when that lookup is non-terminal. -/
def waitObserve (client : VmClient) (vmId : String) (n : Nat) (data : VmResourceModel) :
    VmResourceModel :=
  match listedVm client vmId n with
  | none => data
  | some vm => waitUpdateModel data vm

/-- The model after `j` successive non-terminal lookups starting at lookup `n`. -/
def waitObserveMany (client : VmClient) (vmId : String) :
    Nat → Nat → VmResourceModel → VmResourceModel
  | 0, _, data => data
  | j + 1, n, data => waitObserveMany client vmId j (n + 1) (waitObserve client vmId n data)

/-- The time slept after `j` further attempts of the wait loop starting at `attempt`. -/
def waitSleptMany : Nat → Nat → Nat → Nat
  | 0, _, slept => slept
  | j + 1, attempt, slept =>
    waitSleptMany j (attempt + 1) (if attempt > 0 then slept + waitRetryInterval else slept)

/-- The time slept after `j` further attempts of the refresh loop starting at `attempt`. -/
def refreshSleptMany : Nat → Nat → Nat → Nat
  | 0, _, slept => slept
  | j + 1, attempt, slept =>
    refreshSleptMany j (attempt + 1) (if attempt > 0 then slept + refreshRetryDelay else slept)

/-- Lookup number `n` succeeds and its listing contains no VM with the id. -/
def listingLacksVm (client : VmClient) (vmId : String) (n : Nat) : Bool :=
  match client.ListVmsV3 n with
  | Except.error _ => false
  | Except.ok vms => vms.all (fun vm => vm.Id != vmId)

/-- One string occurs inside another. -/
def containsText (msg s : String) : Prop :=
  ∃ pre post : String, msg = pre ++ s ++ post

/-- The host the interface describes: the configured value when the attribute is non-null,
else `FLUENCE_HOST` when non-empty, else the default endpoint. -/
def specHost (config : fluenceProviderModel) (getenv : String → String) : String :=
  match config.Host with
  | TfString.value h => h
  | TfString.unknown => ""
  | TfString.null =>
    if getenv "FLUENCE_HOST" ≠ "" then getenv "FLUENCE_HOST" else "https://api.fluence.dev"

/-- The API key the interface describes: the configured value when the attribute is
non-null, else `FLUENCE_API_KEY`; there is no default. -/
def specApiKey (config : fluenceProviderModel) (getenv : String → String) : String :=
  match config.ApiKey with
  | TfString.value k => k
  | TfString.unknown => ""
  | TfString.null => getenv "FLUENCE_API_KEY"

/-- The "Missing Fluence API ApiKey" diagnostic of `Configure`. -/
def missingApiKeyDiagnostic : Diagnostic :=
  ⟨Severity.error, "Missing Fluence API ApiKey", missingApiKeyDetail, some "api_key"⟩

/-- The "Missing Fluence API Host" diagnostic of `Configure`. -/
def missingHostDiagnostic : Diagnostic :=
  ⟨Severity.error, "Missing Fluence API Host", missingHostDetail, some "host"⟩

/-- The "Unknown Fluence API Host" diagnostic of `Configure`. -/
def unknownHostDiagnostic : Diagnostic :=
  ⟨Severity.error, "Unknown Fluence API Host", unknownHostDetail, some "host"⟩

/-- The "Unknown Fluence API Key" diagnostic of `Configure`. -/
def unknownApiKeyDiagnostic : Diagnostic :=
  ⟨Severity.error, "Unknown Fluence API Key", unknownApiKeyDetail, some "api_key"⟩

/-- The "Update Not Supported" diagnostic of the SSH key `Update`. -/
def updateNotSupportedDiagnostic : Diagnostic :=
  ⟨Severity.error, "Update Not Supported",
    "SSH key updates are not currently supported. Please recreate the resource.", none⟩

/-! ## Sample inputs -/

/-- A listed VM with id `vm-1` and the given status. -/
def sampleVm (status : String) : RunningInstanceV3 :=
  { Id := "vm-1", Status := status, StatusChangedAt := "2025-01-01T00:00:10Z",
    PricePerEpoch := "0.5", CreatedAt := "2025-01-01T00:00:00Z",
    NextBillingAt := "2025-01-02T00:00:00Z", ReservedBalance := "10", TotalSpent := "1",
    OsImage := none, PublicIp := some "198.51.100.7", VmName := none }

/-- The model of a VM resource whose id is `vm-1`, as `Create` hands it to the wait loop:
the computed attributes are still unknown. -/
def sampleVmModel : VmResourceModel :=
  { ID := TfString.value "vm-1", Name := TfString.value "web", Hostname := TfString.null,
    OsImage := TfString.value "ubuntu", SshKeys := [], OpenPorts := [],
    Instances := TfInt64.value 1, BasicConfiguration := TfString.null,
    MaxTotalPricePerEpochUsd := TfString.null, Countries := [],
    Status := TfString.unknown, StatusChangedAt := TfString.unknown,
    PricePerEpoch := TfString.unknown, CreatedAt := TfString.unknown,
    NextBillingAt := TfString.unknown, ReservedBalance := TfString.unknown,
    TotalSpent := TfString.unknown, PublicIp := TfString.unknown }

/-- The prior state of a VM resource whose id is `vm-1`, as a `Read` receives it. -/
def sampleVmState : VmResourceModel :=
  { ID := TfString.value "vm-1", Name := TfString.value "web", Hostname := TfString.null,
    OsImage := TfString.value "ubuntu", SshKeys := [], OpenPorts := [],
    Instances := TfInt64.value 1, BasicConfiguration := TfString.null,
    MaxTotalPricePerEpochUsd := TfString.null, Countries := [],
    Status := TfString.value "Active", StatusChangedAt := TfString.value "2025-01-01T00:00:10Z",
    PricePerEpoch := TfString.value "0.5", CreatedAt := TfString.value "2025-01-01T00:00:00Z",
    NextBillingAt := TfString.value "2025-01-02T00:00:00Z",
    ReservedBalance := TfString.value "10", TotalSpent := TfString.value "1",
    PublicIp := TfString.value "198.51.100.7" }

/-- A client whose listings report `Provisioning`, `Provisioning`, then `Active`. -/
def clientActiveAtThird : VmClient :=
  ⟨fun n => if n < 2 then Except.ok [sampleVm "Provisioning"] else Except.ok [sampleVm "Active"]⟩

/-- A client whose first listing reports `Failed`. -/
def clientFailedAtFirst : VmClient :=
  ⟨fun _ => Except.ok [sampleVm "Failed"]⟩

/-- A client whose listings always report `Provisioning`. -/
def clientAlwaysProvisioning : VmClient :=
  ⟨fun _ => Except.ok [sampleVm "Provisioning"]⟩

/-- A client whose listings succeed and never contain `vm-1`. -/
def clientNeverListed : VmClient :=
  ⟨fun _ => Except.ok []⟩

/-- A client constructor that succeeds and keeps the host and key it was given. -/
def recordingNewClient (host api_key : String) : Except String (String × String) :=
  Except.ok (host, api_key)

/-- An environment in which no variable is set. -/
def emptyEnv (_name : String) : String := ""

/-- An environment that sets `FLUENCE_HOST` and `FLUENCE_API_KEY`. -/
def sampleEnv (name : String) : String :=
  if name = "FLUENCE_HOST" then "https://env.example"
  else if name = "FLUENCE_API_KEY" then "env-key"
  else ""

/-- A provider configuration request that decodes without diagnostics. -/
def configRequest (host apiKey : TfString) : ConfigureRequest :=
  ⟨⟨[], ⟨host, apiKey⟩⟩⟩

/-- A key as the API returns it from `CreateSshKey`. -/
def sampleSshKey : SshKey :=
  { Name := some "laptop", PublicKey := "ssh-ed25519 AAAAC3Nz user@host",
    Fingerprint := "SHA256:abc123", Algorithm := "ssh-ed25519", Comment := "user@host",
    Active := true, CreatedAt := "2025-01-01T00:00:00Z" }

/-- Another key of the account. -/
def otherSshKey : SshKey :=
  { Name := none, PublicKey := "ssh-rsa AAAAB3Nz other@host",
    Fingerprint := "SHA256:zzz999", Algorithm := "ssh-rsa", Comment := "other@host",
    Active := true, CreatedAt := "2024-06-01T00:00:00Z" }

/-- A client that creates `sampleSshKey`, lists it after another key, and deletes without
error. -/
def sampleSshClient : SshClient :=
  { CreateSshKey := fun _ => Except.ok sampleSshKey,
    ListSshKeys := Except.ok [otherSshKey, sampleSshKey],
    RemoveSshKey := fun _ => none }

/-- The plan of a new SSH key resource: the computed attributes are unknown. -/
def sampleSshPlan : SshKeyResourceModel :=
  { ID := TfString.unknown, Name := TfString.value "laptop",
    PublicKey := TfString.value "ssh-ed25519 AAAAC3Nz user@host",
    Fingerprint := TfString.unknown, Algorithm := TfString.unknown,
    Comment := TfString.unknown, Active := TfBool.unknown, CreatedAt := TfString.unknown }

/-- A create request for `sampleSshPlan` that decodes without diagnostics. -/
def sampleSshCreateRequest : SshKeyCreateRequest :=
  { Plan := ⟨[], sampleSshPlan⟩,
    PublicKey := ⟨[], TfString.value "ssh-ed25519 AAAAC3Nz user@host"⟩ }

/-- Another VM of the account, with id `vm-0`. -/
def otherVm : RunningInstanceV3 :=
  { Id := "vm-0", Status := "Active", StatusChangedAt := "2024-12-01T00:00:10Z",
    PricePerEpoch := "0.9", CreatedAt := "2024-12-01T00:00:00Z",
    NextBillingAt := "2025-01-02T00:00:00Z", ReservedBalance := "3", TotalSpent := "7",
    OsImage := some "debian", PublicIp := none, VmName := some "db" }

/-- A client whose first listing lacks `vm-1` and whose later listings hold it after
`vm-0`. -/
def clientListedAtSecond : VmClient :=
  ⟨fun n => if n < 1 then Except.ok [otherVm]
    else Except.ok [otherVm, sampleVm "Active", sampleVm "Stale"]⟩

/-- A client whose first listing lacks `vm-1` and whose second lookup fails. -/
def clientErrorAtSecond : VmClient :=
  ⟨fun n => if n < 1 then Except.ok [otherVm] else Except.error "connection reset"⟩

/-- A client whose lookups all fail. -/
def clientAlwaysFailing : VmClient :=
  ⟨fun _ => Except.error "connection reset"⟩

/-- The time the wait loop has slept when it is about to make lookup number `n + 1`, and
so after `n` lookups: nothing before the first, one interval before each later one. -/
def waitSleptAfter (n : Nat) : Nat := (n - 1) * waitRetryInterval

/-- The time the refresh loop has slept after `n` lookups. -/
def refreshSleptAfter (n : Nat) : Nat := (n - 1) * refreshRetryDelay

/-! ## Provider registration -/

/-- The data source constructors the package defines, one per data source file. -/
inductive DataSourceConstructor where
  | NewVmsDataSource : DataSourceConstructor
  | NewSshDataSource : DataSourceConstructor
  | NewDatacentersDataSource : DataSourceConstructor
  | NewAvailableHardwareDataSource : DataSourceConstructor
  | NewDefaultImagesDataSource : DataSourceConstructor
  | NewAvailableCountriesDataSource : DataSourceConstructor
  | NewBasicConfigurationsDataSource : DataSourceConstructor
  | NewEstimateDepositDataSource : DataSourceConstructor
deriving DecidableEq, Repr

/-- The resource constructors the package defines. -/
inductive ResourceConstructor where
  | NewSshKeyResource : ResourceConstructor
  | NewVmResource : ResourceConstructor
deriving DecidableEq, Repr

/-- Go `(*fluenceProvider).DataSources`: the constructors in the returned slice. -/
def fluenceProvider.DataSources : List DataSourceConstructor :=
  [DataSourceConstructor.NewSshDataSource,
   DataSourceConstructor.NewVmsDataSource,
   DataSourceConstructor.NewBasicConfigurationsDataSource,
   DataSourceConstructor.NewAvailableCountriesDataSource,
   DataSourceConstructor.NewAvailableHardwareDataSource]

/-- Go `(*fluenceProvider).Resources`: the constructors in the returned slice. -/
def fluenceProvider.Resources : List ResourceConstructor :=
  [ResourceConstructor.NewSshKeyResource, ResourceConstructor.NewVmResource]

/-- The eight data sources the interface lists: VM listing, SSH key listing, datacenter
listing, hardware catalog, default images, available countries, basic configurations and
deposit estimation. -/
def promisedDataSources : List DataSourceConstructor :=
  [DataSourceConstructor.NewVmsDataSource,
   DataSourceConstructor.NewSshDataSource,
   DataSourceConstructor.NewDatacentersDataSource,
   DataSourceConstructor.NewAvailableHardwareDataSource,
   DataSourceConstructor.NewDefaultImagesDataSource,
   DataSourceConstructor.NewAvailableCountriesDataSource,
   DataSourceConstructor.NewBasicConfigurationsDataSource,
   DataSourceConstructor.NewEstimateDepositDataSource]

/-! ## VM resource: Create, Update, Delete -/

namespace TfInt64

/-- Go `types.Int64.IsNull`. -/
def IsNull : TfInt64 → Bool
  | null => true
  | _ => false

/-- Go `types.Int64.IsUnknown`. -/
def IsUnknown : TfInt64 → Bool
  | unknown => true
  | _ => false

/-- Go `types.Int64.ValueInt64`: the known value, 0 for null and unknown. -/
def ValueInt64 : TfInt64 → Int
  | value i => i
  | _ => 0

end TfInt64

/-- The API client's `OpenPorts`; `Port` is a `uint16`. -/
structure OpenPorts where
  Port : Nat
  Protocol : String
deriving DecidableEq, Repr

/-- The API client's `VmConfiguration`; `Hostname` is a `*string`. -/
structure VmConfiguration where
  Name : String
  OsImage : String
  OpenPorts : List OpenPorts
  SshKeys : List String
  Hostname : Option String
deriving DecidableEq, Repr

/-- The API client's `DatacenterConstraint`. -/
structure DatacenterConstraint where
  Countries : List String
deriving DecidableEq, Repr

/-- The API client's `CpuHardware`. -/
structure CpuHardware where
  Architecture : String
  Manufacturer : String
deriving DecidableEq, Repr

/-- The API client's `MemoryHardware`; the field `Type` is named `Type_` here. -/
structure MemoryHardware where
  Type_ : String
  Generation : String
deriving DecidableEq, Repr

/-- The API client's `StorageHardware`; the field `Type` is named `Type_` here. -/
structure StorageHardware where
  Type_ : String
deriving DecidableEq, Repr

/-- The API client's `HardwareConstraints`. -/
structure HardwareConstraints where
  Cpu : List CpuHardware
  Memory : List MemoryHardware
  Storage : List StorageHardware
deriving DecidableEq, Repr

/-- The API client's `OfferConstraints`; every field is a pointer. -/
structure OfferConstraints where
  BasicConfiguration : Option String
  MaxTotalPricePerEpochUsd : Option String
  Datacenter : Option DatacenterConstraint
  Hardware : Option HardwareConstraints
deriving DecidableEq, Repr

/-- The API client's `CreateVmV3` request; `Instances` is a Go `int` (64 bits wide). -/
structure CreateVmV3 where
  Constraints : Option OfferConstraints
  Instances : Int
  VmConfiguration : VmConfiguration
deriving DecidableEq, Repr

/-- An element of what `CreateVmV3` returns, with the fields the provider reads. -/
structure CreatedVm where
  VmId : String
  VmName : String
deriving DecidableEq, Repr

/-- The API client's `UpdateVm`; `VmName` and `OpenPorts` are pointers. -/
structure UpdateVm where
  Id : String
  VmName : Option String
  OpenPorts : Option (List OpenPorts)
deriving DecidableEq, Repr

/-- The API client as the VM resource uses it. `RemoveVms` is the error it returns (its
other result is discarded by the provider). -/
structure VmResourceClient extends VmClient where
  CreateVmV3 : CreateVmV3 → Except String (List CreatedVm)
  UpdateVms : List UpdateVm → Option String
  RemoveVms : List String → Option String

/-- One call on the API client made by the VM resource. -/
inductive VmClientCall where
  | CreateVmV3 (req : CreateVmV3) : VmClientCall
  | UpdateVms (updates : List UpdateVm) : VmClientCall
  | RemoveVms (vmIds : List String) : VmClientCall
  | ListVmsV3 : VmClientCall
deriving DecidableEq, Repr

/-- The response of a VM resource operation, with the client calls it made in order. -/
structure VmResponse where
  Diagnostics : Diagnostics
  State : StateAction VmResourceModel
  calls : List VmClientCall
deriving DecidableEq, Repr

/-- The request of the VM `Create` and `Update`: what `req.Plan.Get` decodes. -/
structure VmPlanRequest where
  Plan : Decoded VmResourceModel

/-- The conversion `uint16(port.Port.ValueInt64())`: the low 16 bits. -/
def toUint16 (i : Int) : Nat := (i % 65536).toNat

/-- The loop "Convert open ports" of `Create` (lines 223-228), also in `Update`. -/
def VmResource.openPorts (ports : List OpenPortModel) : List OpenPorts :=
  ports.map (fun port =>
    { Port := toUint16 port.Port.ValueInt64, Protocol := port.Protocol.ValueString })

/-- The `vmConfig` that `Create` builds (lines 204-228). -/
def VmResource.vmConfig (data : VmResourceModel) : VmConfiguration :=
  let vmConfig : VmConfiguration :=
    { Name := data.Name.ValueString, OsImage := data.OsImage.ValueString,
      OpenPorts := [], SshKeys := [], Hostname := none }
  let vmConfig := if !data.Hostname.IsNull && !data.Hostname.IsUnknown then
      { vmConfig with Hostname := some data.Hostname.ValueString }
    else vmConfig
  let vmConfig :=
    { vmConfig with SshKeys := vmConfig.SshKeys ++ data.SshKeys.map TfString.ValueString }
  { vmConfig with OpenPorts := vmConfig.OpenPorts ++ VmResource.openPorts data.OpenPorts }

/-- The `constraints` that `Create` builds (lines 231-254). -/
def VmResource.constraints (data : VmResourceModel) : Option OfferConstraints :=
  if !data.BasicConfiguration.IsNull || !data.MaxTotalPricePerEpochUsd.IsNull ||
      data.Countries.length > 0 then
    let constraints : OfferConstraints :=
      { BasicConfiguration := none, MaxTotalPricePerEpochUsd := none, Datacenter := none,
        Hardware := none }
    let constraints := if !data.BasicConfiguration.IsNull then
        { constraints with BasicConfiguration := some data.BasicConfiguration.ValueString }
      else constraints
    let constraints := if !data.MaxTotalPricePerEpochUsd.IsNull then
        { constraints with
          MaxTotalPricePerEpochUsd := some data.MaxTotalPricePerEpochUsd.ValueString }
      else constraints
    let constraints := if data.Countries.length > 0 then
        { constraints with
          Datacenter := some { Countries := data.Countries.map TfString.ValueString } }
      else constraints
    some constraints
  else none

/-- The `instances` that `Create` computes (lines 257-260). -/
def VmResource.instances (data : VmResourceModel) : Int :=
  if !data.Instances.IsNull && !data.Instances.IsUnknown then data.Instances.ValueInt64
  else 1

/-- The `createReq` that `Create` sends (lines 263-267). -/
def VmResource.createReq (data : VmResourceModel) : CreateVmV3 :=
  { Constraints := VmResource.constraints data, Instances := VmResource.instances data,
    VmConfiguration := VmResource.vmConfig data }

/-- The model after `Create` took the first created VM (lines 281-288). -/
def VmResource.createdModel (data : VmResourceModel) (createdVm : CreatedVm) :
    VmResourceModel :=
  let instances := VmResource.instances data
  let data := { data with ID := TfString.value createdVm.VmId }
  let data := { data with Instances := TfInt64.value instances }
  if createdVm.VmName ≠ "" then { data with Name := TfString.value createdVm.VmName }
  else data

/-- Go `(*VmResource).Create`. The lookups of the wait loop are recorded after the create
call. -/
def VmResource.Create (client : VmResourceClient) (req : VmPlanRequest) : VmResponse :=
  let diags : Diagnostics := [] ++ req.Plan.diags
  if HasError diags then
    { Diagnostics := diags, State := StateAction.untouched, calls := [] }
  else
    let data := req.Plan.value
    let createReq := VmResource.createReq data
    match client.CreateVmV3 createReq with
    | Except.error err =>
      { Diagnostics := AddError diags "Client Error"
          ("Unable to create VM, got error: " ++ err),
        State := StateAction.untouched, calls := [VmClientCall.CreateVmV3 createReq] }
    | Except.ok [] =>
      { Diagnostics := AddError diags "Client Error" "No VMs were created",
        State := StateAction.untouched, calls := [VmClientCall.CreateVmV3 createReq] }
    | Except.ok (createdVm :: _) =>
      let data := VmResource.createdModel data createdVm
      let waited := waitForVmActive client.toVmClient data
      let calls := VmClientCall.CreateVmV3 createReq ::
        List.replicate waited.calls VmClientCall.ListVmsV3
      match waited.err with
      | some err =>
        { Diagnostics := AddError diags "VM Creation Error"
            ("VM was created but failed to become active: " ++ err),
          State := StateAction.untouched, calls := calls }
      | none =>
        { Diagnostics := diags, State := StateAction.set waited.data, calls := calls }

/-- The `updates` that `Update` builds (lines 428-450). -/
def VmResource.updates (data : VmResourceModel) : List UpdateVm :=
  let update : UpdateVm := { Id := data.ID.ValueString, VmName := none, OpenPorts := none }
  let update := if !data.Name.IsNull then
      { update with VmName := some data.Name.ValueString }
    else update
  let update := if data.OpenPorts.length > 0 then
      { update with OpenPorts := some ([] ++ VmResource.openPorts data.OpenPorts) }
    else update
  [update]

/-- Go `(*VmResource).Update`. -/
def VmResource.Update (client : VmResourceClient) (req : VmPlanRequest) : VmResponse :=
  let diags : Diagnostics := [] ++ req.Plan.diags
  if HasError diags then
    { Diagnostics := diags, State := StateAction.untouched, calls := [] }
  else
    let data := req.Plan.value
    let updates := VmResource.updates data
    match client.UpdateVms updates with
    | some err =>
      { Diagnostics := AddError diags "Client Error"
          ("Unable to update VM, got error: " ++ err),
        State := StateAction.untouched, calls := [VmClientCall.UpdateVms updates] }
    | none =>
      let refreshed := refreshVmData client.toVmClient data
      let calls := VmClientCall.UpdateVms updates ::
        List.replicate refreshed.calls VmClientCall.ListVmsV3
      match refreshed.err with
      | some err =>
        { Diagnostics := AddError diags "Client Error"
            ("Unable to refresh VM data after update: " ++ err),
          State := StateAction.untouched, calls := calls }
      | none =>
        { Diagnostics := diags, State := StateAction.set refreshed.data, calls := calls }

/-- Go `(*VmResource).Delete`. -/
def VmResource.Delete (client : VmResourceClient) (req : VmReadRequest) : VmResponse :=
  let diags : Diagnostics := [] ++ req.State.diags
  if HasError diags then
    { Diagnostics := diags, State := StateAction.untouched, calls := [] }
  else
    let data := req.State.value
    let vmIds := [data.ID.ValueString]
    match client.RemoveVms vmIds with
    | some err =>
      { Diagnostics := AddError diags "Client Error"
          ("Unable to delete VM, got error: " ++ err),
        State := StateAction.untouched, calls := [VmClientCall.RemoveVms vmIds] }
    | none =>
      { Diagnostics := diags, State := StateAction.untouched,
        calls := [VmClientCall.RemoveVms vmIds] }

/-- The plan of a new VM resource: the id and the computed attributes are unknown. -/
def sampleVmPlan : VmResourceModel :=
  { sampleVmModel with ID := TfString.unknown, Instances := TfInt64.unknown }

/-- A client that creates `vm-1` and then always lists it with status `Failed`. -/
def clientCreatesThenFailed : VmResourceClient :=
  { ListVmsV3 := fun _ => Except.ok [sampleVm "Failed"],
    CreateVmV3 := fun _ => Except.ok [{ VmId := "vm-1", VmName := "web" }],
    UpdateVms := fun _ => none,
    RemoveVms := fun _ => none }

/-- A client whose every method fails with `quota exceeded`. -/
def clientAllFailing : VmResourceClient :=
  { ListVmsV3 := fun _ => Except.error "quota exceeded",
    CreateVmV3 := fun _ => Except.error "quota exceeded",
    UpdateVms := fun _ => some "quota exceeded",
    RemoveVms := fun _ => some "quota exceeded" }

/-! ## Data sources -/

/-- The response of a data source `Read`. -/
structure DataSourceResponse (α : Type) where
  Diagnostics : Diagnostics
  State : StateAction α

/-- The `SshKey` of the client version the SSH key data source imports: `Name` is a plain
string there. -/
structure ListedSshKey where
  Name : String
  Fingerprint : String
  Algorithm : String
  Comment : String
  PublicKey : String
  Active : Bool
  CreatedAt : String
deriving DecidableEq, Repr

/-- What the client's `GetAvailableHardware` returns. -/
structure AvailableHardware where
  Cpu : List CpuHardware
  Memory : List MemoryHardware
  Storage : List StorageHardware
deriving DecidableEq, Repr

/-- An element of what the client's `GetDefaultImages` returns. -/
structure DefaultImage where
  Id : String
  Name : String
  Distribution : String
  Slug : String
  DownloadUrl : String
  Username : String
  CreatedAt : String
  UpdatedAt : String
deriving DecidableEq, Repr

/-- An element of what the client's `GetDatacenters` returns; `Index` and `Tier` are
`int64`. -/
structure Datacenter where
  Id : String
  CountryCode : String
  CityCode : String
  Index : Int
  Tier : Int
  Certifications : List String
  Slug : String
deriving DecidableEq, Repr

/-- The client's `EstimateDepositRequestV3`. -/
structure EstimateDepositRequestV3 where
  Instances : Int
  Constraints : Option OfferConstraints
deriving DecidableEq, Repr

/-- What the client's `EstimateDeposit` returns. -/
structure EstimateDepositResponse where
  DepositAmountUsdc : String
  DepositEpochs : Int
  TotalPricePerEpoch : String
  MaxPricePerEpoch : String
deriving DecidableEq, Repr

/-- The API client as the data sources use it; each `Read` makes one call. -/
structure DataSourceClient where
  ListVmsV3 : Except String (List RunningInstanceV3)
  ListSshKeys : Except String (List ListedSshKey)
  GetAvailableCountries : Except String (List String)
  GetBasicConfigurations : Except String (List String)
  GetAvailableHardware : Except String AvailableHardware
  GetDefaultImages : Except String (List DefaultImage)
  GetDatacenters : Except String (List Datacenter)
  EstimateDeposit : EstimateDepositRequestV3 → Except String EstimateDepositResponse

/-- Go `vmModel` of the VM data source. -/
structure vmModel where
  ID : TfString
  Status : TfString
  PricePerEpoch : TfString
  CreatedAt : TfString
  NextBillingAt : TfString
  ReservedBalance : TfString
  TotalSpent : TfString
  OsImage : TfString
  PublicIp : TfString
  VmName : TfString
deriving DecidableEq, Repr

/-- Go `vmsDataSourceModel`. -/
structure vmsDataSourceModel where
  Vms : List vmModel
deriving DecidableEq, Repr

/-- The body of the loop "Map response body to model" of the VM data source `Read`. -/
def vmsDataSource.vmState (vm : RunningInstanceV3) : vmModel :=
  { ID := TfString.value vm.Id,
    Status := TfString.value vm.Status,
    PricePerEpoch := TfString.value vm.PricePerEpoch,
    CreatedAt := TfString.value vm.CreatedAt,
    NextBillingAt := TfString.value vm.NextBillingAt,
    ReservedBalance := TfString.value vm.ReservedBalance,
    TotalSpent := TfString.value vm.TotalSpent,
    OsImage := (match vm.OsImage with
      | some img => TfString.value img
      | none => TfString.null),
    PublicIp := (match vm.PublicIp with
      | some ip => TfString.value ip
      | none => TfString.null),
    VmName := (match vm.VmName with
      | some name => TfString.value name
      | none => TfString.null) }

/-- Go `(*vmsDataSource).Read`. -/
def vmsDataSource.Read (client : DataSourceClient) : DataSourceResponse vmsDataSourceModel :=
  match client.ListVmsV3 with
  | Except.error err =>
    { Diagnostics := AddError [] "Unable to Read Fluence VMs" err,
      State := StateAction.untouched }
  | Except.ok vms =>
    { Diagnostics := [] ++ [],
      State := StateAction.set { Vms := [] ++ vms.map vmsDataSource.vmState } }

/-- Go `sshKeysModel`. -/
structure sshKeysModel where
  Name : TfString
  Fingerprint : TfString
  Algorithm : TfString
  Comment : TfString
  PublicKey : TfString
  Active : TfBool
  CreatedAt : TfString
deriving DecidableEq, Repr

/-- Go `sshKeysDataSourceModel`. -/
structure sshKeysDataSourceModel where
  SshKeys : List sshKeysModel
deriving DecidableEq, Repr

/-- Go `(*sshDataSource).Read`. -/
def sshDataSource.Read (client : DataSourceClient) :
    DataSourceResponse sshKeysDataSourceModel :=
  match client.ListSshKeys with
  | Except.error err =>
    { Diagnostics := AddError [] "Unable to Read Fluence SSH Keys" err,
      State := StateAction.untouched }
  | Except.ok sshKeys =>
    { Diagnostics := [] ++ [],
      State := StateAction.set
        { SshKeys := [] ++ sshKeys.map (fun (sshKey : ListedSshKey) =>
            { Name := TfString.value sshKey.Name,
              Fingerprint := TfString.value sshKey.Fingerprint,
              Algorithm := TfString.value sshKey.Algorithm,
              Comment := TfString.value sshKey.Comment,
              PublicKey := TfString.value sshKey.PublicKey,
              Active := TfBool.value sshKey.Active,
              CreatedAt := TfString.value sshKey.CreatedAt }) } }

/-- Go `AvailableCountriesDataSourceModel`. -/
structure AvailableCountriesDataSourceModel where
  Countries : List TfString
deriving DecidableEq, Repr

/-- Go `(*availableCountriesDataSource).Read`. -/
def availableCountriesDataSource.Read (client : DataSourceClient)
    (Config : Decoded AvailableCountriesDataSourceModel) :
    DataSourceResponse AvailableCountriesDataSourceModel :=
  let diags : Diagnostics := [] ++ Config.diags
  if HasError diags then
    { Diagnostics := diags, State := StateAction.untouched }
  else
    let data := Config.value
    match client.GetAvailableCountries with
    | Except.error err =>
      { Diagnostics := AddError diags "Client Error"
          ("Unable to read available countries, got error: " ++ err),
        State := StateAction.untouched }
    | Except.ok countries =>
      { Diagnostics := diags,
        State := StateAction.set { data with Countries := countries.map TfString.value } }

/-- Go `BasicConfigurationsDataSourceModel`. -/
structure BasicConfigurationsDataSourceModel where
  Configurations : List TfString
deriving DecidableEq, Repr

/-- Go `(*basicConfigurationsDataSource).Read`. -/
def basicConfigurationsDataSource.Read (client : DataSourceClient)
    (Config : Decoded BasicConfigurationsDataSourceModel) :
    DataSourceResponse BasicConfigurationsDataSourceModel :=
  let diags : Diagnostics := [] ++ Config.diags
  if HasError diags then
    { Diagnostics := diags, State := StateAction.untouched }
  else
    let data := Config.value
    match client.GetBasicConfigurations with
    | Except.error err =>
      { Diagnostics := AddError diags "Client Error"
          ("Unable to read basic configurations, got error: " ++ err),
        State := StateAction.untouched }
    | Except.ok configs =>
      { Diagnostics := diags,
        State := StateAction.set { data with Configurations := configs.map TfString.value } }

/-- Go `CpuHardwareModel`. -/
structure CpuHardwareModel where
  Architecture : TfString
  Manufacturer : TfString
deriving DecidableEq, Repr

/-- Go `MemoryHardwareModel`; the field `Type` is named `Type_` here. -/
structure MemoryHardwareModel where
  Type_ : TfString
  Generation : TfString
deriving DecidableEq, Repr

/-- Go `StorageHardwareModel`; the field `Type` is named `Type_` here. -/
structure StorageHardwareModel where
  Type_ : TfString
deriving DecidableEq, Repr

/-- Go `AvailableHardwareDataSourceModel`. -/
structure AvailableHardwareDataSourceModel where
  Cpu : List CpuHardwareModel
  Memory : List MemoryHardwareModel
  Storage : List StorageHardwareModel
deriving DecidableEq, Repr

/-- Go `(*availableHardwareDataSource).Read`. -/
def availableHardwareDataSource.Read (client : DataSourceClient)
    (Config : Decoded AvailableHardwareDataSourceModel) :
    DataSourceResponse AvailableHardwareDataSourceModel :=
  let diags : Diagnostics := [] ++ Config.diags
  if HasError diags then
    { Diagnostics := diags, State := StateAction.untouched }
  else
    let data := Config.value
    match client.GetAvailableHardware with
    | Except.error err =>
      { Diagnostics := AddError diags "Client Error"
          ("Unable to read available hardware, got error: " ++ err),
        State := StateAction.untouched }
    | Except.ok hardware =>
      let data := { data with Cpu := hardware.Cpu.map (fun (cpu : CpuHardware) =>
        { Architecture := TfString.value cpu.Architecture,
          Manufacturer := TfString.value cpu.Manufacturer }) }
      let data := { data with Memory := hardware.Memory.map (fun (mem : MemoryHardware) =>
        { Type_ := TfString.value mem.Type_, Generation := TfString.value mem.Generation }) }
      let data := { data with Storage := hardware.Storage.map (fun (storage : StorageHardware) =>
        { Type_ := TfString.value storage.Type_ }) }
      { Diagnostics := diags, State := StateAction.set data }

/-- Go `DefaultImageModel`. -/
structure DefaultImageModel where
  Id : TfString
  Name : TfString
  Distribution : TfString
  Slug : TfString
  DownloadUrl : TfString
  Username : TfString
  CreatedAt : TfString
  UpdatedAt : TfString
deriving DecidableEq, Repr

/-- Go `DefaultImagesDataSourceModel`. -/
structure DefaultImagesDataSourceModel where
  Images : List DefaultImageModel
deriving DecidableEq, Repr

/-- Go `(*defaultImagesDataSource).Read`. -/
def defaultImagesDataSource.Read (client : DataSourceClient)
    (Config : Decoded DefaultImagesDataSourceModel) :
    DataSourceResponse DefaultImagesDataSourceModel :=
  let diags : Diagnostics := [] ++ Config.diags
  if HasError diags then
    { Diagnostics := diags, State := StateAction.untouched }
  else
    let data := Config.value
    match client.GetDefaultImages with
    | Except.error err =>
      { Diagnostics := AddError diags "Client Error"
          ("Unable to read default images, got error: " ++ err),
        State := StateAction.untouched }
    | Except.ok images =>
      let data := { data with Images := [] }
      let data := { data with Images := data.Images ++ images.map (fun (img : DefaultImage) =>
        { Id := TfString.value img.Id,
          Name := TfString.value img.Name,
          Distribution := TfString.value img.Distribution,
          Slug := TfString.value img.Slug,
          DownloadUrl := TfString.value img.DownloadUrl,
          Username := TfString.value img.Username,
          CreatedAt := TfString.value img.CreatedAt,
          UpdatedAt := TfString.value img.UpdatedAt }) }
      { Diagnostics := diags, State := StateAction.set data }

/-- Go `DatacenterModel`. -/
structure DatacenterModel where
  Id : TfString
  CountryCode : TfString
  CityCode : TfString
  Index : TfInt64
  Tier : TfInt64
  Certifications : List TfString
  Slug : TfString
deriving DecidableEq, Repr

/-- Go `DatacentersDataSourceModel`. -/
structure DatacentersDataSourceModel where
  Datacenters : List DatacenterModel
deriving DecidableEq, Repr

/-- Go `(*datacentersDataSource).Read`. -/
def datacentersDataSource.Read (client : DataSourceClient)
    (Config : Decoded DatacentersDataSourceModel) :
    DataSourceResponse DatacentersDataSourceModel :=
  let diags : Diagnostics := [] ++ Config.diags
  if HasError diags then
    { Diagnostics := diags, State := StateAction.untouched }
  else
    let data := Config.value
    match client.GetDatacenters with
    | Except.error err =>
      { Diagnostics := AddError diags "Client Error"
          ("Unable to read datacenters, got error: " ++ err),
        State := StateAction.untouched }
    | Except.ok datacenters =>
      let data := { data with Datacenters := [] }
      let data := { data with Datacenters := data.Datacenters ++ datacenters.map (fun (dc : Datacenter) =>
        { Id := TfString.value dc.Id,
          CountryCode := TfString.value dc.CountryCode,
          CityCode := TfString.value dc.CityCode,
          Index := TfInt64.value dc.Index,
          Tier := TfInt64.value dc.Tier,
          Certifications := [] ++ dc.Certifications.map TfString.value,
          Slug := TfString.value dc.Slug }) }
      { Diagnostics := diags, State := StateAction.set data }

/-- Go `EstimateDepositConstraintsModel`. -/
structure EstimateDepositConstraintsModel where
  BasicConfiguration : TfString
  MaxTotalPricePerEpochUsd : TfString
  DatacenterCountries : List TfString
  CpuArchitecture : List TfString
  CpuManufacturer : List TfString
  MemoryType : List TfString
  MemoryGeneration : List TfString
  StorageType : List TfString
deriving DecidableEq, Repr

/-- Go `EstimateDepositDataSourceModel`; `Constraints` is a pointer. -/
structure EstimateDepositDataSourceModel where
  Instances : TfInt64
  Constraints : Option EstimateDepositConstraintsModel
  DepositAmountUsdc : TfString
  DepositEpochs : TfInt64
  TotalPricePerEpoch : TfString
  MaxPricePerEpoch : TfString
deriving DecidableEq, Repr

/-- The `cpuHardware` slice of the deposit-estimate `Read` (lines 200-224), built when one
of the two lists is non-empty. A field that is not set holds the empty string. -/
def estimateDepositDataSource.cpuHardware (CpuArchitecture CpuManufacturer : List TfString) :
    List CpuHardware :=
  if CpuArchitecture.length > 0 ∧ CpuManufacturer.length > 0 then
    (CpuArchitecture.map (fun (arch : TfString) =>
      CpuManufacturer.map (fun (mfr : TfString) =>
        ({ Architecture := arch.ValueString, Manufacturer := mfr.ValueString } :
          CpuHardware)))).flatten
  else if CpuArchitecture.length > 0 then
    CpuArchitecture.map (fun (arch : TfString) =>
      ({ Architecture := arch.ValueString, Manufacturer := "" } : CpuHardware))
  else
    CpuManufacturer.map (fun (mfr : TfString) =>
      ({ Architecture := "", Manufacturer := mfr.ValueString } : CpuHardware))

/-- The `memoryHardware` slice of the deposit-estimate `Read` (lines 232-256). -/
def estimateDepositDataSource.memoryHardware (MemoryType MemoryGeneration : List TfString) :
    List MemoryHardware :=
  if MemoryType.length > 0 ∧ MemoryGeneration.length > 0 then
    (MemoryType.map (fun (memType : TfString) =>
      MemoryGeneration.map (fun (gen : TfString) =>
        ({ Type_ := memType.ValueString, Generation := gen.ValueString } :
          MemoryHardware)))).flatten
  else if MemoryType.length > 0 then
    MemoryType.map (fun (memType : TfString) =>
      ({ Type_ := memType.ValueString, Generation := "" } : MemoryHardware))
  else
    MemoryGeneration.map (fun (gen : TfString) =>
      ({ Type_ := "", Generation := gen.ValueString } : MemoryHardware))

/-- The hardware part of the constraints of the deposit-estimate `Read` (lines 195-276):
present when `hasHardwareConstraints` ends up true. -/
def estimateDepositDataSource.hardware (c : EstimateDepositConstraintsModel) :
    Option HardwareConstraints :=
  let hasHardwareConstraints := false
  let hardwareConstraints : HardwareConstraints := { Cpu := [], Memory := [], Storage := [] }
  let cpuStep : HardwareConstraints × Bool :=
    if c.CpuArchitecture.length > 0 ∨ c.CpuManufacturer.length > 0 then
      ({ hardwareConstraints with
          Cpu := estimateDepositDataSource.cpuHardware c.CpuArchitecture c.CpuManufacturer },
        true)
    else (hardwareConstraints, hasHardwareConstraints)
  let memoryStep : HardwareConstraints × Bool :=
    if c.MemoryType.length > 0 ∨ c.MemoryGeneration.length > 0 then
      ({ cpuStep.1 with
          Memory := estimateDepositDataSource.memoryHardware c.MemoryType c.MemoryGeneration },
        true)
    else cpuStep
  let storageStep : HardwareConstraints × Bool :=
    if c.StorageType.length > 0 then
      ({ memoryStep.1 with
          Storage := c.StorageType.map (fun (storageType : TfString) =>
            ({ Type_ := storageType.ValueString } : StorageHardware)) },
        true)
    else memoryStep
  if storageStep.2 then some storageStep.1 else none

/-- The `constraints` of the deposit-estimate `Read` (lines 169-276), built when the
constraints block is present. -/
def estimateDepositDataSource.constraints (c : EstimateDepositConstraintsModel) :
    OfferConstraints :=
  let constraints : OfferConstraints :=
    { BasicConfiguration := none, MaxTotalPricePerEpochUsd := none, Datacenter := none,
      Hardware := none }
  let constraints := if !c.BasicConfiguration.IsNull then
      { constraints with BasicConfiguration := some c.BasicConfiguration.ValueString }
    else constraints
  let constraints := if !c.MaxTotalPricePerEpochUsd.IsNull then
      { constraints with
        MaxTotalPricePerEpochUsd := some c.MaxTotalPricePerEpochUsd.ValueString }
    else constraints
  let constraints := if c.DatacenterCountries.length > 0 then
      { constraints with
        Datacenter := some { Countries := c.DatacenterCountries.map TfString.ValueString } }
    else constraints
  match estimateDepositDataSource.hardware c with
  | some hardwareConstraints => { constraints with Hardware := some hardwareConstraints }
  | none => constraints

/-- The `estimateRequest` of the deposit-estimate `Read` (lines 163-279). -/
def estimateDepositDataSource.estimateRequest (data : EstimateDepositDataSourceModel) :
    EstimateDepositRequestV3 :=
  let estimateRequest : EstimateDepositRequestV3 :=
    { Instances := data.Instances.ValueInt64, Constraints := none }
  match data.Constraints with
  | some c =>
    { estimateRequest with Constraints := some (estimateDepositDataSource.constraints c) }
  | none => estimateRequest

/-- Go `(*estimateDepositDataSource).Read`. -/
def estimateDepositDataSource.Read (client : DataSourceClient)
    (Config : Decoded EstimateDepositDataSourceModel) :
    DataSourceResponse EstimateDepositDataSourceModel :=
  let diags : Diagnostics := [] ++ Config.diags
  if HasError diags then
    { Diagnostics := diags, State := StateAction.untouched }
  else
    let data := Config.value
    let estimateRequest := estimateDepositDataSource.estimateRequest data
    match client.EstimateDeposit estimateRequest with
    | Except.error err =>
      { Diagnostics := AddError diags "Client Error"
          ("Unable to estimate deposit, got error: " ++ err),
        State := StateAction.untouched }
    | Except.ok estimate =>
      let data := { data with DepositAmountUsdc := TfString.value estimate.DepositAmountUsdc }
      let data := { data with DepositEpochs := TfInt64.value estimate.DepositEpochs }
      let data := { data with
        TotalPricePerEpoch := TfString.value estimate.TotalPricePerEpoch }
      let data := { data with MaxPricePerEpoch := TfString.value estimate.MaxPricePerEpoch }
      { Diagnostics := diags, State := StateAction.set data }

/-- The diagnostics are the earlier ones followed by one error diagnostic with the given
summary whose detail is the given fixed text followed by the error text. -/
def reportsClientError (ds before : Diagnostics) (summary fixed e : String) : Prop :=
  ds = before ++ [⟨Severity.error, summary, fixed ++ e, none⟩]

/-- A data source client whose every method fails with `quota exceeded`. -/
def dataSourceClientAllFailing : DataSourceClient :=
  { ListVmsV3 := Except.error "quota exceeded",
    ListSshKeys := Except.error "quota exceeded",
    GetAvailableCountries := Except.error "quota exceeded",
    GetBasicConfigurations := Except.error "quota exceeded",
    GetAvailableHardware := Except.error "quota exceeded",
    GetDefaultImages := Except.error "quota exceeded",
    GetDatacenters := Except.error "quota exceeded",
    EstimateDeposit := fun _ => Except.error "quota exceeded" }

/-- Two records agree on the eight attributes that the two loops only read: id, hostname,
ssh_keys, open_ports, instances, basic_configuration, max_total_price_per_epoch_usd and
datacenter_countries. -/
def sameInputs (a b : VmResourceModel) : Prop :=
  a.ID = b.ID ∧ a.Hostname = b.Hostname ∧ a.SshKeys = b.SshKeys ∧
  a.OpenPorts = b.OpenPorts ∧ a.Instances = b.Instances ∧
  a.BasicConfiguration = b.BasicConfiguration ∧
  a.MaxTotalPricePerEpochUsd = b.MaxTotalPricePerEpochUsd ∧ a.Countries = b.Countries

/-- A client that creates two VMs, the first `vm-1` without a name, and then always lists
`vm-1` as `Active`. -/
def clientCreatesThenActive : VmResourceClient :=
  { ListVmsV3 := fun _ => Except.ok [sampleVm "Active"],
    CreateVmV3 := fun _ =>
      Except.ok [{ VmId := "vm-1", VmName := "" }, { VmId := "vm-2", VmName := "second" }],
    UpdateVms := fun _ => none,
    RemoveVms := fun _ => none }

/-- A client that creates `vm-1` and whose listings then succeed without ever containing
it. -/
def clientCreatesNeverListed : VmResourceClient :=
  { ListVmsV3 := fun _ => Except.ok [otherVm],
    CreateVmV3 := fun _ => Except.ok [{ VmId := "vm-1", VmName := "web" }],
    UpdateVms := fun _ => none,
    RemoveVms := fun _ => none }

/-- A client whose create call succeeds with an empty list. -/
def clientCreatesNothing : VmResourceClient :=
  { ListVmsV3 := fun _ => Except.ok [sampleVm "Active"],
    CreateVmV3 := fun _ => Except.ok [],
    UpdateVms := fun _ => none,
    RemoveVms := fun _ => none }

/-- A plan that asks for three instances, two open ports (one out of the 16-bit range) and
constraints on the configuration and the countries. -/
def samplePlanThree : VmResourceModel :=
  { sampleVmPlan with
    Instances := TfInt64.value 3,
    OpenPorts := [⟨TfInt64.value 22, TfString.value "tcp"⟩,
      ⟨TfInt64.value 65616, TfString.value "udp"⟩],
    BasicConfiguration := TfString.value "cpu-2-ram-4gb-storage-25gb",
    Countries := [TfString.value "DE", TfString.value "FR"] }

/-- A constraints block in which every field is empty. -/
def emptyConstraintsBlock : EstimateDepositConstraintsModel :=
  { BasicConfiguration := TfString.null, MaxTotalPricePerEpochUsd := TfString.null,
    DatacenterCountries := [], CpuArchitecture := [], CpuManufacturer := [],
    MemoryType := [], MemoryGeneration := [], StorageType := [] }

/-- A deposit-estimate configuration with the given constraints block. -/
def estimateConfig (constraints : Option EstimateDepositConstraintsModel) :
    EstimateDepositDataSourceModel :=
  { Instances := TfInt64.value 2, Constraints := constraints,
    DepositAmountUsdc := TfString.null, DepositEpochs := TfInt64.null,
    TotalPricePerEpoch := TfString.null, MaxPricePerEpoch := TfString.null }

/-- A constraints block with two architectures, two manufacturers and one memory type. -/
def sampleConstraintsBlock : EstimateDepositConstraintsModel :=
  { emptyConstraintsBlock with
    CpuArchitecture := [TfString.value "x86_64", TfString.value "arm64"],
    CpuManufacturer := [TfString.value "AMD", TfString.value "Intel"],
    MemoryType := [TfString.value "DDR" ] }

/-! # Theorems -/

/-! ## Lemmas on the wait loop -/

theorem waitUpdateModel_Status (data : VmResourceModel) (vm : RunningInstanceV3) :
    (waitUpdateModel data vm).Status = TfString.value vm.Status := by
  unfold waitUpdateModel
  cases vm.OsImage <;> cases vm.PublicIp <;> cases vm.VmName <;> rfl

theorem waitUpdateModel_computed (data : VmResourceModel) (vm : RunningInstanceV3) :
    (waitUpdateModel data vm).StatusChangedAt = TfString.value vm.StatusChangedAt ∧
    (waitUpdateModel data vm).PricePerEpoch = TfString.value vm.PricePerEpoch ∧
    (waitUpdateModel data vm).CreatedAt = TfString.value vm.CreatedAt ∧
    (waitUpdateModel data vm).NextBillingAt = TfString.value vm.NextBillingAt ∧
    (waitUpdateModel data vm).ReservedBalance = TfString.value vm.ReservedBalance ∧
    (waitUpdateModel data vm).TotalSpent = TfString.value vm.TotalSpent ∧
    (waitUpdateModel data vm).PublicIp =
      (match vm.PublicIp with
        | some ip => TfString.value ip
        | none => TfString.null) := by
  unfold waitUpdateModel
  cases vm.OsImage <;> cases vm.PublicIp <;> cases vm.VmName <;>
    exact ⟨rfl, rfl, rfl, rfl, rfl, rfl, rfl⟩

theorem waitLoop_step (client : VmClient) (vmId : String) (rem attempt calls slept : Nat)
    (data : VmResourceModel) (h : nonTerminalAttempt client vmId calls = true) :
    waitLoop client vmId (rem + 1) attempt data calls slept =
      waitLoop client vmId rem (attempt + 1) (waitObserve client vmId calls data) (calls + 1)
        (if attempt > 0 then slept + waitRetryInterval else slept) := by
  unfold nonTerminalAttempt at h
  unfold waitObserve
  unfold listedVm at h ⊢
  rw [waitLoop]
  cases hc : client.ListVmsV3 calls with
  | error e => simp
  | ok vms =>
    simp only [hc] at h ⊢
    cases hf : findVm vmId vms with
    | none => rfl
    | some vm =>
      simp only [hf, isTerminalStatus, Bool.not_eq_true', Bool.or_eq_false_iff,
        beq_eq_false_iff_ne, ne_eq] at h
      obtain ⟨⟨⟨⟨h1, h2⟩, h3⟩, h4⟩, h5⟩ := h
      simp [h1, h2, h3, h4, h5]

theorem waitLoop_skip (client : VmClient) (vmId : String) (rem : Nat) :
    ∀ (j attempt calls slept : Nat) (data : VmResourceModel),
      (∀ i, i < j → nonTerminalAttempt client vmId (calls + i) = true) →
      waitLoop client vmId (rem + j) attempt data calls slept =
        waitLoop client vmId rem (attempt + j) (waitObserveMany client vmId j calls data)
          (calls + j) (waitSleptMany j attempt slept) := by
  intro j
  induction j with
  | zero => intro attempt calls slept data _; rfl
  | succ j ih =>
    intro attempt calls slept data h
    have h0 : nonTerminalAttempt client vmId calls = true := by
      simpa using h 0 (Nat.succ_pos j)
    have hrest : ∀ i, i < j → nonTerminalAttempt client vmId (calls + 1 + i) = true := by
      intro i hi
      have := h (i + 1) (Nat.succ_lt_succ hi)
      rwa [show calls + 1 + i = calls + (i + 1) by omega]
    rw [show rem + (j + 1) = (rem + j) + 1 by omega, waitLoop_step _ _ _ _ _ _ _ h0,
      ih _ _ _ _ hrest]
    rw [show attempt + 1 + j = attempt + (j + 1) by omega,
      show calls + 1 + j = calls + (j + 1) by omega]
    rfl

/-- The lookup at which the wait loop stops: a listed VM with a terminal status ends the
loop at that lookup, with success for `Active` and a failure naming the status otherwise. -/
theorem waitLoop_stop (client : VmClient) (vmId : String) (rem attempt calls slept : Nat)
    (data : VmResourceModel) (vm : RunningInstanceV3)
    (hl : listedVm client vmId calls = some vm) (ht : isTerminalStatus vm.Status = true) :
    waitLoop client vmId (rem + 1) attempt data calls slept =
      { err := if vm.Status = "Active" then none
          else some ("VM creation failed with status: " ++ vm.Status),
        data := waitUpdateModel data vm, calls := calls + 1,
        slept := if attempt > 0 then slept + waitRetryInterval else slept } := by
  unfold listedVm at hl
  rw [waitLoop]
  cases hc : client.ListVmsV3 calls with
  | error e => simp [hc] at hl
  | ok vms =>
    simp only [hc] at hl ⊢
    simp only [hl]
    by_cases ha : vm.Status = "Active"
    · simp [ha]
    · have hf : vm.Status = "failed" ∨ vm.Status = "error" ∨ vm.Status = "Failed" ∨
          vm.Status = "Error" := by
        simpa [isTerminalStatus, ha, or_assoc] using ht
      simp [ha, hf]

theorem durationString_createTimeout : durationString createTimeout = "10m0s" := by decide

theorem waitMaxRetries_eq : waitMaxRetries = 60 := by decide

/-- After lookups that never list the VM the model is what it was. -/
theorem waitObserveMany_unlisted (client : VmClient) (vmId : String) :
    ∀ (j n : Nat) (data : VmResourceModel),
      (∀ i, i < j → listedVm client vmId (n + i) = none) →
      waitObserveMany client vmId j n data = data := by
  intro j
  induction j with
  | zero => intro n data _; rfl
  | succ j ih =>
    intro n data h
    have h0 : listedVm client vmId n = none := by simpa using h 0 (Nat.succ_pos j)
    have hrest : ∀ i, i < j → listedVm client vmId (n + 1 + i) = none := by
      intro i hi
      have := h (i + 1) (Nat.succ_lt_succ hi)
      rwa [show n + 1 + i = n + (i + 1) by omega]
    rw [waitObserveMany, ih _ _ hrest]
    simp [waitObserve, h0]

/-- After `j` non-terminal lookups the model's status is the one of the last lookup that
listed the VM. -/
theorem waitObserveMany_Status (client : VmClient) (vmId : String) :
    ∀ (j n m : Nat) (data : VmResourceModel) (vm : RunningInstanceV3), m < j →
      listedVm client vmId (n + m) = some vm →
      (∀ i, m < i → i < j → listedVm client vmId (n + i) = none) →
      (waitObserveMany client vmId j n data).Status = TfString.value vm.Status := by
  intro j
  induction j with
  | zero => intro n m data vm hm; omega
  | succ j ih =>
    intro n m data vm hm hl hafter
    rw [waitObserveMany]
    cases m with
    | zero =>
      have hrest : ∀ i, i < j → listedVm client vmId (n + 1 + i) = none := by
        intro i hi
        have := hafter (i + 1) (Nat.succ_pos i) (Nat.succ_lt_succ hi)
        rwa [show n + 1 + i = n + (i + 1) by omega]
      rw [waitObserveMany_unlisted _ _ _ _ _ hrest]
      simp only [Nat.add_zero] at hl
      simp [waitObserve, hl, waitUpdateModel_Status]
    | succ m =>
      apply ih (n + 1) m _ vm (by omega)
      · rwa [show n + 1 + m = n + (m + 1) by omega]
      · intro i h1 h2
        have := hafter (i + 1) (by omega) (by omega)
        rwa [show n + 1 + i = n + (i + 1) by omega]

/-! ## The wait loop: where it stops -/

/-- The wait loop stops at the first lookup that lists the VM with a terminal status, if
that is among the first 60. -/
theorem waitForVmActive_stops_at (client : VmClient) (data : VmResourceModel) (j : Nat)
    (vm : RunningInstanceV3) (hj : j < 60)
    (hpre : ∀ i, i < j → nonTerminalAttempt client data.ID.ValueString i = true)
    (hat : listedVm client data.ID.ValueString j = some vm)
    (ht : isTerminalStatus vm.Status = true) :
    waitForVmActive client data =
      { err := if vm.Status = "Active" then none
          else some ("VM creation failed with status: " ++ vm.Status),
        data := waitUpdateModel (waitObserveMany client data.ID.ValueString j 0 data) vm,
        calls := j + 1,
        slept := if j > 0 then waitSleptMany j 0 0 + waitRetryInterval
          else waitSleptMany j 0 0 } := by
  unfold waitForVmActive
  have hpre0 : ∀ i, i < j → nonTerminalAttempt client data.ID.ValueString (0 + i) = true := by
    intro i hi
    rw [Nat.zero_add]
    exact hpre i hi
  have hat0 : listedVm client data.ID.ValueString (0 + j) = some vm := by
    rw [Nat.zero_add]
    exact hat
  rw [waitMaxRetries_eq, show 60 = ((59 - j) + 1) + j by omega,
    waitLoop_skip client _ ((59 - j) + 1) j 0 0 0 data hpre0,
    waitLoop_stop client _ (59 - j) (0 + j) (0 + j) _ _ vm hat0 ht]
  simp only [Nat.zero_add]

/-- The wait loop runs out after 60 lookups when none of them is terminal. -/
theorem waitForVmActive_exhausts (client : VmClient) (data : VmResourceModel)
    (hall : ∀ i, i < 60 → nonTerminalAttempt client data.ID.ValueString i = true) :
    waitForVmActive client data =
      waitLoop client data.ID.ValueString 0 60
        (waitObserveMany client data.ID.ValueString 60 0 data) 60 (waitSleptMany 60 0 0) := by
  unfold waitForVmActive
  have hall0 : ∀ i, i < 60 → nonTerminalAttempt client data.ID.ValueString (0 + i) = true := by
    intro i hi
    rw [Nat.zero_add]
    exact hall i hi
  rw [waitMaxRetries_eq, show 60 = 0 + 60 by rfl,
    waitLoop_skip client _ 0 60 0 0 0 data hall0]

theorem timeoutMessage_head :
    "VM did not become active within " ++ durationString createTimeout ++
      " (current status: " = "VM did not become active within 10m0s (current status: " := by
  decide

/-- C1: if lookups 1..k-1 (k at most 60) are all non-terminal and lookup k lists the VM with
status "Active", waitForVmActive returns success after exactly k ListVmsV3 calls, and the
record has status "Active" and its other computed fields from the snapshot of lookup k. -/
theorem waitForVmActive_success_at_first_active (client : VmClient) (data : VmResourceModel)
    (k : Nat) (vm : RunningInstanceV3) (hk1 : 1 ≤ k) (hk60 : k ≤ 60)
    (hpre : ∀ i, i < k - 1 → nonTerminalAttempt client data.ID.ValueString i = true)
    (hat : listedVm client data.ID.ValueString (k - 1) = some vm)
    (hact : vm.Status = "Active") :
    (waitForVmActive client data).err = none ∧
    (waitForVmActive client data).calls = k ∧
    (waitForVmActive client data).data.Status = TfString.value "Active" ∧
    (waitForVmActive client data).data.StatusChangedAt = TfString.value vm.StatusChangedAt ∧
    (waitForVmActive client data).data.PricePerEpoch = TfString.value vm.PricePerEpoch ∧
    (waitForVmActive client data).data.CreatedAt = TfString.value vm.CreatedAt ∧
    (waitForVmActive client data).data.NextBillingAt = TfString.value vm.NextBillingAt ∧
    (waitForVmActive client data).data.ReservedBalance = TfString.value vm.ReservedBalance ∧
    (waitForVmActive client data).data.TotalSpent = TfString.value vm.TotalSpent ∧
    (waitForVmActive client data).data.PublicIp =
      (match vm.PublicIp with
        | some ip => TfString.value ip
        | none => TfString.null) := by
  have ht : isTerminalStatus vm.Status = true := by rw [hact]; decide
  rw [waitForVmActive_stops_at client data (k - 1) vm (by omega) hpre hat ht]
  refine ⟨by simp [hact], by simp; omega, ?_, ?_⟩
  · simp only [waitUpdateModel_Status, hact]
  · exact waitUpdateModel_computed _ vm

/-- Witness of C1: statuses Provisioning, Provisioning, Active succeed at the third lookup. -/
theorem waitForVmActive_success_at_first_active_witness :
    (waitForVmActive clientActiveAtThird sampleVmModel).err = none ∧
    (waitForVmActive clientActiveAtThird sampleVmModel).calls = 3 ∧
    (waitForVmActive clientActiveAtThird sampleVmModel).data.Status = TfString.value "Active" ∧
    (waitForVmActive clientActiveAtThird sampleVmModel).data.StatusChangedAt =
      TfString.value "2025-01-01T00:00:10Z" ∧
    (waitForVmActive clientActiveAtThird sampleVmModel).data.PricePerEpoch =
      TfString.value "0.5" ∧
    (waitForVmActive clientActiveAtThird sampleVmModel).data.CreatedAt =
      TfString.value "2025-01-01T00:00:00Z" ∧
    (waitForVmActive clientActiveAtThird sampleVmModel).data.NextBillingAt =
      TfString.value "2025-01-02T00:00:00Z" ∧
    (waitForVmActive clientActiveAtThird sampleVmModel).data.ReservedBalance =
      TfString.value "10" ∧
    (waitForVmActive clientActiveAtThird sampleVmModel).data.TotalSpent = TfString.value "1" ∧
    (waitForVmActive clientActiveAtThird sampleVmModel).data.PublicIp =
      TfString.value "198.51.100.7" :=
  waitForVmActive_success_at_first_active clientActiveAtThird sampleVmModel 3
    (sampleVm "Active") (by decide) (by decide) (by decide) (by decide) (by decide)

/-- C2: if lookups 1..k-1 (k at most 60) are all non-terminal and lookup k lists the VM with
a status s among "failed", "error", "Failed", "Error", waitForVmActive returns a failure
after exactly k ListVmsV3 calls, and the failure message is "VM creation failed with
status: " followed by s, so it contains s. -/
theorem waitForVmActive_failure_at_first_failed (client : VmClient) (data : VmResourceModel)
    (k : Nat) (vm : RunningInstanceV3) (hk1 : 1 ≤ k) (hk60 : k ≤ 60)
    (hpre : ∀ i, i < k - 1 → nonTerminalAttempt client data.ID.ValueString i = true)
    (hat : listedVm client data.ID.ValueString (k - 1) = some vm)
    (hfail : isFailureStatus vm.Status = true) :
    (waitForVmActive client data).err =
      some ("VM creation failed with status: " ++ vm.Status) ∧
    (waitForVmActive client data).calls = k ∧
    (∀ msg, (waitForVmActive client data).err = some msg → containsText msg vm.Status) := by
  have hcases : vm.Status = "failed" ∨ vm.Status = "error" ∨ vm.Status = "Failed" ∨
      vm.Status = "Error" := by
    simpa [isFailureStatus, or_assoc] using hfail
  have hna : vm.Status ≠ "Active" := by
    rcases hcases with h | h | h | h <;> rw [h] <;> decide
  have ht : isTerminalStatus vm.Status = true := by
    rcases hcases with h | h | h | h <;> rw [h] <;> decide
  rw [waitForVmActive_stops_at client data (k - 1) vm (by omega) hpre hat ht]
  refine ⟨by simp [hna], by simp; omega, ?_⟩
  intro msg hmsg
  simp only [hna, if_false, Option.some.injEq] at hmsg
  exact ⟨"VM creation failed with status: ", "", by rw [← hmsg]; simp⟩

/-- Witness of C2: "Failed" at the first lookup fails after one lookup. -/
theorem waitForVmActive_failure_at_first_failed_witness :
    (waitForVmActive clientFailedAtFirst sampleVmModel).err =
      some ("VM creation failed with status: " ++ "Failed") ∧
    (waitForVmActive clientFailedAtFirst sampleVmModel).calls = 1 ∧
    (∀ msg, (waitForVmActive clientFailedAtFirst sampleVmModel).err = some msg →
      containsText msg "Failed") :=
  waitForVmActive_failure_at_first_failed clientFailedAtFirst sampleVmModel 1
    (sampleVm "Failed") (by decide) (by decide) (by decide) (by decide) (by decide)

/-- C3: if none of the 60 lookups is terminal and the VM is listed at least once, the last
time at lookup m+1 with status s, waitForVmActive returns a failure after exactly 60
ListVmsV3 calls (the 10-minute deadline divided by the 10-second interval) whose message
cites s as the current status. -/
theorem waitForVmActive_timeout_cites_last_status (client : VmClient)
    (data : VmResourceModel) (m : Nat) (vm : RunningInstanceV3)
    (hall : ∀ i, i < 60 → nonTerminalAttempt client data.ID.ValueString i = true)
    (hm : m < 60) (hl : listedVm client data.ID.ValueString m = some vm)
    (hlast : ∀ i, m < i → i < 60 → listedVm client data.ID.ValueString i = none) :
    (waitForVmActive client data).err =
      some ("VM did not become active within 10m0s (current status: " ++ vm.Status ++ ")") ∧
    (waitForVmActive client data).calls = 60 ∧
    createTimeout / waitRetryInterval = 60 ∧
    (∀ msg, (waitForVmActive client data).err = some msg → containsText msg vm.Status) := by
  have hl0 : listedVm client data.ID.ValueString (0 + m) = some vm := by
    rw [Nat.zero_add]
    exact hl
  have hlast0 : ∀ i, m < i → i < 60 → listedVm client data.ID.ValueString (0 + i) = none := by
    intro i h1 h2
    rw [Nat.zero_add]
    exact hlast i h1 h2
  have hstatus := waitObserveMany_Status client data.ID.ValueString 60 0 m data vm hm hl0 hlast0
  have herr : (waitForVmActive client data).err =
      some ("VM did not become active within 10m0s (current status: " ++ vm.Status ++ ")") := by
    rw [waitForVmActive_exhausts client data hall, waitLoop]
    simp only [hstatus, timeoutMessage_head]
    rfl
  refine ⟨herr, ?_, by decide, ?_⟩
  · rw [waitForVmActive_exhausts client data hall, waitLoop]
  · intro msg hmsg
    rw [herr] at hmsg
    exact ⟨"VM did not become active within 10m0s (current status: ", ")",
      (Option.some.inj hmsg).symm⟩

/-- Witness of C3: a VM that is always "Provisioning" fails after 60 lookups citing it. -/
theorem waitForVmActive_timeout_cites_last_status_witness :
    (waitForVmActive clientAlwaysProvisioning sampleVmModel).err =
      some ("VM did not become active within 10m0s (current status: " ++ "Provisioning" ++
        ")") ∧
    (waitForVmActive clientAlwaysProvisioning sampleVmModel).calls = 60 ∧
    createTimeout / waitRetryInterval = 60 ∧
    (∀ msg, (waitForVmActive clientAlwaysProvisioning sampleVmModel).err = some msg →
      containsText msg "Provisioning") :=
  waitForVmActive_timeout_cites_last_status clientAlwaysProvisioning sampleVmModel 59
    (sampleVm "Provisioning") (fun _ _ => rfl) (by decide) rfl (fun i h1 h2 => by omega)

/-! ## The refresh loop -/

theorem findVm_eq_none_of_all_ne (vmId : String) (vms : List RunningInstanceV3)
    (h : vms.all (fun vm => vm.Id != vmId) = true) : findVm vmId vms = none := by
  unfold findVm
  rw [List.find?_eq_none]
  intro vm hvm
  have := (List.all_eq_true.mp h) vm hvm
  simpa using this

theorem refreshLoop_step (client : VmClient) (vmId : String) (rem attempt calls slept : Nat)
    (data : VmResourceModel) (h : listingLacksVm client vmId calls = true) :
    refreshLoop client vmId (rem + 1) attempt data calls slept =
      refreshLoop client vmId rem (attempt + 1) data (calls + 1)
        (if attempt > 0 then slept + refreshRetryDelay else slept) := by
  unfold listingLacksVm at h
  rw [refreshLoop]
  cases hc : client.ListVmsV3 calls with
  | error e => simp [hc] at h
  | ok vms =>
    simp only [hc] at h ⊢
    simp only [findVm_eq_none_of_all_ne vmId vms h]

theorem refreshLoop_skip (client : VmClient) (vmId : String) (rem : Nat) :
    ∀ (j attempt calls slept : Nat) (data : VmResourceModel),
      (∀ i, i < j → listingLacksVm client vmId (calls + i) = true) →
      refreshLoop client vmId (rem + j) attempt data calls slept =
        refreshLoop client vmId rem (attempt + j) data (calls + j)
          (refreshSleptMany j attempt slept) := by
  intro j
  induction j with
  | zero => intro attempt calls slept data _; rfl
  | succ j ih =>
    intro attempt calls slept data h
    have h0 : listingLacksVm client vmId calls = true := by
      simpa using h 0 (Nat.succ_pos j)
    have hrest : ∀ i, i < j → listingLacksVm client vmId (calls + 1 + i) = true := by
      intro i hi
      have := h (i + 1) (Nat.succ_lt_succ hi)
      rwa [show calls + 1 + i = calls + (i + 1) by omega]
    rw [show rem + (j + 1) = (rem + j) + 1 by omega, refreshLoop_step _ _ _ _ _ _ _ h0,
      ih _ _ _ _ hrest]
    rw [show attempt + 1 + j = attempt + (j + 1) by omega,
      show calls + 1 + j = calls + (j + 1) by omega]
    rfl

/-- The refresh loop runs out after 5 lookups when none of the listings has the VM. -/
theorem refreshVmData_exhausts (client : VmClient) (data : VmResourceModel)
    (h : ∀ i, i < 5 → listingLacksVm client data.ID.ValueString i = true) :
    refreshVmData client data =
      { err := some "VM not found after 5 attempts", data := data, calls := 5,
        slept := refreshSleptMany 5 0 0 } := by
  unfold refreshVmData
  have h0 : ∀ i, i < 5 → listingLacksVm client data.ID.ValueString (0 + i) = true := by
    intro i hi
    rw [Nat.zero_add]
    exact h i hi
  rw [show refreshMaxRetries = 0 + 5 by rfl, refreshLoop_skip client _ 0 5 0 0 0 data h0,
    refreshLoop]
  simp only [Nat.zero_add, LoopResult.mk.injEq, Option.some.injEq, and_true, true_and]
  decide

/-- C4: when each of 5 successive ListVmsV3 calls succeeds with a listing that has no VM of
the record's id, refreshVmData returns an error after exactly 5 ListVmsV3 calls and the
model record is unchanged. -/
theorem refreshVmData_absent_five_times (client : VmClient) (data : VmResourceModel)
    (h : ∀ i, i < 5 → listingLacksVm client data.ID.ValueString i = true) :
    (refreshVmData client data).err = some "VM not found after 5 attempts" ∧
    (refreshVmData client data).calls = 5 ∧
    (refreshVmData client data).data = data := by
  rw [refreshVmData_exhausts client data h]
  exact ⟨rfl, rfl, rfl⟩

/-- Witness of C4: listings that are always empty. -/
theorem refreshVmData_absent_five_times_witness :
    (refreshVmData clientNeverListed sampleVmState).err = some "VM not found after 5 attempts" ∧
    (refreshVmData clientNeverListed sampleVmState).calls = 5 ∧
    (refreshVmData clientNeverListed sampleVmState).data = sampleVmState :=
  refreshVmData_absent_five_times clientNeverListed sampleVmState (fun _ _ => rfl)

/-- C5 (evaluation at the failing input): with the VM absent from all 5 listings, Read does
not remove the resource; it leaves the state as it was and adds a "Client Error"
diagnostic, because the text refreshVmData returns is not the text Read compares with. -/
theorem VmResource_Read_absent_keeps_state :
    VmResource.Read clientNeverListed ⟨⟨[], sampleVmState⟩⟩ =
      { Diagnostics := [⟨Severity.error, "Client Error",
          "Unable to refresh VM data: VM not found after 5 attempts", none⟩],
        State := StateAction.untouched, calls := 5 } := by
  decide

/-- On every prior state that decodes, if the VM is absent from all 5 listings then Read
leaves the state untouched and reports an error. -/
theorem VmResource_Read_absent_general (client : VmClient) (req : VmReadRequest)
    (hdec : HasError req.State.diags = false)
    (h : ∀ i, i < 5 → listingLacksVm client req.State.value.ID.ValueString i = true) :
    (VmResource.Read client req).State = StateAction.untouched ∧
    HasError (VmResource.Read client req).Diagnostics = true := by
  unfold VmResource.Read
  simp only [List.nil_append, hdec, refreshVmData_exhausts client req.State.value h]
  have hne : ("VM not found after 5 attempts" : String) ≠ "VM not found" := by decide
  simp [hne, AddError, HasError]

theorem unableToRead_ne_notFound (e : String) : "unable to read VMs: " ++ e ≠ "VM not found" := by
  intro h
  have h2 := congrArg String.data h
  rw [String.data_append] at h2
  have h3 := congrArg List.head? h2
  have h4 : ("unable to read VMs: ".data ++ e.data).head? = some 'u' := rfl
  have h5 : "VM not found".data.head? = some 'V' := rfl
  rw [h4, h5] at h3
  exact absurd (Option.some.inj h3) (by decide)

theorem refreshLoop_err_ne_notFound (client : VmClient) (vmId : String) :
    ∀ (rem attempt calls slept : Nat) (data : VmResourceModel),
      (refreshLoop client vmId rem attempt data calls slept).err ≠ some "VM not found" := by
  intro rem
  induction rem with
  | zero =>
    intro attempt calls slept data
    rw [refreshLoop]
    simp only [ne_eq, Option.some.injEq]
    decide
  | succ rem ih =>
    intro attempt calls slept data
    rw [refreshLoop]
    cases hc : client.ListVmsV3 calls with
    | error e =>
      simp only [ne_eq, Option.some.injEq]
      exact unableToRead_ne_notFound e
    | ok vms =>
      simp only
      cases hf : findVm vmId vms with
      | none => exact ih _ _ _ _
      | some vm => simp

/-- Whatever the listings, Read never removes the resource from state: no error text that
refreshVmData returns equals the text Read compares with. -/
theorem VmResource_Read_never_removes (client : VmClient) (req : VmReadRequest) :
    (VmResource.Read client req).State ≠ StateAction.removed := by
  unfold VmResource.Read
  have hne := refreshLoop_err_ne_notFound client req.State.value.ID.ValueString
    refreshMaxRetries 0 0 0 req.State.value
  cases hdec : HasError req.State.diags
  · simp only [List.nil_append, hdec, Bool.false_eq_true, if_false]
    unfold refreshVmData
    cases herr : (refreshLoop client req.State.value.ID.ValueString refreshMaxRetries 0
        req.State.value 0 0).err with
    | none => simp
    | some err =>
      have : err ≠ "VM not found" := by
        intro h
        rw [h] at herr
        exact hne herr
      simp [this]
  · simp [hdec]

/-! ## Provider configuration -/

theorem HasError_append (a b : Diagnostics) : HasError (a ++ b) = (HasError a || HasError b) := by
  simp [HasError, List.any_append]

theorem HasError_AddAttributeError (ds : Diagnostics) (attr summary detail : String) :
    HasError (AddAttributeError ds attr summary detail) = true := by
  simp [HasError, AddAttributeError, List.any_append]

theorem HasError_AddError (ds : Diagnostics) (summary detail : String) :
    HasError (AddError ds summary detail) = true := by
  simp [HasError, AddError, List.any_append]

theorem not_mem_of_HasError_false (ds : Diagnostics) (d : Diagnostic)
    (h : HasError ds = false) (hd : d.severity = Severity.error) : d ∉ ds := by
  intro hmem
  have : HasError ds = true := by
    unfold HasError
    rw [List.any_eq_true]
    exact ⟨d, hmem, by simp [hd]⟩
  rw [h] at this
  exact Bool.noConfusion this

theorem checkUnknown_known (diags : Diagnostics) (config : fluenceProviderModel)
    (hhost : config.Host.IsUnknown = false) (hkey : config.ApiKey.IsUnknown = false) :
    fluenceProvider.checkUnknown diags config = diags := by
  simp [fluenceProvider.checkUnknown, hhost, hkey]

theorem resolve_known (config : fluenceProviderModel) (getenv : String → String)
    (hhost : config.Host.IsUnknown = false) (hkey : config.ApiKey.IsUnknown = false) :
    fluenceProvider.resolve config getenv = (specHost config getenv, specApiKey config getenv) := by
  obtain ⟨host, key⟩ := config
  cases host <;> cases key <;> simp only [TfString.IsUnknown] at hhost hkey <;>
    first
    | exact Bool.noConfusion hhost
    | exact Bool.noConfusion hkey
    | (by_cases he : getenv "FLUENCE_HOST" = "" <;>
        simp [fluenceProvider.resolve, specHost, specApiKey, TfString.IsNull,
          TfString.ValueString, he])

theorem checkMissing_HasError (diags : Diagnostics) (host api_key : String)
    (hdec : HasError diags = false) :
    HasError (fluenceProvider.checkMissing diags host api_key) =
      decide (host = "" ∨ api_key = "") := by
  unfold fluenceProvider.checkMissing
  by_cases hh : host = "" <;> by_cases hk : api_key = "" <;>
    simp [hh, hk, hdec, HasError_AddAttributeError]

theorem checkMissing_mem_host (diags : Diagnostics) (host api_key : String)
    (hdec : HasError diags = false) :
    missingHostDiagnostic ∈ fluenceProvider.checkMissing diags host api_key ↔ host = "" := by
  have hn : missingHostDiagnostic ∉ diags := not_mem_of_HasError_false diags _ hdec rfl
  have hne : missingHostDiagnostic ≠
      ⟨Severity.error, "Missing Fluence API ApiKey", missingApiKeyDetail, some "api_key"⟩ := by
    decide
  unfold missingHostDiagnostic at hn hne
  unfold fluenceProvider.checkMissing
  by_cases hh : host = "" <;> by_cases hk : api_key = "" <;>
    simp [hh, hk, hn, hne, AddAttributeError, missingHostDiagnostic]

theorem checkMissing_mem_apiKey (diags : Diagnostics) (host api_key : String)
    (hdec : HasError diags = false) :
    missingApiKeyDiagnostic ∈ fluenceProvider.checkMissing diags host api_key ↔
      api_key = "" := by
  have hn : missingApiKeyDiagnostic ∉ diags := not_mem_of_HasError_false diags _ hdec rfl
  have hne : missingApiKeyDiagnostic ≠
      ⟨Severity.error, "Missing Fluence API Host", missingHostDetail, some "host"⟩ := by
    decide
  unfold missingApiKeyDiagnostic at hn hne
  unfold fluenceProvider.checkMissing
  by_cases hh : host = "" <;> by_cases hk : api_key = "" <;>
    simp [hh, hk, hn, hne, AddAttributeError, missingApiKeyDiagnostic]

/-- What `Configure` does once the configuration decodes and both attributes are known: it
resolves host and key and calls the constructor exactly when both are non-empty. -/
theorem Configure_known {Client : Type} (NewClient : String → String → Except String Client)
    (getenv : String → String) (req : ConfigureRequest)
    (hdec : HasError req.Config.diags = false)
    (hhost : req.Config.value.Host.IsUnknown = false)
    (hkey : req.Config.value.ApiKey.IsUnknown = false) :
    (fluenceProvider.Configure NewClient getenv req).newClientCalls =
      (if specHost req.Config.value getenv = "" ∨ specApiKey req.Config.value getenv = ""
        then [] else [(specHost req.Config.value getenv, specApiKey req.Config.value getenv)]) ∧
    (missingHostDiagnostic ∈ (fluenceProvider.Configure NewClient getenv req).Diagnostics ↔
      specHost req.Config.value getenv = "") ∧
    (missingApiKeyDiagnostic ∈ (fluenceProvider.Configure NewClient getenv req).Diagnostics ↔
      specApiKey req.Config.value getenv = "") := by
  unfold fluenceProvider.Configure
  simp only [List.nil_append, hdec, checkUnknown_known _ _ hhost hkey,
    resolve_known _ _ hhost hkey, checkMissing_HasError _ _ _ hdec]
  by_cases hor : specHost req.Config.value getenv = "" ∨ specApiKey req.Config.value getenv = ""
  · simp only [hor, decide_True, if_true, Bool.false_eq_true, if_false]
    exact ⟨trivial, checkMissing_mem_host _ _ _ hdec, checkMissing_mem_apiKey _ _ _ hdec⟩
  · simp only [hor, decide_False, if_false, Bool.false_eq_true]
    have hh := checkMissing_mem_host req.Config.diags (specHost req.Config.value getenv)
      (specApiKey req.Config.value getenv) hdec
    have hk := checkMissing_mem_apiKey req.Config.diags (specHost req.Config.value getenv)
      (specApiKey req.Config.value getenv) hdec
    cases NewClient (specHost req.Config.value getenv) (specApiKey req.Config.value getenv) with
    | error e =>
      simp only [AddError, List.mem_append, List.mem_singleton, hh, hk, true_and]
      constructor
      · constructor
        · rintro (h | h)
          · exact h
          · exact Option.noConfusion (congrArg Diagnostic.path h)
        · intro h; exact Or.inl h
      · constructor
        · rintro (h | h)
          · exact h
          · exact Option.noConfusion (congrArg Diagnostic.path h)
        · intro h; exact Or.inl h
    | ok c => exact ⟨rfl, hh, hk⟩

theorem specHost_eq_empty_iff (config : fluenceProviderModel) (getenv : String → String)
    (hhost : config.Host.IsUnknown = false) :
    specHost config getenv = "" ↔ config.Host = TfString.value "" := by
  obtain ⟨host, key⟩ := config
  cases host with
  | null =>
    by_cases he : getenv "FLUENCE_HOST" = ""
    · simp only [specHost, he]
      decide
    · simp [specHost, he]
  | unknown => exact Bool.noConfusion hhost
  | value h => simp [specHost]

/-- C6 fails as stated at a known configuration whose host attribute is the empty string and
whose key is set: no host is passed to the constructor, for Configure makes no
constructor call. -/
theorem Configure_empty_host_makes_no_call :
    HasError (configRequest (TfString.value "") (TfString.value "key")).Config.diags = false ∧
    (configRequest (TfString.value "") (TfString.value "key")).Config.value.Host.IsUnknown
      = false ∧
    (configRequest (TfString.value "") (TfString.value "key")).Config.value.ApiKey.IsUnknown
      = false ∧
    (configRequest (TfString.value "") (TfString.value "key")).Config.value.Host.IsNull
      = false ∧
    specApiKey (configRequest (TfString.value "") (TfString.value "key")).Config.value
      sampleEnv = "key" ∧
    (fluenceProvider.Configure recordingNewClient sampleEnv
      (configRequest (TfString.value "") (TfString.value "key"))).newClientCalls = [] ∧
    (fluenceProvider.Configure recordingNewClient sampleEnv
      (configRequest (TfString.value "") (TfString.value "key"))).DataSourceData = none := by
  decide

/-- C6 (amended): for a configuration that decodes, has both attributes known and resolves
to a non-empty API key, Configure makes exactly one constructor call, with the configured
host when that is a non-empty value, with FLUENCE_HOST when the attribute is null and the
variable non-empty, and with "https://api.fluence.dev" when the attribute is null and the
variable empty; when the host attribute is the empty string it makes no constructor call
and reports "Missing Fluence API Host". -/
theorem Configure_host_precedence {Client : Type}
    (NewClient : String → String → Except String Client) (getenv : String → String)
    (req : ConfigureRequest) (hdec : HasError req.Config.diags = false)
    (hhost : req.Config.value.Host.IsUnknown = false)
    (hkey : req.Config.value.ApiKey.IsUnknown = false)
    (hk : specApiKey req.Config.value getenv ≠ "") :
    (∀ h, req.Config.value.Host = TfString.value h → h ≠ "" →
      (fluenceProvider.Configure NewClient getenv req).newClientCalls =
        [(h, specApiKey req.Config.value getenv)]) ∧
    (req.Config.value.Host = TfString.null → getenv "FLUENCE_HOST" ≠ "" →
      (fluenceProvider.Configure NewClient getenv req).newClientCalls =
        [(getenv "FLUENCE_HOST", specApiKey req.Config.value getenv)]) ∧
    (req.Config.value.Host = TfString.null → getenv "FLUENCE_HOST" = "" →
      (fluenceProvider.Configure NewClient getenv req).newClientCalls =
        [("https://api.fluence.dev", specApiKey req.Config.value getenv)]) ∧
    (req.Config.value.Host = TfString.value "" →
      (fluenceProvider.Configure NewClient getenv req).newClientCalls = [] ∧
      missingHostDiagnostic ∈ (fluenceProvider.Configure NewClient getenv req).Diagnostics) ∧
    (fluenceProvider.resolve req.Config.value getenv).1 = specHost req.Config.value getenv := by
  obtain ⟨hcalls, hmh, -⟩ := Configure_known NewClient getenv req hdec hhost hkey
  have hempty := specHost_eq_empty_iff req.Config.value getenv hhost
  refine ⟨?_, ?_, ?_, ?_, ?_⟩
  · intro h hv hne
    have hs : specHost req.Config.value getenv = h := by simp [specHost, hv]
    rw [hcalls, hs]
    simp [hne, hk]
  · intro hv hne
    have hs : specHost req.Config.value getenv = getenv "FLUENCE_HOST" := by
      simp [specHost, hv, hne]
    rw [hcalls, hs]
    simp [hne, hk]
  · intro hv he
    have hs : specHost req.Config.value getenv = "https://api.fluence.dev" := by
      simp [specHost, hv, he]
    rw [hcalls, hs]
    simp [hk]
  · intro hv
    have hs : specHost req.Config.value getenv = "" := hempty.mpr hv
    exact ⟨by rw [hcalls]; simp [hs], hmh.mpr hs⟩
  · rw [resolve_known _ _ hhost hkey]

/-- Witness of C6: a null host with FLUENCE_HOST set passes the variable's value. -/
theorem Configure_host_precedence_witness :
    (fluenceProvider.Configure recordingNewClient sampleEnv
      (configRequest TfString.null (TfString.value "key"))).newClientCalls =
        [("https://env.example", "key")] :=
  (Configure_host_precedence recordingNewClient sampleEnv
    (configRequest TfString.null (TfString.value "key")) (by decide) (by decide) (by decide)
    (by decide)).2.1 rfl (by decide)

theorem checkUnknown_unknown (diags : Diagnostics) (config : fluenceProviderModel) :
    (config.Host.IsUnknown = true →
      unknownHostDiagnostic ∈ fluenceProvider.checkUnknown diags config) ∧
    (config.ApiKey.IsUnknown = true →
      unknownApiKeyDiagnostic ∈ fluenceProvider.checkUnknown diags config) ∧
    (config.Host.IsUnknown = true ∨ config.ApiKey.IsUnknown = true →
      HasError (fluenceProvider.checkUnknown diags config) = true) := by
  unfold fluenceProvider.checkUnknown
  cases hh : config.Host.IsUnknown <;> cases hk : config.ApiKey.IsUnknown <;>
    simp [HasError, List.any_append, AddAttributeError, unknownHostDiagnostic,
      unknownApiKeyDiagnostic]

/-- C7: for a configuration that decodes and whose host or api_key attribute is unknown,
whatever the client constructor and the environment, Configure reports the error
diagnostic of each unknown attribute, makes no constructor call, and sets neither
DataSourceData nor ResourceData. -/
theorem Configure_unknown_rejected {Client : Type}
    (NewClient : String → String → Except String Client) (getenv : String → String)
    (req : ConfigureRequest) (hdec : HasError req.Config.diags = false)
    (hunk : req.Config.value.Host.IsUnknown = true ∨ req.Config.value.ApiKey.IsUnknown = true) :
    (req.Config.value.Host.IsUnknown = true →
      unknownHostDiagnostic ∈ (fluenceProvider.Configure NewClient getenv req).Diagnostics) ∧
    (req.Config.value.ApiKey.IsUnknown = true →
      unknownApiKeyDiagnostic ∈ (fluenceProvider.Configure NewClient getenv req).Diagnostics) ∧
    HasError (fluenceProvider.Configure NewClient getenv req).Diagnostics = true ∧
    (fluenceProvider.Configure NewClient getenv req).newClientCalls = [] ∧
    (fluenceProvider.Configure NewClient getenv req).DataSourceData = none ∧
    (fluenceProvider.Configure NewClient getenv req).ResourceData = none := by
  obtain ⟨h1, h2, h3⟩ := checkUnknown_unknown req.Config.diags req.Config.value
  unfold fluenceProvider.Configure
  simp only [List.nil_append, hdec, h3 hunk, Bool.false_eq_true, if_false, if_true]
  exact ⟨h1, h2, trivial, trivial, trivial, trivial⟩

/-- Witness of C7: an unknown host with both environment variables set. -/
theorem Configure_unknown_rejected_witness :
    unknownHostDiagnostic ∈ (fluenceProvider.Configure recordingNewClient sampleEnv
      (configRequest TfString.unknown (TfString.value "key"))).Diagnostics ∧
    (fluenceProvider.Configure recordingNewClient sampleEnv
      (configRequest TfString.unknown (TfString.value "key"))).newClientCalls = [] ∧
    (fluenceProvider.Configure recordingNewClient sampleEnv
      (configRequest TfString.unknown (TfString.value "key"))).DataSourceData = none ∧
    (fluenceProvider.Configure recordingNewClient sampleEnv
      (configRequest TfString.unknown (TfString.value "key"))).ResourceData = none :=
  have h := Configure_unknown_rejected recordingNewClient sampleEnv
    (configRequest TfString.unknown (TfString.value "key")) (by decide) (Or.inl (by decide))
  ⟨h.1 (by decide), h.2.2.2.1, h.2.2.2.2.1, h.2.2.2.2.2⟩

/-- C8: for a configuration that decodes and has both attributes known, the key Configure
uses is the configured api_key when that is non-null and FLUENCE_API_KEY otherwise; every
constructor call carries that key; and Configure reports "Missing Fluence API ApiKey" and
makes no constructor call if and only if that key is the empty string. -/
theorem Configure_api_key_required {Client : Type}
    (NewClient : String → String → Except String Client) (getenv : String → String)
    (req : ConfigureRequest) (hdec : HasError req.Config.diags = false)
    (hhost : req.Config.value.Host.IsUnknown = false)
    (hkey : req.Config.value.ApiKey.IsUnknown = false) :
    (fluenceProvider.resolve req.Config.value getenv).2 = specApiKey req.Config.value getenv ∧
    (∀ call, call ∈ (fluenceProvider.Configure NewClient getenv req).newClientCalls →
      call.2 = specApiKey req.Config.value getenv) ∧
    ((missingApiKeyDiagnostic ∈ (fluenceProvider.Configure NewClient getenv req).Diagnostics ∧
        (fluenceProvider.Configure NewClient getenv req).newClientCalls = []) ↔
      specApiKey req.Config.value getenv = "") ∧
    (specApiKey req.Config.value getenv ≠ "" → req.Config.value.Host ≠ TfString.value "" →
      (fluenceProvider.Configure NewClient getenv req).newClientCalls =
        [(specHost req.Config.value getenv, specApiKey req.Config.value getenv)]) := by
  obtain ⟨hcalls, -, hmk⟩ := Configure_known NewClient getenv req hdec hhost hkey
  have hempty := specHost_eq_empty_iff req.Config.value getenv hhost
  refine ⟨by rw [resolve_known _ _ hhost hkey], ?_, ?_, ?_⟩
  · intro call hcall
    rw [hcalls] at hcall
    by_cases hor : specHost req.Config.value getenv = "" ∨ specApiKey req.Config.value getenv = ""
    · simp [hor] at hcall
    · simp only [hor, if_false, List.mem_singleton] at hcall
      rw [hcall]
  · constructor
    · intro h
      exact hmk.mp h.1
    · intro h
      exact ⟨hmk.mpr h, by rw [hcalls]; simp [h]⟩
  · intro hk hh
    have hs : specHost req.Config.value getenv ≠ "" := fun h => hh (hempty.mp h)
    rw [hcalls]
    simp [hs, hk]

/-- Witness of C8: a null api_key with no FLUENCE_API_KEY is rejected without a client. -/
theorem Configure_api_key_required_witness :
    missingApiKeyDiagnostic ∈ (fluenceProvider.Configure recordingNewClient emptyEnv
      (configRequest (TfString.value "https://h.example") TfString.null)).Diagnostics ∧
    (fluenceProvider.Configure recordingNewClient emptyEnv
      (configRequest (TfString.value "https://h.example") TfString.null)).newClientCalls = [] :=
  (Configure_api_key_required recordingNewClient emptyEnv
    (configRequest (TfString.value "https://h.example") TfString.null) (by decide) (by decide)
    (by decide)).2.2.1.mpr rfl

/-! ## SSH key resource -/

theorem createModel_identity (data : SshKeyResourceModel) (sshKey : SshKey) :
    (SshKeyResource.createModel data sshKey).ID = TfString.value sshKey.Fingerprint ∧
    (SshKeyResource.createModel data sshKey).Fingerprint = TfString.value sshKey.Fingerprint := by
  unfold SshKeyResource.createModel
  cases sshKey.Name <;> exact ⟨rfl, rfl⟩

theorem readModel_identity (data : SshKeyResourceModel) (foundKey : SshKey) :
    (SshKeyResource.readModel data foundKey).ID = data.ID ∧
    (SshKeyResource.readModel data foundKey).Fingerprint =
      TfString.value foundKey.Fingerprint := by
  unfold SshKeyResource.readModel
  cases foundKey.Name <;> exact ⟨rfl, rfl⟩

theorem Delete_calls (client : SshClient) (diags : Diagnostics) (data : SshKeyResourceModel)
    (hdec : HasError diags = false) :
    (SshKeyResource.Delete client ⟨⟨diags, data⟩⟩).calls =
      [SshClientCall.RemoveSshKey data.Fingerprint.ValueString] := by
  unfold SshKeyResource.Delete
  simp only [List.nil_append, hdec, Bool.false_eq_true, if_false]
  cases client.RemoveSshKey data.Fingerprint.ValueString <;> rfl

/-- C9: when CreateSshKey succeeds with fingerprint f, the state Create writes has
id = fingerprint = f; Delete on that state calls RemoveSshKey with exactly f; a following
Read looks the listing up by f, and when the listing has a key with fingerprint f the state
it writes again has id = fingerprint = f, and Delete on that state calls RemoveSshKey with
exactly f. (Plan and state are taken to decode without error.) -/
theorem SshKey_fingerprint_roundtrip (client : SshClient) (req : SshKeyCreateRequest)
    (sshKey : SshKey) (hplan : HasError req.Plan.diags = false)
    (hpk : HasError req.PublicKey.diags = false)
    (hcreate : client.CreateSshKey
      (SshKeyResource.createReq req.Plan.value req.PublicKey.value) = Except.ok sshKey) :
    (SshKeyResource.Create client req).State =
      StateAction.set (SshKeyResource.createModel req.Plan.value sshKey) ∧
    (SshKeyResource.createModel req.Plan.value sshKey).ID =
      TfString.value sshKey.Fingerprint ∧
    (SshKeyResource.createModel req.Plan.value sshKey).Fingerprint =
      TfString.value sshKey.Fingerprint ∧
    (∀ (deleter : SshClient) (diags : Diagnostics), HasError diags = false →
      (SshKeyResource.Delete deleter
        ⟨⟨diags, SshKeyResource.createModel req.Plan.value sshKey⟩⟩).calls =
        [SshClientCall.RemoveSshKey sshKey.Fingerprint]) ∧
    (∀ (reader : SshClient) (rdiags : Diagnostics) (keys : List SshKey) (found : SshKey),
      HasError rdiags = false → reader.ListSshKeys = Except.ok keys →
      keys.find? (fun key => key.Fingerprint == sshKey.Fingerprint) = some found →
      found.Fingerprint = sshKey.Fingerprint ∧
      (SshKeyResource.Read reader
        ⟨⟨rdiags, SshKeyResource.createModel req.Plan.value sshKey⟩⟩).State =
        StateAction.set (SshKeyResource.readModel
          (SshKeyResource.createModel req.Plan.value sshKey) found) ∧
      (SshKeyResource.readModel
        (SshKeyResource.createModel req.Plan.value sshKey) found).ID =
        TfString.value sshKey.Fingerprint ∧
      (SshKeyResource.readModel
        (SshKeyResource.createModel req.Plan.value sshKey) found).Fingerprint =
        TfString.value sshKey.Fingerprint ∧
      (∀ (deleter : SshClient) (diags : Diagnostics), HasError diags = false →
        (SshKeyResource.Delete deleter ⟨⟨diags, SshKeyResource.readModel
          (SshKeyResource.createModel req.Plan.value sshKey) found⟩⟩).calls =
          [SshClientCall.RemoveSshKey sshKey.Fingerprint])) := by
  obtain ⟨hid, hfp⟩ := createModel_identity req.Plan.value sshKey
  refine ⟨?_, hid, hfp, ?_, ?_⟩
  · unfold SshKeyResource.Create
    simp only [List.nil_append, hplan, HasError_append, hpk, Bool.or_self, Bool.false_eq_true,
      if_false, hcreate]
  · intro deleter diags hd
    rw [Delete_calls deleter diags _ hd, hfp]
    rfl
  · intro reader rdiags keys found hd hlist hfind
    have hfound : found.Fingerprint = sshKey.Fingerprint := by
      have := List.find?_some hfind
      simpa using this
    obtain ⟨rid, rfp⟩ := readModel_identity (SshKeyResource.createModel req.Plan.value sshKey)
      found
    refine ⟨hfound, ?_, by rw [rid, hid], by rw [rfp, hfound], ?_⟩
    · unfold SshKeyResource.Read
      simp only [List.nil_append, hd, Bool.false_eq_true, if_false, hlist, hid, findKey,
        TfString.ValueString, hfind]
    · intro deleter diags hdd
      rw [Delete_calls deleter diags _ hdd, rfp, hfound]
      rfl

/-- Witness of C9: create, read and delete of the key with fingerprint SHA256:abc123. -/
theorem SshKey_fingerprint_roundtrip_witness :
    (SshKeyResource.Create sampleSshClient sampleSshCreateRequest).State =
      StateAction.set (SshKeyResource.createModel sampleSshPlan sampleSshKey) ∧
    (SshKeyResource.createModel sampleSshPlan sampleSshKey).ID =
      TfString.value "SHA256:abc123" ∧
    (SshKeyResource.Read sampleSshClient
      ⟨⟨[], SshKeyResource.createModel sampleSshPlan sampleSshKey⟩⟩).State =
      StateAction.set (SshKeyResource.readModel
        (SshKeyResource.createModel sampleSshPlan sampleSshKey) sampleSshKey) ∧
    (SshKeyResource.Delete sampleSshClient ⟨⟨[], SshKeyResource.readModel
      (SshKeyResource.createModel sampleSshPlan sampleSshKey) sampleSshKey⟩⟩).calls =
      [SshClientCall.RemoveSshKey "SHA256:abc123"] :=
  have h := SshKey_fingerprint_roundtrip sampleSshClient sampleSshCreateRequest sampleSshKey
    (by decide) (by decide) rfl
  have hr := h.2.2.2.2 sampleSshClient [] [otherSshKey, sampleSshKey] sampleSshKey
    (by decide) rfl (by decide)
  ⟨h.1, h.2.1, hr.2.1, hr.2.2.2.2 sampleSshClient [] (by decide)⟩

/-- C10: for every plan the SSH key Update ends with an error diagnostic, makes no client
call and leaves the state untouched; when the plan decodes without error the diagnostics
are those of the decoding followed by the fixed "Update Not Supported" one. -/
theorem SshKey_Update_rejected (client : SshClient) (req : SshKeyUpdateRequest) :
    HasError (SshKeyResource.Update client req).Diagnostics = true ∧
    (SshKeyResource.Update client req).calls = [] ∧
    (SshKeyResource.Update client req).State = StateAction.untouched ∧
    (HasError req.Plan.diags = false →
      (SshKeyResource.Update client req).Diagnostics =
        req.Plan.diags ++ [updateNotSupportedDiagnostic]) := by
  unfold SshKeyResource.Update
  cases hdec : HasError req.Plan.diags
  · simp only [List.nil_append, hdec, Bool.false_eq_true, if_false, HasError_AddError]
    exact ⟨trivial, trivial, trivial, fun _ => rfl⟩
  · simp only [List.nil_append, hdec, if_true]
    exact ⟨trivial, trivial, trivial, fun h => Bool.noConfusion h⟩

/-- Witness of C10: a plan that decodes without diagnostics gets exactly the fixed one. -/
theorem SshKey_Update_rejected_witness :
    (SshKeyResource.Update sampleSshClient ⟨⟨[], sampleSshPlan⟩⟩).Diagnostics =
      [updateNotSupportedDiagnostic] :=
  (SshKey_Update_rejected sampleSshClient ⟨⟨[], sampleSshPlan⟩⟩).2.2.2 (by decide)

/-! ## The SSH key Read -/

theorem findKey_first_match (id : String) (pre post : List SshKey) (found : SshKey)
    (hpre : ∀ key, key ∈ pre → key.Fingerprint ≠ id) (hfound : found.Fingerprint = id) :
    findKey id (pre ++ found :: post) = some found := by
  unfold findKey
  have hnone : List.find? (fun key => key.Fingerprint == id) pre = none := by
    rw [List.find?_eq_none]
    intro key hkey
    simpa using hpre key hkey
  rw [List.find?_append, hnone]
  simp [hfound]

theorem findKey_absent (id : String) (keys : List SshKey)
    (h : ∀ key, key ∈ keys → key.Fingerprint ≠ id) : findKey id keys = none := by
  unfold findKey
  rw [List.find?_eq_none]
  intro key hkey
  simpa using h key hkey

/-- C11: for a prior state that decodes and a successful ListSshKeys result: if no listed
key has the state's id as fingerprint, Read removes the resource and its diagnostics hold
no error; if the listing has such a key, Read does not remove the resource but writes the
prior state with name, public key, fingerprint, algorithm, comment, active flag and
creation time replaced by those of the first such key. -/
theorem SshKey_Read_removes_or_writes_first_match (client : SshClient)
    (req : SshKeyStateRequest) (keys : List SshKey)
    (hdec : HasError req.State.diags = false) (hlist : client.ListSshKeys = Except.ok keys) :
    ((∀ key, key ∈ keys → key.Fingerprint ≠ req.State.value.ID.ValueString) →
      (SshKeyResource.Read client req).State = StateAction.removed ∧
      HasError (SshKeyResource.Read client req).Diagnostics = false) ∧
    (∀ (pre post : List SshKey) (found : SshKey), keys = pre ++ found :: post →
      (∀ key, key ∈ pre → key.Fingerprint ≠ req.State.value.ID.ValueString) →
      found.Fingerprint = req.State.value.ID.ValueString →
      (SshKeyResource.Read client req).State ≠ StateAction.removed ∧
      HasError (SshKeyResource.Read client req).Diagnostics = false ∧
      (SshKeyResource.Read client req).State = StateAction.set
        { ID := req.State.value.ID,
          Name := (match found.Name with
            | some name => TfString.value name
            | none => TfString.null),
          PublicKey := TfString.value found.PublicKey,
          Fingerprint := TfString.value found.Fingerprint,
          Algorithm := TfString.value found.Algorithm,
          Comment := TfString.value found.Comment,
          Active := TfBool.value found.Active,
          CreatedAt := TfString.value found.CreatedAt }) := by
  constructor
  · intro habsent
    unfold SshKeyResource.Read
    simp only [List.nil_append, hdec, Bool.false_eq_true, if_false, hlist,
      findKey_absent _ _ habsent]
    exact ⟨trivial, trivial⟩
  · intro pre post found hkeys hpre hfound
    have hfind := findKey_first_match req.State.value.ID.ValueString pre post found hpre hfound
    unfold SshKeyResource.Read
    simp only [List.nil_append, hdec, Bool.false_eq_true, if_false, hlist, hkeys, hfind]
    refine ⟨by simp, trivial, ?_⟩
    unfold SshKeyResource.readModel
    cases found.Name <;> rfl

/-- Witness of C11: the key SHA256:abc123 listed second is the one written. -/
theorem SshKey_Read_removes_or_writes_first_match_witness :
    (SshKeyResource.Read sampleSshClient
      ⟨⟨[], SshKeyResource.createModel sampleSshPlan sampleSshKey⟩⟩).State =
      StateAction.set
        { ID := TfString.value "SHA256:abc123",
          Name := TfString.value "laptop",
          PublicKey := TfString.value "ssh-ed25519 AAAAC3Nz user@host",
          Fingerprint := TfString.value "SHA256:abc123",
          Algorithm := TfString.value "ssh-ed25519",
          Comment := TfString.value "user@host",
          Active := TfBool.value true,
          CreatedAt := TfString.value "2025-01-01T00:00:00Z" } :=
  ((SshKey_Read_removes_or_writes_first_match sampleSshClient
    ⟨⟨[], SshKeyResource.createModel sampleSshPlan sampleSshKey⟩⟩ [otherSshKey, sampleSshKey]
    (by decide) rfl).2 [otherSshKey] [] sampleSshKey rfl (by decide) rfl).2.2

/-! ## One attempt of the wait loop -/

theorem waitLoop_calls_ge (client : VmClient) (vmId : String) :
    ∀ (rem attempt calls slept : Nat) (data : VmResourceModel),
      calls ≤ (waitLoop client vmId rem attempt data calls slept).calls := by
  intro rem
  induction rem with
  | zero =>
    intro attempt calls slept data
    rw [waitLoop]
  | succ rem ih =>
    intro attempt calls slept data
    rw [waitLoop]
    have hnext := ih (attempt + 1)
    cases client.ListVmsV3 calls with
    | error e => exact Nat.le_trans (Nat.le_succ calls) (hnext _ _ _)
    | ok vms =>
      simp only
      cases findVm vmId vms with
      | none => exact Nat.le_trans (Nat.le_succ calls) (hnext _ _ _)
      | some vm =>
        simp only
        split
        · exact Nat.le_succ calls
        · split
          · exact Nat.le_succ calls
          · exact Nat.le_trans (Nat.le_succ calls) (hnext _ _ _)

theorem waitLoop_calls_gt (client : VmClient) (vmId : String)
    (rem attempt calls slept : Nat) (data : VmResourceModel) :
    calls + 1 ≤ (waitLoop client vmId (rem + 1) attempt data calls slept).calls := by
  rw [waitLoop]
  have hnext := waitLoop_calls_ge client vmId rem (attempt + 1) (calls + 1)
  cases client.ListVmsV3 calls with
  | error e => exact hnext _ _
  | ok vms =>
    simp only
    cases findVm vmId vms with
    | none => exact hnext _ _
    | some vm =>
      simp only
      split
      · exact Nat.le_refl _
      · split
        · exact Nat.le_refl _
        · exact hnext _ _

theorem listedVm_none_of_failed_or_absent (client : VmClient) (vmId : String) (n : Nat)
    (h : (∃ e, client.ListVmsV3 n = Except.error e) ∨
      (∃ vms, client.ListVmsV3 n = Except.ok vms ∧ ∀ vm, vm ∈ vms → vm.Id ≠ vmId)) :
    listedVm client vmId n = none := by
  unfold listedVm
  rcases h with ⟨e, he⟩ | ⟨vms, hv, habs⟩
  · rw [he]
  · rw [hv]
    apply findVm_eq_none_of_all_ne
    rw [List.all_eq_true]
    intro vm hvm
    simpa using habs vm hvm

theorem isTerminalStatus_iff (s : String) :
    isTerminalStatus s = true ↔
      (s = "Active" ∨ s = "failed" ∨ s = "error" ∨ s = "Failed" ∨ s = "Error") := by
  simp [isTerminalStatus, or_assoc]

/-- C12: at an attempt of waitForVmActive that finds the VM with status s: if s is one of
"Active", "failed", "error", "Failed", "Error" the run ends with that lookup; for every
other s the run goes on as the loop from the next attempt with the updated record, whose
status is s, so with attempts remaining one more lookup is made; hence with attempts
remaining the run ends at this lookup if and only if s is one of the five literals. The
comparison is exact: "active", "ACTIVE" and "FAILED" are not among them. -/
theorem waitLoop_exits_iff_terminal_status (client : VmClient) (vmId : String)
    (rem attempt calls slept : Nat) (data : VmResourceModel) (vm : RunningInstanceV3)
    (hfound : listedVm client vmId calls = some vm) :
    ((vm.Status = "Active" ∨ vm.Status = "failed" ∨ vm.Status = "error" ∨
        vm.Status = "Failed" ∨ vm.Status = "Error") →
      waitLoop client vmId (rem + 1) attempt data calls slept =
        { err := if vm.Status = "Active" then none
            else some ("VM creation failed with status: " ++ vm.Status),
          data := waitUpdateModel data vm, calls := calls + 1,
          slept := if attempt > 0 then slept + waitRetryInterval else slept }) ∧
    (¬ (vm.Status = "Active" ∨ vm.Status = "failed" ∨ vm.Status = "error" ∨
        vm.Status = "Failed" ∨ vm.Status = "Error") →
      waitLoop client vmId (rem + 1) attempt data calls slept =
        waitLoop client vmId rem (attempt + 1) (waitUpdateModel data vm) (calls + 1)
          (if attempt > 0 then slept + waitRetryInterval else slept) ∧
      (waitUpdateModel data vm).Status = TfString.value vm.Status) ∧
    ((waitLoop client vmId (rem + 2) attempt data calls slept).calls = calls + 1 ↔
      (vm.Status = "Active" ∨ vm.Status = "failed" ∨ vm.Status = "error" ∨
        vm.Status = "Failed" ∨ vm.Status = "Error")) ∧
    (isTerminalStatus "active" = false ∧ isTerminalStatus "ACTIVE" = false ∧
      isTerminalStatus "FAILED" = false) := by
  have hstop : ∀ r, (vm.Status = "Active" ∨ vm.Status = "failed" ∨ vm.Status = "error" ∨
        vm.Status = "Failed" ∨ vm.Status = "Error") →
      waitLoop client vmId (r + 1) attempt data calls slept =
        { err := if vm.Status = "Active" then none
            else some ("VM creation failed with status: " ++ vm.Status),
          data := waitUpdateModel data vm, calls := calls + 1,
          slept := if attempt > 0 then slept + waitRetryInterval else slept } :=
    fun r ht => waitLoop_stop client vmId r attempt calls slept data vm hfound
      ((isTerminalStatus_iff vm.Status).mpr ht)
  have hgo : ∀ r, ¬ (vm.Status = "Active" ∨ vm.Status = "failed" ∨ vm.Status = "error" ∨
        vm.Status = "Failed" ∨ vm.Status = "Error") →
      waitLoop client vmId (r + 1) attempt data calls slept =
        waitLoop client vmId r (attempt + 1) (waitUpdateModel data vm) (calls + 1)
          (if attempt > 0 then slept + waitRetryInterval else slept) := by
    intro r hnt
    have hn : nonTerminalAttempt client vmId calls = true := by
      unfold nonTerminalAttempt
      rw [hfound]
      cases hb : isTerminalStatus vm.Status
      · simp [hb]
      · exact absurd ((isTerminalStatus_iff vm.Status).mp hb) hnt
    rw [waitLoop_step client vmId r attempt calls slept data hn]
    simp only [waitObserve, hfound]
  refine ⟨hstop rem, fun hnt => ⟨hgo rem hnt, waitUpdateModel_Status data vm⟩, ?_,
    by decide, by decide, by decide⟩
  constructor
  · intro hcalls
    by_contra hnt
    rw [hgo (rem + 1) hnt] at hcalls
    have := waitLoop_calls_gt client vmId rem (attempt + 1) (calls + 1)
      (if attempt > 0 then slept + waitRetryInterval else slept) (waitUpdateModel data vm)
    omega
  · intro ht
    rw [hstop (rem + 1) ht]

/-- Witness of C12: "Provisioning" at the first lookup is stored and the loop goes on. -/
theorem waitLoop_exits_iff_terminal_status_witness :
    waitLoop clientAlwaysProvisioning "vm-1" 60 0 sampleVmModel 0 0 =
      waitLoop clientAlwaysProvisioning "vm-1" 59 1
        (waitUpdateModel sampleVmModel (sampleVm "Provisioning")) 1 0 ∧
    (waitUpdateModel sampleVmModel (sampleVm "Provisioning")).Status =
      TfString.value "Provisioning" :=
  (waitLoop_exits_iff_terminal_status clientAlwaysProvisioning "vm-1" 59 0 0 0 sampleVmModel
    (sampleVm "Provisioning") rfl).2.1 (by decide)

/-- C14: an attempt of waitForVmActive whose ListVmsV3 call fails, or whose listing has no
VM with the id, does not end the run: the run goes on as the loop from the next attempt
with the record exactly as it was, and with attempts remaining one more lookup is made. -/
theorem waitLoop_unlisted_attempt_keeps_record (client : VmClient) (vmId : String)
    (rem attempt calls slept : Nat) (data : VmResourceModel)
    (h : (∃ e, client.ListVmsV3 calls = Except.error e) ∨
      (∃ vms, client.ListVmsV3 calls = Except.ok vms ∧ ∀ vm, vm ∈ vms → vm.Id ≠ vmId)) :
    waitLoop client vmId (rem + 1) attempt data calls slept =
      waitLoop client vmId rem (attempt + 1) data (calls + 1)
        (if attempt > 0 then slept + waitRetryInterval else slept) ∧
    calls + 2 ≤ (waitLoop client vmId (rem + 2) attempt data calls slept).calls := by
  have hnone := listedVm_none_of_failed_or_absent client vmId calls h
  have hn : nonTerminalAttempt client vmId calls = true := by
    unfold nonTerminalAttempt
    rw [hnone]
  have hgo : ∀ r, waitLoop client vmId (r + 1) attempt data calls slept =
      waitLoop client vmId r (attempt + 1) data (calls + 1)
        (if attempt > 0 then slept + waitRetryInterval else slept) := by
    intro r
    rw [waitLoop_step client vmId r attempt calls slept data hn]
    simp only [waitObserve, hnone]
  refine ⟨hgo rem, ?_⟩
  rw [hgo (rem + 1)]
  exact waitLoop_calls_gt client vmId rem (attempt + 1) (calls + 1) _ data

/-- Witness of C14: a failed first lookup leaves the record and the loop goes on. -/
theorem waitLoop_unlisted_attempt_keeps_record_witness :
    waitLoop clientAlwaysFailing "vm-1" 59 0 sampleVmModel 0 0 =
      waitLoop clientAlwaysFailing "vm-1" 58 1 sampleVmModel 1 0 ∧
    2 ≤ (waitLoop clientAlwaysFailing "vm-1" 60 0 sampleVmModel 0 0).calls :=
  waitLoop_unlisted_attempt_keeps_record clientAlwaysFailing "vm-1" 58 0 0 0 sampleVmModel
    (Or.inl ⟨"connection reset", rfl⟩)

/-! ## The wait loop when the VM is never listed -/

theorem nonTerminalAttempt_of_unlisted (client : VmClient) (vmId : String) (n : Nat)
    (h : listedVm client vmId n = none) : nonTerminalAttempt client vmId n = true := by
  unfold nonTerminalAttempt
  rw [h]

/-- When none of the 60 lookups lists the VM, the run makes 60 lookups and ends in the
code after the loop with the record it started from. -/
theorem waitForVmActive_never_listed (client : VmClient) (data : VmResourceModel)
    (h : ∀ i, i < 60 → listedVm client data.ID.ValueString i = none) :
    waitForVmActive client data =
      waitLoop client data.ID.ValueString 0 60 data 60 (waitSleptMany 60 0 0) := by
  have hall : ∀ i, i < 60 → nonTerminalAttempt client data.ID.ValueString i = true :=
    fun i hi => nonTerminalAttempt_of_unlisted _ _ _ (h i hi)
  have h0 : ∀ i, i < 60 → listedVm client data.ID.ValueString (0 + i) = none := by
    intro i hi
    rw [Nat.zero_add]
    exact h i hi
  rw [waitForVmActive_exhausts client data hall,
    waitObserveMany_unlisted client data.ID.ValueString 60 0 data h0]

/-- The code after the loop, when none of the 60 lookups lists the VM (each fails or
returns a listing without the id): the run makes 60 lookups and the message shows
"unknown" for a record whose status is null, an empty status for a record whose status is
unknown, and s for a record whose status is the known value s. -/
theorem waitForVmActive_never_listed_status_text (client : VmClient)
    (data : VmResourceModel)
    (h : ∀ i, i < 60 → ((∃ e, client.ListVmsV3 i = Except.error e) ∨
      (∃ vms, client.ListVmsV3 i = Except.ok vms ∧
        ∀ vm, vm ∈ vms → vm.Id ≠ data.ID.ValueString))) :
    (waitForVmActive client data).calls = 60 ∧
    (data.Status = TfString.null →
      (waitForVmActive client data).err =
        some "VM did not become active within 10m0s (current status: unknown)") ∧
    (data.Status = TfString.unknown →
      (waitForVmActive client data).err =
        some "VM did not become active within 10m0s (current status: )") ∧
    (∀ s, data.Status = TfString.value s →
      (waitForVmActive client data).err =
        some ("VM did not become active within 10m0s (current status: " ++ s ++ ")")) := by
  have hnone : ∀ i, i < 60 → listedVm client data.ID.ValueString i = none :=
    fun i hi => listedVm_none_of_failed_or_absent client _ i (h i hi)
  rw [waitForVmActive_never_listed client data hnone, waitLoop]
  refine ⟨rfl, ?_, ?_, ?_⟩
  · intro hs
    simp only [hs, timeoutMessage_head]
    rfl
  · intro hs
    simp only [hs, timeoutMessage_head]
    rfl
  · intro s hs
    simp only [hs, timeoutMessage_head]
    rfl

/-- The record that Create hands to the wait loop keeps the plan's status, so for a plan
whose computed status is unknown it is unknown, not null. -/
theorem createdModel_Status (data : VmResourceModel) (createdVm : CreatedVm) :
    (VmResource.createdModel data createdVm).Status = data.Status := by
  unfold VmResource.createdModel
  split <;> rfl

/-- C13 (evaluation at the failing input): Create hands waitForVmActive the plan record,
whose status is unknown and not null; when none of the 60 lookups lists the created VM,
the failure message shows an empty current status, not "unknown", and Create reports that
message. -/
theorem Create_never_listed_reports_empty_status :
    (VmResource.createdModel sampleVmPlan { VmId := "vm-1", VmName := "web" }).Status =
      TfString.unknown ∧
    (∀ i, i < 60 → listedVm clientCreatesNeverListed.toVmClient "vm-1" i = none) ∧
    (waitForVmActive clientCreatesNeverListed.toVmClient
      (VmResource.createdModel sampleVmPlan { VmId := "vm-1", VmName := "web" })).calls = 60 ∧
    (waitForVmActive clientCreatesNeverListed.toVmClient
      (VmResource.createdModel sampleVmPlan { VmId := "vm-1", VmName := "web" })).err =
      some "VM did not become active within 10m0s (current status: )" ∧
    (waitForVmActive clientCreatesNeverListed.toVmClient
      (VmResource.createdModel sampleVmPlan { VmId := "vm-1", VmName := "web" })).err ≠
      some "VM did not become active within 10m0s (current status: unknown)" ∧
    (VmResource.Create clientCreatesNeverListed ⟨⟨[], sampleVmPlan⟩⟩).Diagnostics =
      [⟨Severity.error, "VM Creation Error",
        "VM was created but failed to become active: VM did not become active within 10m0s (current status: )",
        none⟩] := by
  decide

/-- The record that Create hands over has an unknown status, which is not null: with the
VM never listed the message then shows an empty current status. -/
theorem waitForVmActive_never_listed_unknown_status :
    (waitForVmActive clientNeverListed sampleVmModel).err =
      some "VM did not become active within 10m0s (current status: )" := by
  decide

/-! ## The refresh loop: first listing and first error -/

theorem findVm_first_match (vmId : String) (pre post : List RunningInstanceV3)
    (vm : RunningInstanceV3) (hpre : ∀ x, x ∈ pre → x.Id ≠ vmId) (hid : vm.Id = vmId) :
    findVm vmId (pre ++ vm :: post) = some vm := by
  unfold findVm
  have hnone : List.find? (fun x => x.Id == vmId) pre = none := by
    rw [List.find?_eq_none]
    intro x hx
    simpa using hpre x hx
  rw [List.find?_append, hnone]
  simp [hid]

theorem refreshUpdateModel_computed (data : VmResourceModel) (vm : RunningInstanceV3) :
    (refreshUpdateModel data vm).Status = TfString.value vm.Status ∧
    (refreshUpdateModel data vm).StatusChangedAt = TfString.value vm.StatusChangedAt ∧
    (refreshUpdateModel data vm).PricePerEpoch = TfString.value vm.PricePerEpoch ∧
    (refreshUpdateModel data vm).CreatedAt = TfString.value vm.CreatedAt ∧
    (refreshUpdateModel data vm).NextBillingAt = TfString.value vm.NextBillingAt ∧
    (refreshUpdateModel data vm).ReservedBalance = TfString.value vm.ReservedBalance ∧
    (refreshUpdateModel data vm).TotalSpent = TfString.value vm.TotalSpent := by
  unfold refreshUpdateModel
  cases vm.OsImage <;> cases vm.PublicIp <;> cases vm.VmName <;>
    exact ⟨rfl, rfl, rfl, rfl, rfl, rfl, rfl⟩

/-- The refresh loop after `j` listings that lack the VM: what lookup `j + 1` decides. -/
theorem refreshVmData_after_absent (client : VmClient) (data : VmResourceModel) (j : Nat)
    (hj : j < 5)
    (hpre : ∀ i, i < j → listingLacksVm client data.ID.ValueString i = true) :
    refreshVmData client data =
      refreshLoop client data.ID.ValueString ((4 - j) + 1) j data j
        (refreshSleptMany j 0 0) := by
  unfold refreshVmData
  have hpre0 : ∀ i, i < j → listingLacksVm client data.ID.ValueString (0 + i) = true := by
    intro i hi
    rw [Nat.zero_add]
    exact hpre i hi
  rw [show refreshMaxRetries = ((4 - j) + 1) + j by unfold refreshMaxRetries; omega,
    refreshLoop_skip client _ ((4 - j) + 1) j 0 0 0 data hpre0]
  simp only [Nat.zero_add]

/-- C18: for k from 1 to 5, when the first k-1 listings succeed without the VM and listing
k succeeds and has the VM, refreshVmData returns success after exactly k ListVmsV3 calls,
and the record's status, status-changed, price, created, next-billing, reserved-balance
and total-spent fields are those of the first element of listing k whose id matches. -/
theorem refreshVmData_found_at_attempt (client : VmClient) (data : VmResourceModel)
    (k : Nat) (pre post : List RunningInstanceV3) (vm : RunningInstanceV3)
    (hk1 : 1 ≤ k) (hk5 : k ≤ 5)
    (hpre : ∀ i, i < k - 1 → listingLacksVm client data.ID.ValueString i = true)
    (hat : client.ListVmsV3 (k - 1) = Except.ok (pre ++ vm :: post))
    (hfirst : ∀ x, x ∈ pre → x.Id ≠ data.ID.ValueString)
    (hid : vm.Id = data.ID.ValueString) :
    (refreshVmData client data).err = none ∧
    (refreshVmData client data).calls = k ∧
    (refreshVmData client data).data.Status = TfString.value vm.Status ∧
    (refreshVmData client data).data.StatusChangedAt = TfString.value vm.StatusChangedAt ∧
    (refreshVmData client data).data.PricePerEpoch = TfString.value vm.PricePerEpoch ∧
    (refreshVmData client data).data.CreatedAt = TfString.value vm.CreatedAt ∧
    (refreshVmData client data).data.NextBillingAt = TfString.value vm.NextBillingAt ∧
    (refreshVmData client data).data.ReservedBalance = TfString.value vm.ReservedBalance ∧
    (refreshVmData client data).data.TotalSpent = TfString.value vm.TotalSpent := by
  rw [refreshVmData_after_absent client data (k - 1) (by omega) hpre, refreshLoop]
  simp only [hat, findVm_first_match _ pre post vm hfirst hid]
  exact ⟨trivial, by omega, refreshUpdateModel_computed data vm⟩

/-- Witness of C18: the VM appears at the second listing, after another VM and before a
second entry with the same id. -/
theorem refreshVmData_found_at_attempt_witness :
    (refreshVmData clientListedAtSecond sampleVmState).err = none ∧
    (refreshVmData clientListedAtSecond sampleVmState).calls = 2 ∧
    (refreshVmData clientListedAtSecond sampleVmState).data.Status =
      TfString.value "Active" ∧
    (refreshVmData clientListedAtSecond sampleVmState).data.StatusChangedAt =
      TfString.value "2025-01-01T00:00:10Z" ∧
    (refreshVmData clientListedAtSecond sampleVmState).data.PricePerEpoch =
      TfString.value "0.5" ∧
    (refreshVmData clientListedAtSecond sampleVmState).data.CreatedAt =
      TfString.value "2025-01-01T00:00:00Z" ∧
    (refreshVmData clientListedAtSecond sampleVmState).data.NextBillingAt =
      TfString.value "2025-01-02T00:00:00Z" ∧
    (refreshVmData clientListedAtSecond sampleVmState).data.ReservedBalance =
      TfString.value "10" ∧
    (refreshVmData clientListedAtSecond sampleVmState).data.TotalSpent =
      TfString.value "1" :=
  refreshVmData_found_at_attempt clientListedAtSecond sampleVmState 2 [otherVm]
    [sampleVm "Stale"] (sampleVm "Active") (by decide) (by decide) (by decide) rfl
    (by decide) rfl

/-- C19: for k from 1 to 5, when the first k-1 listings succeed without the VM and lookup k
fails with error e, refreshVmData returns the error "unable to read VMs: " followed by e
after exactly k ListVmsV3 calls with the record unchanged; the wait loop, by contrast,
goes on to its next attempt after a failed lookup. -/
theorem refreshVmData_first_error_returns (client : VmClient) (data : VmResourceModel)
    (k : Nat) (e : String) (hk1 : 1 ≤ k) (hk5 : k ≤ 5)
    (hpre : ∀ i, i < k - 1 → listingLacksVm client data.ID.ValueString i = true)
    (herr : client.ListVmsV3 (k - 1) = Except.error e) :
    (refreshVmData client data).err = some ("unable to read VMs: " ++ e) ∧
    (refreshVmData client data).calls = k ∧
    (refreshVmData client data).data = data ∧
    (∀ (vmId : String) (rem attempt slept : Nat) (record : VmResourceModel),
      waitLoop client vmId (rem + 1) attempt record (k - 1) slept =
        waitLoop client vmId rem (attempt + 1) record (k - 1 + 1)
          (if attempt > 0 then slept + waitRetryInterval else slept)) := by
  refine ⟨?_, ?_, ?_, ?_⟩
  · rw [refreshVmData_after_absent client data (k - 1) (by omega) hpre, refreshLoop]
    simp only [herr]
  · rw [refreshVmData_after_absent client data (k - 1) (by omega) hpre, refreshLoop]
    simp only [herr]
    omega
  · rw [refreshVmData_after_absent client data (k - 1) (by omega) hpre, refreshLoop]
    simp only [herr]
  · intro vmId rem attempt slept record
    have hnone : listedVm client vmId (k - 1) = none :=
      listedVm_none_of_failed_or_absent client vmId (k - 1) (Or.inl ⟨e, herr⟩)
    rw [waitLoop_step client vmId rem attempt (k - 1) slept record
      (nonTerminalAttempt_of_unlisted _ _ _ hnone)]
    simp only [waitObserve, hnone]

/-- Witness of C19: the second lookup fails after a first listing without the VM. -/
theorem refreshVmData_first_error_returns_witness :
    (refreshVmData clientErrorAtSecond sampleVmState).err =
      some ("unable to read VMs: " ++ "connection reset") ∧
    (refreshVmData clientErrorAtSecond sampleVmState).calls = 2 ∧
    (refreshVmData clientErrorAtSecond sampleVmState).data = sampleVmState :=
  have h := refreshVmData_first_error_returns clientErrorAtSecond sampleVmState 2
    "connection reset" (by decide) (by decide) (by decide) rfl
  ⟨h.1, h.2.1, h.2.2.1⟩

/-! ## Time slept by the two loops -/

theorem waitSleptAfter_succ (attempt : Nat) :
    (if attempt > 0 then waitSleptAfter attempt + waitRetryInterval
      else waitSleptAfter attempt) = waitSleptAfter (attempt + 1) := by
  cases attempt with
  | zero => simp [waitSleptAfter]
  | succ n => simp [waitSleptAfter, Nat.succ_mul]

theorem refreshSleptAfter_succ (attempt : Nat) :
    (if attempt > 0 then refreshSleptAfter attempt + refreshRetryDelay
      else refreshSleptAfter attempt) = refreshSleptAfter (attempt + 1) := by
  cases attempt with
  | zero => simp [refreshSleptAfter]
  | succ n => simp [refreshSleptAfter, Nat.succ_mul]

/-- Started at an attempt with as many lookups made and the matching time slept, the wait
loop ends with the time slept matching the lookups made. -/
theorem waitLoop_slept (client : VmClient) (vmId : String) :
    ∀ (rem attempt : Nat) (data : VmResourceModel),
      (waitLoop client vmId rem attempt data attempt (waitSleptAfter attempt)).slept =
        waitSleptAfter
          (waitLoop client vmId rem attempt data attempt (waitSleptAfter attempt)).calls ∧
      (waitLoop client vmId rem attempt data attempt (waitSleptAfter attempt)).calls
        ≤ attempt + rem ∧
      (0 < rem → attempt <
        (waitLoop client vmId rem attempt data attempt (waitSleptAfter attempt)).calls) := by
  intro rem
  induction rem with
  | zero =>
    intro attempt data
    rw [waitLoop]
    exact ⟨rfl, Nat.le_refl _, fun h => absurd h (Nat.lt_irrefl 0)⟩
  | succ rem ih =>
    intro attempt data
    rw [waitLoop]
    simp only [waitSleptAfter_succ]
    have hstop : waitSleptAfter (attempt + 1) = waitSleptAfter (attempt + 1) ∧
        attempt + 1 ≤ attempt + (rem + 1) ∧ (0 < rem + 1 → attempt < attempt + 1) :=
      ⟨rfl, by omega, fun _ => Nat.lt_succ_self attempt⟩
    have hnext : ∀ d : VmResourceModel,
        (waitLoop client vmId rem (attempt + 1) d (attempt + 1)
          (waitSleptAfter (attempt + 1))).slept =
          waitSleptAfter (waitLoop client vmId rem (attempt + 1) d (attempt + 1)
            (waitSleptAfter (attempt + 1))).calls ∧
        (waitLoop client vmId rem (attempt + 1) d (attempt + 1)
          (waitSleptAfter (attempt + 1))).calls ≤ attempt + (rem + 1) ∧
        (0 < rem + 1 → attempt < (waitLoop client vmId rem (attempt + 1) d (attempt + 1)
          (waitSleptAfter (attempt + 1))).calls) := by
      intro d
      obtain ⟨h1, h2, -⟩ := ih (attempt + 1) d
      have h3 := waitLoop_calls_ge client vmId rem (attempt + 1) (attempt + 1)
        (waitSleptAfter (attempt + 1)) d
      exact ⟨h1, by omega, fun _ => by omega⟩
    cases client.ListVmsV3 attempt with
    | error e => exact hnext data
    | ok vms =>
      simp only
      cases findVm vmId vms with
      | none => exact hnext data
      | some vm =>
        simp only
        split
        · exact hstop
        · split
          · exact hstop
          · exact hnext _

theorem refreshLoop_calls_ge (client : VmClient) (vmId : String) :
    ∀ (rem attempt calls slept : Nat) (data : VmResourceModel),
      calls ≤ (refreshLoop client vmId rem attempt data calls slept).calls := by
  intro rem
  induction rem with
  | zero =>
    intro attempt calls slept data
    rw [refreshLoop]
  | succ rem ih =>
    intro attempt calls slept data
    rw [refreshLoop]
    cases client.ListVmsV3 calls with
    | error e => exact Nat.le_succ calls
    | ok vms =>
      simp only
      cases findVm vmId vms with
      | none => exact Nat.le_trans (Nat.le_succ calls) (ih _ _ _ _)
      | some vm => exact Nat.le_succ calls

/-- The same accounting for the refresh loop. -/
theorem refreshLoop_slept (client : VmClient) (vmId : String) :
    ∀ (rem attempt : Nat) (data : VmResourceModel),
      (refreshLoop client vmId rem attempt data attempt (refreshSleptAfter attempt)).slept =
        refreshSleptAfter
          (refreshLoop client vmId rem attempt data attempt
            (refreshSleptAfter attempt)).calls ∧
      (refreshLoop client vmId rem attempt data attempt (refreshSleptAfter attempt)).calls
        ≤ attempt + rem ∧
      (0 < rem → attempt <
        (refreshLoop client vmId rem attempt data attempt
          (refreshSleptAfter attempt)).calls) := by
  intro rem
  induction rem with
  | zero =>
    intro attempt data
    rw [refreshLoop]
    exact ⟨rfl, Nat.le_refl _, fun h => absurd h (Nat.lt_irrefl 0)⟩
  | succ rem ih =>
    intro attempt data
    rw [refreshLoop]
    simp only [refreshSleptAfter_succ]
    have hstop : refreshSleptAfter (attempt + 1) = refreshSleptAfter (attempt + 1) ∧
        attempt + 1 ≤ attempt + (rem + 1) ∧ (0 < rem + 1 → attempt < attempt + 1) :=
      ⟨rfl, by omega, fun _ => Nat.lt_succ_self attempt⟩
    cases client.ListVmsV3 attempt with
    | error e => exact hstop
    | ok vms =>
      simp only
      cases findVm vmId vms with
      | some vm => exact hstop
      | none =>
        simp only
        obtain ⟨h1, h2, -⟩ := ih (attempt + 1) data
        have h3 := refreshLoop_calls_ge client vmId rem (attempt + 1) (attempt + 1)
          (refreshSleptAfter (attempt + 1)) data
        exact ⟨h1, by omega, fun _ => by omega⟩

/-- C20: with sleeping accumulated in nanoseconds, a run of waitForVmActive makes n lookups
with n from 1 to 60 and has slept 10*(n-1) seconds, which is 590 seconds when all 60
lookups were made and never more than that, so less than the 10-minute deadline; a run of
refreshVmData makes n lookups with n from 1 to 5 and has slept 2*(n-1) seconds, at most 8
seconds. For n = 1 nothing was slept: there is no sleep before the first lookup. -/
theorem retry_loops_sleep_accounting (client : VmClient) (data : VmResourceModel) :
    (1 ≤ (waitForVmActive client data).calls ∧ (waitForVmActive client data).calls ≤ 60 ∧
      (waitForVmActive client data).slept =
        10 * ((waitForVmActive client data).calls - 1) * Second ∧
      ((waitForVmActive client data).calls = 1 → (waitForVmActive client data).slept = 0) ∧
      ((waitForVmActive client data).calls = 60 →
        (waitForVmActive client data).slept = 590 * Second) ∧
      (waitForVmActive client data).slept ≤ 590 * Second ∧
      (waitForVmActive client data).slept ≤ createTimeout) ∧
    (1 ≤ (refreshVmData client data).calls ∧ (refreshVmData client data).calls ≤ 5 ∧
      (refreshVmData client data).slept =
        2 * ((refreshVmData client data).calls - 1) * Second ∧
      ((refreshVmData client data).calls = 1 → (refreshVmData client data).slept = 0) ∧
      (refreshVmData client data).slept ≤ 8 * Second) := by
  constructor
  · obtain ⟨hs, hle, hgt⟩ := waitLoop_slept client data.ID.ValueString waitMaxRetries 0 data
    have hw : waitForVmActive client data =
        waitLoop client data.ID.ValueString waitMaxRetries 0 data 0 (waitSleptAfter 0) := rfl
    rw [← hw] at hs hle hgt
    rw [waitMaxRetries_eq] at hle hgt
    have h1 : 1 ≤ (waitForVmActive client data).calls := hgt (by decide)
    have h60 : (waitForVmActive client data).calls ≤ 60 := by omega
    have hsl : (waitForVmActive client data).slept =
        10 * ((waitForVmActive client data).calls - 1) * Second := by
      rw [hs]
      unfold waitSleptAfter waitRetryInterval
      ring
    have hS : Second = 1000000000 := rfl
    have hT : createTimeout = 600000000000 := by decide
    refine ⟨h1, h60, hsl, ?_, ?_, ?_, ?_⟩
    · intro h; rw [hsl, h]; simp
    · intro h; rw [hsl, h]
    · rw [hsl, hS]; omega
    · rw [hsl, hS, hT]; omega
  · obtain ⟨hs, hle, hgt⟩ :=
      refreshLoop_slept client data.ID.ValueString refreshMaxRetries 0 data
    have hw : refreshVmData client data =
        refreshLoop client data.ID.ValueString refreshMaxRetries 0 data 0
          (refreshSleptAfter 0) := rfl
    rw [← hw] at hs hle hgt
    have hmax : refreshMaxRetries = 5 := rfl
    rw [hmax] at hle hgt
    have h1 : 1 ≤ (refreshVmData client data).calls := hgt (by decide)
    have h5 : (refreshVmData client data).calls ≤ 5 := by omega
    have hsl : (refreshVmData client data).slept =
        2 * ((refreshVmData client data).calls - 1) * Second := by
      rw [hs]
      unfold refreshSleptAfter refreshRetryDelay
      ring
    have hS : Second = 1000000000 := rfl
    refine ⟨h1, h5, hsl, ?_, ?_⟩
    · intro h; rw [hsl, h]; simp
    · rw [hsl, hS]; omega

/-- Witness of C20: a VM that stays "Provisioning" makes the run sleep 590 seconds. -/
theorem retry_loops_sleep_accounting_witness :
    (waitForVmActive clientAlwaysProvisioning sampleVmModel).slept = 590 * Second :=
  (retry_loops_sleep_accounting clientAlwaysProvisioning sampleVmModel).1.2.2.2.2.1
    (by decide)

/-! ## Provider registration -/

/-- C15 (evaluation): DataSources registers five constructors; those of the datacenter
listing, the default images and the deposit estimation are defined in the package but are
not in the list. Resources registers exactly the SSH key and VM resources. -/
theorem DataSources_registers_five_of_eight :
    fluenceProvider.DataSources =
      [DataSourceConstructor.NewSshDataSource,
       DataSourceConstructor.NewVmsDataSource,
       DataSourceConstructor.NewBasicConfigurationsDataSource,
       DataSourceConstructor.NewAvailableCountriesDataSource,
       DataSourceConstructor.NewAvailableHardwareDataSource] ∧
    promisedDataSources.filter (fun c => !fluenceProvider.DataSources.contains c) =
      [DataSourceConstructor.NewDatacentersDataSource,
       DataSourceConstructor.NewDefaultImagesDataSource,
       DataSourceConstructor.NewEstimateDepositDataSource] ∧
    ¬ (∀ c, c ∈ promisedDataSources → c ∈ fluenceProvider.DataSources) ∧
    fluenceProvider.Resources =
      [ResourceConstructor.NewSshKeyResource, ResourceConstructor.NewVmResource] := by
  decide

/-! ## VM resource: Create after a failed wait -/

/-- C16: when the plan decodes, CreateVmV3 succeeds with at least one VM and waitForVmActive
on the first created VM returns the error text w, Create ends with the plan diagnostics
followed by a "VM Creation Error" diagnostic whose detail is "VM was created but failed to
become active: " followed by w, leaves the state untouched, and its client calls are the
create call followed by the lookups of the wait loop, none of them a RemoveVms call. -/
theorem VmResource_Create_wait_failure_no_rollback (client : VmResourceClient)
    (req : VmPlanRequest) (createdVm : CreatedVm) (rest : List CreatedVm) (waitErr : String)
    (hdec : HasError req.Plan.diags = false)
    (hcreate : client.CreateVmV3 (VmResource.createReq req.Plan.value) =
      Except.ok (createdVm :: rest))
    (hwait : (waitForVmActive client.toVmClient
      (VmResource.createdModel req.Plan.value createdVm)).err = some waitErr) :
    (VmResource.Create client req).Diagnostics =
      req.Plan.diags ++ [⟨Severity.error, "VM Creation Error",
        "VM was created but failed to become active: " ++ waitErr, none⟩] ∧
    containsText ("VM was created but failed to become active: " ++ waitErr) waitErr ∧
    (VmResource.Create client req).State = StateAction.untouched ∧
    (VmResource.Create client req).calls =
      VmClientCall.CreateVmV3 (VmResource.createReq req.Plan.value) ::
        List.replicate (waitForVmActive client.toVmClient
          (VmResource.createdModel req.Plan.value createdVm)).calls VmClientCall.ListVmsV3 ∧
    (∀ vmIds, VmClientCall.RemoveVms vmIds ∉ (VmResource.Create client req).calls) := by
  have hrun : VmResource.Create client req =
      { Diagnostics := AddError req.Plan.diags "VM Creation Error"
          ("VM was created but failed to become active: " ++ waitErr),
        State := StateAction.untouched,
        calls := VmClientCall.CreateVmV3 (VmResource.createReq req.Plan.value) ::
          List.replicate (waitForVmActive client.toVmClient
            (VmResource.createdModel req.Plan.value createdVm)).calls
            VmClientCall.ListVmsV3 } := by
    unfold VmResource.Create
    simp only [List.nil_append, hdec, Bool.false_eq_true, if_false, hcreate, hwait]
  rw [hrun]
  refine ⟨rfl, ⟨"VM was created but failed to become active: ", "", by simp⟩, rfl, rfl, ?_⟩
  intro vmIds hmem
  simp only [List.mem_cons, List.mem_replicate] at hmem
  rcases hmem with h | ⟨-, h⟩
  · exact VmClientCall.noConfusion h
  · exact VmClientCall.noConfusion h

/-- Witness of C16: the created VM is listed as "Failed" at the first lookup. -/
theorem VmResource_Create_wait_failure_no_rollback_witness :
    (VmResource.Create clientCreatesThenFailed ⟨⟨[], sampleVmPlan⟩⟩).Diagnostics =
      [⟨Severity.error, "VM Creation Error",
        "VM was created but failed to become active: " ++
          "VM creation failed with status: Failed", none⟩] ∧
    (VmResource.Create clientCreatesThenFailed ⟨⟨[], sampleVmPlan⟩⟩).State =
      StateAction.untouched ∧
    (VmResource.Create clientCreatesThenFailed ⟨⟨[], sampleVmPlan⟩⟩).calls =
      [VmClientCall.CreateVmV3 (VmResource.createReq sampleVmPlan),
        VmClientCall.ListVmsV3] :=
  have h := VmResource_Create_wait_failure_no_rollback clientCreatesThenFailed
    ⟨⟨[], sampleVmPlan⟩⟩ { VmId := "vm-1", VmName := "web" } []
    "VM creation failed with status: Failed" (by decide) rfl (by decide)
  ⟨h.1, h.2.2.1, h.2.2.2.1⟩

/-! ## Client errors are wrapped and reported -/

theorem String_empty_append (e : String) : "" ++ e = e := by
  apply String.ext
  rw [String.data_append]
  rfl

theorem refreshWrap_eq (e : String) :
    "Unable to refresh VM data after update: " ++ ("unable to read VMs: " ++ e) =
      "Unable to refresh VM data after update: unable to read VMs: " ++ e := by
  rw [← String.append_assoc]
  rfl

/-- C17: outside the activation wait loop, when the client method an operation calls
returns the error text e (and the operation's plan, state or configuration decoded), the
operation ends with the decoding diagnostics followed by one error diagnostic whose
summary is fixed and whose detail is a fixed text followed by e, and with the state
untouched. This holds for the VM Create, Update (both for UpdateVms and for the ListVmsV3
of its refresh) and Delete, for the SSH key Create, Read and Delete, and for the Read of
each of the eight data sources. -/
theorem client_errors_are_wrapped_and_reported (e : String) :
    (∀ (client : VmResourceClient) (req : VmPlanRequest),
      HasError req.Plan.diags = false →
      client.CreateVmV3 (VmResource.createReq req.Plan.value) = Except.error e →
      reportsClientError (VmResource.Create client req).Diagnostics req.Plan.diags
        "Client Error" "Unable to create VM, got error: " e ∧
      (VmResource.Create client req).State = StateAction.untouched) ∧
    (∀ (client : VmResourceClient) (req : VmPlanRequest),
      HasError req.Plan.diags = false →
      client.UpdateVms (VmResource.updates req.Plan.value) = some e →
      reportsClientError (VmResource.Update client req).Diagnostics req.Plan.diags
        "Client Error" "Unable to update VM, got error: " e ∧
      (VmResource.Update client req).State = StateAction.untouched) ∧
    (∀ (client : VmResourceClient) (req : VmPlanRequest) (k : Nat),
      HasError req.Plan.diags = false →
      client.UpdateVms (VmResource.updates req.Plan.value) = none →
      1 ≤ k → k ≤ 5 →
      (∀ i, i < k - 1 →
        listingLacksVm client.toVmClient req.Plan.value.ID.ValueString i = true) →
      client.ListVmsV3 (k - 1) = Except.error e →
      reportsClientError (VmResource.Update client req).Diagnostics req.Plan.diags
        "Client Error" "Unable to refresh VM data after update: unable to read VMs: " e ∧
      (VmResource.Update client req).State = StateAction.untouched) ∧
    (∀ (client : VmResourceClient) (req : VmReadRequest),
      HasError req.State.diags = false →
      client.RemoveVms [req.State.value.ID.ValueString] = some e →
      reportsClientError (VmResource.Delete client req).Diagnostics req.State.diags
        "Client Error" "Unable to delete VM, got error: " e ∧
      (VmResource.Delete client req).State = StateAction.untouched) ∧
    (∀ (client : SshClient) (req : SshKeyCreateRequest),
      HasError req.Plan.diags = false → HasError req.PublicKey.diags = false →
      client.CreateSshKey (SshKeyResource.createReq req.Plan.value req.PublicKey.value) =
        Except.error e →
      reportsClientError (SshKeyResource.Create client req).Diagnostics
        (req.Plan.diags ++ req.PublicKey.diags)
        "Client Error" "Unable to create SSH key, got error: " e ∧
      (SshKeyResource.Create client req).State = StateAction.untouched) ∧
    (∀ (client : SshClient) (req : SshKeyStateRequest),
      HasError req.State.diags = false → client.ListSshKeys = Except.error e →
      reportsClientError (SshKeyResource.Read client req).Diagnostics req.State.diags
        "Client Error" "Unable to read SSH keys, got error: " e ∧
      (SshKeyResource.Read client req).State = StateAction.untouched) ∧
    (∀ (client : SshClient) (req : SshKeyStateRequest),
      HasError req.State.diags = false →
      client.RemoveSshKey req.State.value.Fingerprint.ValueString = some e →
      reportsClientError (SshKeyResource.Delete client req).Diagnostics req.State.diags
        "Client Error" "Unable to delete SSH key, got error: " e ∧
      (SshKeyResource.Delete client req).State = StateAction.untouched) ∧
    (∀ (client : DataSourceClient), client.ListVmsV3 = Except.error e →
      reportsClientError (vmsDataSource.Read client).Diagnostics []
        "Unable to Read Fluence VMs" "" e ∧
      (vmsDataSource.Read client).State = StateAction.untouched) ∧
    (∀ (client : DataSourceClient), client.ListSshKeys = Except.error e →
      reportsClientError (sshDataSource.Read client).Diagnostics []
        "Unable to Read Fluence SSH Keys" "" e ∧
      (sshDataSource.Read client).State = StateAction.untouched) ∧
    (∀ (client : DataSourceClient) (Config : Decoded AvailableCountriesDataSourceModel),
      HasError Config.diags = false → client.GetAvailableCountries = Except.error e →
      reportsClientError (availableCountriesDataSource.Read client Config).Diagnostics
        Config.diags "Client Error" "Unable to read available countries, got error: " e ∧
      (availableCountriesDataSource.Read client Config).State = StateAction.untouched) ∧
    (∀ (client : DataSourceClient) (Config : Decoded BasicConfigurationsDataSourceModel),
      HasError Config.diags = false → client.GetBasicConfigurations = Except.error e →
      reportsClientError (basicConfigurationsDataSource.Read client Config).Diagnostics
        Config.diags "Client Error" "Unable to read basic configurations, got error: " e ∧
      (basicConfigurationsDataSource.Read client Config).State = StateAction.untouched) ∧
    (∀ (client : DataSourceClient) (Config : Decoded AvailableHardwareDataSourceModel),
      HasError Config.diags = false → client.GetAvailableHardware = Except.error e →
      reportsClientError (availableHardwareDataSource.Read client Config).Diagnostics
        Config.diags "Client Error" "Unable to read available hardware, got error: " e ∧
      (availableHardwareDataSource.Read client Config).State = StateAction.untouched) ∧
    (∀ (client : DataSourceClient) (Config : Decoded DefaultImagesDataSourceModel),
      HasError Config.diags = false → client.GetDefaultImages = Except.error e →
      reportsClientError (defaultImagesDataSource.Read client Config).Diagnostics
        Config.diags "Client Error" "Unable to read default images, got error: " e ∧
      (defaultImagesDataSource.Read client Config).State = StateAction.untouched) ∧
    (∀ (client : DataSourceClient) (Config : Decoded DatacentersDataSourceModel),
      HasError Config.diags = false → client.GetDatacenters = Except.error e →
      reportsClientError (datacentersDataSource.Read client Config).Diagnostics
        Config.diags "Client Error" "Unable to read datacenters, got error: " e ∧
      (datacentersDataSource.Read client Config).State = StateAction.untouched) ∧
    (∀ (client : DataSourceClient) (Config : Decoded EstimateDepositDataSourceModel),
      HasError Config.diags = false →
      client.EstimateDeposit (estimateDepositDataSource.estimateRequest Config.value) =
        Except.error e →
      reportsClientError (estimateDepositDataSource.Read client Config).Diagnostics
        Config.diags "Client Error" "Unable to estimate deposit, got error: " e ∧
      (estimateDepositDataSource.Read client Config).State = StateAction.untouched) := by
  refine ⟨?_, ?_, ?_, ?_, ?_, ?_, ?_, ?_, ?_, ?_, ?_, ?_, ?_, ?_, ?_⟩
  · intro client req hdec hcall
    unfold VmResource.Create reportsClientError
    simp only [List.nil_append, hdec, Bool.false_eq_true, if_false, hcall, AddError]
    exact ⟨trivial, trivial⟩
  · intro client req hdec hcall
    unfold VmResource.Update reportsClientError
    simp only [List.nil_append, hdec, Bool.false_eq_true, if_false, hcall, AddError]
    exact ⟨trivial, trivial⟩
  · intro client req k hdec hupd hk1 hk5 hpre hcall
    have hr := refreshVmData_after_absent client.toVmClient req.Plan.value (k - 1)
      (by omega) hpre
    have herr : (refreshVmData client.toVmClient req.Plan.value).err =
        some ("unable to read VMs: " ++ e) := by
      rw [hr, refreshLoop]
      simp only [hcall]
    unfold VmResource.Update reportsClientError
    simp only [List.nil_append, hdec, Bool.false_eq_true, if_false, hupd, herr, AddError,
      refreshWrap_eq]
    exact ⟨trivial, trivial⟩
  · intro client req hdec hcall
    unfold VmResource.Delete reportsClientError
    simp only [List.nil_append, hdec, Bool.false_eq_true, if_false, hcall, AddError]
    exact ⟨trivial, trivial⟩
  · intro client req hdec hpk hcall
    unfold SshKeyResource.Create reportsClientError
    simp only [List.nil_append, hdec, HasError_append, hpk, Bool.or_self, Bool.false_eq_true,
      if_false, hcall, AddError]
    exact ⟨trivial, trivial⟩
  · intro client req hdec hcall
    unfold SshKeyResource.Read reportsClientError
    simp only [List.nil_append, hdec, Bool.false_eq_true, if_false, hcall, AddError]
    exact ⟨trivial, trivial⟩
  · intro client req hdec hcall
    unfold SshKeyResource.Delete reportsClientError
    simp only [List.nil_append, hdec, Bool.false_eq_true, if_false, hcall, AddError]
    exact ⟨trivial, trivial⟩
  · intro client hcall
    unfold vmsDataSource.Read reportsClientError
    simp only [hcall, AddError, String_empty_append]
    exact ⟨trivial, trivial⟩
  · intro client hcall
    unfold sshDataSource.Read reportsClientError
    simp only [hcall, AddError, String_empty_append]
    exact ⟨trivial, trivial⟩
  · intro client Config hdec hcall
    unfold availableCountriesDataSource.Read reportsClientError
    simp only [List.nil_append, hdec, Bool.false_eq_true, if_false, hcall, AddError]
    exact ⟨trivial, trivial⟩
  · intro client Config hdec hcall
    unfold basicConfigurationsDataSource.Read reportsClientError
    simp only [List.nil_append, hdec, Bool.false_eq_true, if_false, hcall, AddError]
    exact ⟨trivial, trivial⟩
  · intro client Config hdec hcall
    unfold availableHardwareDataSource.Read reportsClientError
    simp only [List.nil_append, hdec, Bool.false_eq_true, if_false, hcall, AddError]
    exact ⟨trivial, trivial⟩
  · intro client Config hdec hcall
    unfold defaultImagesDataSource.Read reportsClientError
    simp only [List.nil_append, hdec, Bool.false_eq_true, if_false, hcall, AddError]
    exact ⟨trivial, trivial⟩
  · intro client Config hdec hcall
    unfold datacentersDataSource.Read reportsClientError
    simp only [List.nil_append, hdec, Bool.false_eq_true, if_false, hcall, AddError]
    exact ⟨trivial, trivial⟩
  · intro client Config hdec hcall
    unfold estimateDepositDataSource.Read reportsClientError
    simp only [List.nil_append, hdec, Bool.false_eq_true, if_false, hcall, AddError]
    exact ⟨trivial, trivial⟩

/-- Witness of C17: a VM Create whose CreateVmV3 call fails with "quota exceeded". -/
theorem client_errors_are_wrapped_and_reported_witness :
    reportsClientError (VmResource.Create clientAllFailing ⟨⟨[], sampleVmPlan⟩⟩).Diagnostics
      [] "Client Error" "Unable to create VM, got error: " "quota exceeded" ∧
    (VmResource.Create clientAllFailing ⟨⟨[], sampleVmPlan⟩⟩).State =
      StateAction.untouched :=
  (client_errors_are_wrapped_and_reported "quota exceeded").1 clientAllFailing
    ⟨⟨[], sampleVmPlan⟩⟩ (by decide) rfl

/-! ## The two field updates and what the loops leave alone -/

theorem sameInputs_refl (a : VmResourceModel) : sameInputs a a :=
  ⟨rfl, rfl, rfl, rfl, rfl, rfl, rfl, rfl⟩

theorem sameInputs_trans {a b c : VmResourceModel} (h1 : sameInputs a b)
    (h2 : sameInputs b c) : sameInputs a c := by
  obtain ⟨a1, a2, a3, a4, a5, a6, a7, a8⟩ := h1
  obtain ⟨b1, b2, b3, b4, b5, b6, b7, b8⟩ := h2
  exact ⟨a1.trans b1, a2.trans b2, a3.trans b3, a4.trans b4, a5.trans b5, a6.trans b6,
    a7.trans b7, a8.trans b8⟩

theorem waitUpdateModel_sameInputs (data : VmResourceModel) (vm : RunningInstanceV3) :
    sameInputs (waitUpdateModel data vm) data := by
  unfold waitUpdateModel
  cases vm.OsImage <;> cases vm.PublicIp <;> cases vm.VmName <;>
    exact ⟨rfl, rfl, rfl, rfl, rfl, rfl, rfl, rfl⟩

theorem refreshUpdateModel_sameInputs (data : VmResourceModel) (vm : RunningInstanceV3) :
    sameInputs (refreshUpdateModel data vm) data := by
  unfold refreshUpdateModel
  cases vm.OsImage <;> cases vm.PublicIp <;> cases vm.VmName <;>
    exact ⟨rfl, rfl, rfl, rfl, rfl, rfl, rfl, rfl⟩

theorem waitLoop_sameInputs (client : VmClient) (vmId : String) :
    ∀ (rem attempt calls slept : Nat) (data : VmResourceModel),
      sameInputs (waitLoop client vmId rem attempt data calls slept).data data := by
  intro rem
  induction rem with
  | zero =>
    intro attempt calls slept data
    rw [waitLoop]
    exact sameInputs_refl data
  | succ rem ih =>
    intro attempt calls slept data
    rw [waitLoop]
    cases client.ListVmsV3 calls with
    | error e => exact ih _ _ _ _
    | ok vms =>
      simp only
      cases findVm vmId vms with
      | none => exact ih _ _ _ _
      | some vm =>
        simp only
        split
        · exact waitUpdateModel_sameInputs data vm
        · split
          · exact waitUpdateModel_sameInputs data vm
          · exact sameInputs_trans (ih _ _ _ _) (waitUpdateModel_sameInputs data vm)

theorem refreshLoop_sameInputs (client : VmClient) (vmId : String) :
    ∀ (rem attempt calls slept : Nat) (data : VmResourceModel),
      sameInputs (refreshLoop client vmId rem attempt data calls slept).data data := by
  intro rem
  induction rem with
  | zero =>
    intro attempt calls slept data
    rw [refreshLoop]
    exact sameInputs_refl data
  | succ rem ih =>
    intro attempt calls slept data
    rw [refreshLoop]
    cases client.ListVmsV3 calls with
    | error e => exact sameInputs_refl data
    | ok vms =>
      simp only
      cases findVm vmId vms with
      | none => exact ih _ _ _ _
      | some vm => exact refreshUpdateModel_sameInputs data vm

theorem waitForVmActive_sameInputs (client : VmClient) (data : VmResourceModel) :
    sameInputs (waitForVmActive client data).data data :=
  waitLoop_sameInputs client _ _ _ _ _ data

theorem refreshVmData_sameInputs (client : VmClient) (data : VmResourceModel) :
    sameInputs (refreshVmData client data).data data :=
  refreshLoop_sameInputs client _ _ _ _ _ data

/-- C25: for every record and every found VM snapshot the field update of waitForVmActive
and the field update of refreshVmData give the same record; so when the first lookup lists
the VM as "Active", both loops end at that lookup with the same record. -/
theorem wait_and_refresh_populate_identically (data : VmResourceModel)
    (vm : RunningInstanceV3) :
    waitUpdateModel data vm = refreshUpdateModel data vm ∧
    (∀ (client : VmClient) (record : VmResourceModel),
      listedVm client record.ID.ValueString 0 = some vm → vm.Status = "Active" →
      (waitForVmActive client record).data = (refreshVmData client record).data ∧
      (waitForVmActive client record).data = waitUpdateModel record vm) := by
  refine ⟨rfl, ?_⟩
  intro client record hfound hact
  have ht : isTerminalStatus vm.Status = true := by rw [hact]; decide
  have hw : (waitForVmActive client record).data = waitUpdateModel record vm := by
    unfold waitForVmActive
    rw [waitMaxRetries_eq, waitLoop_stop client _ 59 0 0 0 record vm hfound ht]
  have hr : (refreshVmData client record).data = refreshUpdateModel record vm := by
    unfold listedVm at hfound
    unfold refreshVmData
    rw [show refreshMaxRetries = 4 + 1 by rfl, refreshLoop]
    cases hc : client.ListVmsV3 0 with
    | error e => simp [hc] at hfound
    | ok vms =>
      simp only [hc] at hfound
      simp only [hfound]
  exact ⟨by rw [hw, hr]; rfl, hw⟩

/-- Witness of C25: a VM listed as "Active" at the first lookup. -/
theorem wait_and_refresh_populate_identically_witness :
    (waitForVmActive clientListedAtSecond { sampleVmModel with ID := TfString.value "vm-0" }).data
      = (refreshVmData clientListedAtSecond
          { sampleVmModel with ID := TfString.value "vm-0" }).data :=
  ((wait_and_refresh_populate_identically sampleVmModel otherVm).2 clientListedAtSecond
    { sampleVmModel with ID := TfString.value "vm-0" } rfl rfl).1

/-- C26: whatever the lookups answer, waitForVmActive and refreshVmData leave the record's
id, hostname, ssh_keys, open_ports, instances, basic_configuration,
max_total_price_per_epoch_usd and datacenter_countries as they were; and when either
populates the record from a found VM, os_image stays as it was if the snapshot has no OS
image, name stays as it was if the snapshot has no name, and public_ip becomes null if the
snapshot has no public IP. -/
theorem loops_leave_inputs_unchanged (client : VmClient) (data : VmResourceModel)
    (vm : RunningInstanceV3) :
    ((waitForVmActive client data).data.ID = data.ID ∧
      (waitForVmActive client data).data.Hostname = data.Hostname ∧
      (waitForVmActive client data).data.SshKeys = data.SshKeys ∧
      (waitForVmActive client data).data.OpenPorts = data.OpenPorts ∧
      (waitForVmActive client data).data.Instances = data.Instances ∧
      (waitForVmActive client data).data.BasicConfiguration = data.BasicConfiguration ∧
      (waitForVmActive client data).data.MaxTotalPricePerEpochUsd =
        data.MaxTotalPricePerEpochUsd ∧
      (waitForVmActive client data).data.Countries = data.Countries) ∧
    ((refreshVmData client data).data.ID = data.ID ∧
      (refreshVmData client data).data.Hostname = data.Hostname ∧
      (refreshVmData client data).data.SshKeys = data.SshKeys ∧
      (refreshVmData client data).data.OpenPorts = data.OpenPorts ∧
      (refreshVmData client data).data.Instances = data.Instances ∧
      (refreshVmData client data).data.BasicConfiguration = data.BasicConfiguration ∧
      (refreshVmData client data).data.MaxTotalPricePerEpochUsd =
        data.MaxTotalPricePerEpochUsd ∧
      (refreshVmData client data).data.Countries = data.Countries) ∧
    ((vm.OsImage = none → (waitUpdateModel data vm).OsImage = data.OsImage) ∧
      (vm.VmName = none → (waitUpdateModel data vm).Name = data.Name) ∧
      (vm.PublicIp = none → (waitUpdateModel data vm).PublicIp = TfString.null)) ∧
    ((vm.OsImage = none → (refreshUpdateModel data vm).OsImage = data.OsImage) ∧
      (vm.VmName = none → (refreshUpdateModel data vm).Name = data.Name) ∧
      (vm.PublicIp = none → (refreshUpdateModel data vm).PublicIp = TfString.null)) := by
  refine ⟨waitForVmActive_sameInputs client data, refreshVmData_sameInputs client data,
    ⟨?_, ?_, ?_⟩, ⟨?_, ?_, ?_⟩⟩
  · intro h
    unfold waitUpdateModel
    rw [h]
    cases vm.PublicIp <;> cases vm.VmName <;> rfl
  · intro h
    unfold waitUpdateModel
    rw [h]
    cases vm.OsImage <;> cases vm.PublicIp <;> rfl
  · intro h
    unfold waitUpdateModel
    rw [h]
    cases vm.OsImage <;> cases vm.VmName <;> rfl
  · intro h
    unfold refreshUpdateModel
    rw [h]
    cases vm.PublicIp <;> cases vm.VmName <;> rfl
  · intro h
    unfold refreshUpdateModel
    rw [h]
    cases vm.OsImage <;> cases vm.PublicIp <;> rfl
  · intro h
    unfold refreshUpdateModel
    rw [h]
    cases vm.OsImage <;> cases vm.VmName <;> rfl

/-- Witness of C26: a snapshot without OS image and name keeps both and the id. -/
theorem loops_leave_inputs_unchanged_witness :
    (waitForVmActive clientActiveAtThird sampleVmModel).data.ID = TfString.value "vm-1" ∧
    (waitUpdateModel sampleVmModel (sampleVm "Active")).OsImage = TfString.value "ubuntu" ∧
    (waitUpdateModel sampleVmModel (sampleVm "Active")).Name = TfString.value "web" ∧
    (waitUpdateModel sampleVmModel otherVm).PublicIp = TfString.null :=
  have h := loops_leave_inputs_unchanged clientActiveAtThird sampleVmModel
    (sampleVm "Active")
  have h2 := loops_leave_inputs_unchanged clientActiveAtThird sampleVmModel otherVm
  ⟨h.1.1, h.2.2.1.1 rfl, h.2.2.1.2.1 rfl, h2.2.2.1.2.2 rfl⟩

/-! ## VM resource: what Create sends and tracks -/

theorem createdModel_fields (data : VmResourceModel) (createdVm : CreatedVm) :
    (VmResource.createdModel data createdVm).ID = TfString.value createdVm.VmId ∧
    (VmResource.createdModel data createdVm).Instances =
      TfInt64.value (VmResource.instances data) ∧
    (createdVm.VmName ≠ "" →
      (VmResource.createdModel data createdVm).Name = TfString.value createdVm.VmName) ∧
    (createdVm.VmName = "" → (VmResource.createdModel data createdVm).Name = data.Name) := by
  unfold VmResource.createdModel
  by_cases h : createdVm.VmName = ""
  · simp [h]
  · simp [h]

/-- What `Create` does once the plan decodes and the create call returns a first VM. -/
theorem Create_after_first_vm (client : VmResourceClient) (req : VmPlanRequest)
    (first : CreatedVm) (rest : List CreatedVm) (hdec : HasError req.Plan.diags = false)
    (hcreate : client.CreateVmV3 (VmResource.createReq req.Plan.value) =
      Except.ok (first :: rest)) :
    VmResource.Create client req =
      (match (waitForVmActive client.toVmClient
          (VmResource.createdModel req.Plan.value first)).err with
        | some err =>
          { Diagnostics := AddError req.Plan.diags "VM Creation Error"
              ("VM was created but failed to become active: " ++ err),
            State := StateAction.untouched,
            calls := VmClientCall.CreateVmV3 (VmResource.createReq req.Plan.value) ::
              List.replicate (waitForVmActive client.toVmClient
                (VmResource.createdModel req.Plan.value first)).calls
                VmClientCall.ListVmsV3 }
        | none =>
          { Diagnostics := req.Plan.diags,
            State := StateAction.set (waitForVmActive client.toVmClient
              (VmResource.createdModel req.Plan.value first)).data,
            calls := VmClientCall.CreateVmV3 (VmResource.createReq req.Plan.value) ::
              List.replicate (waitForVmActive client.toVmClient
                (VmResource.createdModel req.Plan.value first)).calls
                VmClientCall.ListVmsV3 }) := by
  unfold VmResource.Create
  simp only [List.nil_append, hdec, Bool.false_eq_true, if_false, hcreate]

/-- The first client call of `Create`, once the plan decodes, is the create call with the
request built from the plan. -/
theorem Create_first_call (client : VmResourceClient) (req : VmPlanRequest)
    (hdec : HasError req.Plan.diags = false) :
    (VmResource.Create client req).calls.head? =
      some (VmClientCall.CreateVmV3 (VmResource.createReq req.Plan.value)) := by
  unfold VmResource.Create
  simp only [List.nil_append, hdec, Bool.false_eq_true, if_false]
  cases client.CreateVmV3 (VmResource.createReq req.Plan.value) with
  | error e => rfl
  | ok vms =>
    cases vms with
    | nil => rfl
    | cons first rest =>
      simp only
      cases (waitForVmActive client.toVmClient
        (VmResource.createdModel req.Plan.value first)).err <;> rfl

/-- C21: for every plan that decodes, the Instances value of the create request that Create
sends is 1 when the plan's instances attribute is null or unknown and the plan's value
otherwise; and whenever Create writes a state, which it does when the create call returns
a VM and the wait succeeds, the instances attribute written is the value that was sent. -/
theorem VmResource_Create_instances (client : VmResourceClient) (req : VmPlanRequest)
    (hdec : HasError req.Plan.diags = false) :
    (VmResource.Create client req).calls.head? =
      some (VmClientCall.CreateVmV3 (VmResource.createReq req.Plan.value)) ∧
    (VmResource.createReq req.Plan.value).Instances =
      (match req.Plan.value.Instances with
        | TfInt64.value i => i
        | TfInt64.null => 1
        | TfInt64.unknown => 1) ∧
    (∀ (first : CreatedVm) (rest : List CreatedVm),
      client.CreateVmV3 (VmResource.createReq req.Plan.value) = Except.ok (first :: rest) →
      (waitForVmActive client.toVmClient
        (VmResource.createdModel req.Plan.value first)).err = none →
      ∃ written, (VmResource.Create client req).State = StateAction.set written ∧
        written.Instances = TfInt64.value (VmResource.createReq req.Plan.value).Instances) ∧
    (∀ written, (VmResource.Create client req).State = StateAction.set written →
      written.Instances = TfInt64.value (VmResource.createReq req.Plan.value).Instances) := by
  have hsent : ∀ first : CreatedVm,
      (waitForVmActive client.toVmClient
        (VmResource.createdModel req.Plan.value first)).data.Instances =
        TfInt64.value (VmResource.createReq req.Plan.value).Instances := by
    intro first
    rw [(waitForVmActive_sameInputs client.toVmClient _).2.2.2.2.1,
      (createdModel_fields req.Plan.value first).2.1]
    rfl
  refine ⟨Create_first_call client req hdec, ?_, ?_, ?_⟩
  · unfold VmResource.createReq VmResource.instances
    cases req.Plan.value.Instances <;> rfl
  · intro first rest hcreate hwait
    rw [Create_after_first_vm client req first rest hdec hcreate, hwait]
    exact ⟨_, rfl, hsent first⟩
  · intro written hstate
    unfold VmResource.Create at hstate
    simp only [List.nil_append, hdec, Bool.false_eq_true, if_false] at hstate
    cases hc : client.CreateVmV3 (VmResource.createReq req.Plan.value) with
    | error e => simp [hc] at hstate
    | ok vms =>
      cases vms with
      | nil => simp [hc] at hstate
      | cons first rest =>
        simp only [hc] at hstate
        cases hw : (waitForVmActive client.toVmClient
            (VmResource.createdModel req.Plan.value first)).err with
        | some err => simp [hw] at hstate
        | none =>
          simp only [hw, StateAction.set.injEq] at hstate
          rw [← hstate]
          exact hsent first

/-- Witness of C21: a plan with unknown instances sends 1 and writes 1. -/
theorem VmResource_Create_instances_witness :
    (VmResource.createReq sampleVmPlan).Instances = 1 ∧
    (VmResource.createReq samplePlanThree).Instances = 3 ∧
    (∃ written, (VmResource.Create clientCreatesThenActive ⟨⟨[], sampleVmPlan⟩⟩).State =
        StateAction.set written ∧ written.Instances = TfInt64.value 1) :=
  have h := VmResource_Create_instances clientCreatesThenActive ⟨⟨[], sampleVmPlan⟩⟩
    (by decide)
  have h3 := VmResource_Create_instances clientCreatesThenActive ⟨⟨[], samplePlanThree⟩⟩
    (by decide)
  ⟨h.2.1, h3.2.1, h.2.2.1 { VmId := "vm-1", VmName := "" }
    [{ VmId := "vm-2", VmName := "second" }] rfl (by decide)⟩

/-- C22: for a plan that decodes: when CreateVmV3 succeeds with an empty list, Create adds
the error "No VMs were created", makes no lookup (its only client call is the create call)
and leaves the state untouched; when it succeeds with a first VM followed by any others,
the id set on the record and polled by the wait loop is the first VM's VmId, the name is
replaced by the first VM's VmName when that is non-empty and kept otherwise, the response
is determined by the wait on that record alone, and a state written on success carries
that id. -/
theorem VmResource_Create_tracks_first_vm (client : VmResourceClient)
    (req : VmPlanRequest) (hdec : HasError req.Plan.diags = false) :
    (client.CreateVmV3 (VmResource.createReq req.Plan.value) = Except.ok [] →
      (VmResource.Create client req).Diagnostics =
        req.Plan.diags ++ [⟨Severity.error, "Client Error", "No VMs were created", none⟩] ∧
      (VmResource.Create client req).calls =
        [VmClientCall.CreateVmV3 (VmResource.createReq req.Plan.value)] ∧
      VmClientCall.ListVmsV3 ∉ (VmResource.Create client req).calls ∧
      (VmResource.Create client req).State = StateAction.untouched) ∧
    (∀ (first : CreatedVm) (rest : List CreatedVm),
      client.CreateVmV3 (VmResource.createReq req.Plan.value) = Except.ok (first :: rest) →
      (VmResource.createdModel req.Plan.value first).ID = TfString.value first.VmId ∧
      waitForVmActive client.toVmClient (VmResource.createdModel req.Plan.value first) =
        waitLoop client.toVmClient first.VmId waitMaxRetries 0
          (VmResource.createdModel req.Plan.value first) 0 0 ∧
      (first.VmName ≠ "" →
        (VmResource.createdModel req.Plan.value first).Name =
          TfString.value first.VmName) ∧
      (first.VmName = "" →
        (VmResource.createdModel req.Plan.value first).Name = req.Plan.value.Name) ∧
      (VmResource.Create client req).calls =
        VmClientCall.CreateVmV3 (VmResource.createReq req.Plan.value) ::
          List.replicate (waitForVmActive client.toVmClient
            (VmResource.createdModel req.Plan.value first)).calls VmClientCall.ListVmsV3 ∧
      ((waitForVmActive client.toVmClient
          (VmResource.createdModel req.Plan.value first)).err = none →
        (VmResource.Create client req).State = StateAction.set
          (waitForVmActive client.toVmClient
            (VmResource.createdModel req.Plan.value first)).data ∧
        (waitForVmActive client.toVmClient
          (VmResource.createdModel req.Plan.value first)).data.ID =
          TfString.value first.VmId)) := by
  constructor
  · intro hempty
    unfold VmResource.Create
    simp only [List.nil_append, hdec, Bool.false_eq_true, if_false, hempty, AddError]
    refine ⟨trivial, trivial, ?_, trivial⟩
    intro hmem
    simp only [List.mem_singleton] at hmem
    exact VmClientCall.noConfusion hmem
  · intro first rest hcreate
    obtain ⟨hid, -, hname, hkeep⟩ := createdModel_fields req.Plan.value first
    have hrun := Create_after_first_vm client req first rest hdec hcreate
    refine ⟨hid, ?_, hname, hkeep, ?_, ?_⟩
    · unfold waitForVmActive
      rw [hid]
      rfl
    · rw [hrun]
      cases (waitForVmActive client.toVmClient
        (VmResource.createdModel req.Plan.value first)).err <;> rfl
    · intro hwait
      rw [hrun, hwait]
      exact ⟨rfl, by rw [(waitForVmActive_sameInputs client.toVmClient _).1, hid]⟩

/-- Witness of C22: two VMs are returned; the first, `vm-1`, is tracked and its empty name
leaves the plan's name in place. -/
theorem VmResource_Create_tracks_first_vm_witness :
    (VmResource.createdModel sampleVmPlan { VmId := "vm-1", VmName := "" }).ID =
      TfString.value "vm-1" ∧
    (VmResource.createdModel sampleVmPlan { VmId := "vm-1", VmName := "" }).Name =
      TfString.value "web" ∧
    (VmResource.Create clientCreatesThenActive ⟨⟨[], sampleVmPlan⟩⟩).calls =
      [VmClientCall.CreateVmV3 (VmResource.createReq sampleVmPlan),
        VmClientCall.ListVmsV3] ∧
    (VmResource.Create clientCreatesNothing ⟨⟨[], sampleVmPlan⟩⟩).calls =
      [VmClientCall.CreateVmV3 (VmResource.createReq sampleVmPlan)] :=
  have h := (VmResource_Create_tracks_first_vm clientCreatesThenActive
    ⟨⟨[], sampleVmPlan⟩⟩ (by decide)).2 { VmId := "vm-1", VmName := "" }
    [{ VmId := "vm-2", VmName := "second" }] rfl
  have h0 := (VmResource_Create_tracks_first_vm clientCreatesNothing
    ⟨⟨[], sampleVmPlan⟩⟩ (by decide)).1 rfl
  ⟨h.1, h.2.2.2.1 rfl, h.2.2.2.2.1, h0.2.1⟩

/-! ## VM resource: the update request, the constraints and the ports -/

theorem openPorts_length (ports : List OpenPortModel) :
    (VmResource.openPorts ports).length = ports.length := by
  unfold VmResource.openPorts
  rw [List.length_map]

theorem openPorts_getElem? (ports : List OpenPortModel) (i : Nat) :
    (VmResource.openPorts ports)[i]? =
      (ports[i]?).map (fun (port : OpenPortModel) =>
        ({ Port := toUint16 port.Port.ValueInt64, Protocol := port.Protocol.ValueString } :
          OpenPorts)) := by
  unfold VmResource.openPorts
  rw [List.getElem?_map]

theorem length_pos_iff_ne_nil {α : Type} (l : List α) : l.length > 0 ↔ l ≠ [] := by
  cases l with
  | nil => simp
  | cons a t => simp

/-- The single entry of the update request, spelled out. -/
theorem updates_eq (data : VmResourceModel) :
    VmResource.updates data =
      [{ Id := data.ID.ValueString,
         VmName := if data.Name.IsNull = true then none else some data.Name.ValueString,
         OpenPorts := if data.OpenPorts = [] then none
           else some (VmResource.openPorts data.OpenPorts) }] := by
  unfold VmResource.updates
  cases hn : data.Name.IsNull <;> cases hp : data.OpenPorts <;> simp

/-- C23: for every plan the request Update builds for UpdateVms has exactly one entry; its
id is the plan's id; its VmName is set exactly when the plan's name is non-null; its
OpenPorts is set exactly when the plan's open_ports list is non-empty and then has one
port per plan entry in plan order, so it is never set to an empty list; the entry has no
other field. When the plan decodes, this request is the first client call of Update. -/
theorem VmResource_Update_request (client : VmResourceClient) (req : VmPlanRequest) :
    (VmResource.updates req.Plan.value).length = 1 ∧
    VmResource.updates req.Plan.value =
      [{ Id := req.Plan.value.ID.ValueString,
         VmName := if req.Plan.value.Name.IsNull = true then none
           else some req.Plan.value.Name.ValueString,
         OpenPorts := if req.Plan.value.OpenPorts = [] then none
           else some (VmResource.openPorts req.Plan.value.OpenPorts) }] ∧
    (∀ update, update ∈ VmResource.updates req.Plan.value →
      update.Id = req.Plan.value.ID.ValueString ∧
      (update.VmName.isSome = true ↔ req.Plan.value.Name.IsNull = false) ∧
      (update.OpenPorts.isSome = true ↔ req.Plan.value.OpenPorts ≠ []) ∧
      update.OpenPorts ≠ some [] ∧
      (∀ ports, update.OpenPorts = some ports →
        ports.length = req.Plan.value.OpenPorts.length ∧
        ∀ (i : Nat), ports[i]? = (req.Plan.value.OpenPorts[i]?).map (fun (port : OpenPortModel) =>
          ({ Port := toUint16 port.Port.ValueInt64,
             Protocol := port.Protocol.ValueString } : OpenPorts)))) ∧
    (HasError req.Plan.diags = false →
      (VmResource.Update client req).calls.head? =
        some (VmClientCall.UpdateVms (VmResource.updates req.Plan.value))) := by
  refine ⟨by rw [updates_eq]; rfl, updates_eq _, ?_, ?_⟩
  · intro update hmem
    rw [updates_eq, List.mem_singleton] at hmem
    subst hmem
    refine ⟨rfl, ?_, ?_, ?_, ?_⟩
    · cases req.Plan.value.Name.IsNull <;> simp
    · by_cases hp : req.Plan.value.OpenPorts = [] <;> simp [hp]
    · by_cases hp : req.Plan.value.OpenPorts = []
      · simp [hp]
      · simp only [hp, if_false, ne_eq, Option.some.injEq]
        intro hnil
        have hlen := openPorts_length req.Plan.value.OpenPorts
        rw [hnil] at hlen
        exact hp (List.length_eq_zero.mp hlen.symm)
    · intro ports hports
      by_cases hp : req.Plan.value.OpenPorts = []
      · simp [hp] at hports
      · simp only [hp, if_false, Option.some.injEq] at hports
        rw [← hports]
        exact ⟨openPorts_length _, openPorts_getElem? _⟩
  · intro hdec
    unfold VmResource.Update
    simp only [List.nil_append, hdec, Bool.false_eq_true, if_false]
    cases client.UpdateVms (VmResource.updates req.Plan.value) with
    | some e => rfl
    | none =>
      simp only
      cases (refreshVmData client.toVmClient req.Plan.value).err <;> rfl

/-- Witness of C23: a plan with two ports and a name sends both; a plan without ports
sends none. -/
theorem VmResource_Update_request_witness :
    VmResource.updates samplePlanThree =
      [{ Id := "", VmName := some "web",
         OpenPorts := some [⟨22, "tcp"⟩, ⟨80, "udp"⟩] }] ∧
    VmResource.updates sampleVmState =
      [{ Id := "vm-1", VmName := some "web", OpenPorts := none }] ∧
    (VmResource.Update clientCreatesThenActive ⟨⟨[], sampleVmState⟩⟩).calls.head? =
      some (VmClientCall.UpdateVms (VmResource.updates sampleVmState)) :=
  have h := VmResource_Update_request clientCreatesThenActive ⟨⟨[], samplePlanThree⟩⟩
  have h2 := VmResource_Update_request clientCreatesThenActive ⟨⟨[], sampleVmState⟩⟩
  ⟨h.2.1, h2.2.1, h2.2.2.2 (by decide)⟩

/-- C27: for every plan the create request carries no constraints object exactly when
basic_configuration is null, max_total_price_per_epoch_usd is null and
datacenter_countries is empty; when it carries one, its basic configuration is set exactly
when the plan's is non-null, its maximum price is set exactly when the plan's is non-null,
its datacenter countries are set exactly when the plan's list is non-empty and are then
the plan's countries in plan order, and it carries no hardware constraints. -/
theorem VmResource_Create_constraints (data : VmResourceModel) :
    (VmResource.createReq data).Constraints = VmResource.constraints data ∧
    (VmResource.constraints data = none ↔
      (data.BasicConfiguration.IsNull = true ∧ data.MaxTotalPricePerEpochUsd.IsNull = true ∧
        data.Countries = [])) ∧
    (∀ constraints, VmResource.constraints data = some constraints →
      constraints.BasicConfiguration =
        (if data.BasicConfiguration.IsNull = true then none
          else some data.BasicConfiguration.ValueString) ∧
      constraints.MaxTotalPricePerEpochUsd =
        (if data.MaxTotalPricePerEpochUsd.IsNull = true then none
          else some data.MaxTotalPricePerEpochUsd.ValueString) ∧
      constraints.Datacenter =
        (if data.Countries = [] then none
          else some { Countries := data.Countries.map TfString.ValueString }) ∧
      constraints.Hardware = none) := by
  refine ⟨rfl, ?_, ?_⟩
  · unfold VmResource.constraints
    cases hb : data.BasicConfiguration.IsNull <;>
      cases hm : data.MaxTotalPricePerEpochUsd.IsNull <;>
      cases hc : data.Countries <;> simp
  · intro constraints hsome
    unfold VmResource.constraints at hsome
    cases hb : data.BasicConfiguration.IsNull <;>
      cases hm : data.MaxTotalPricePerEpochUsd.IsNull <;>
      cases hc : data.Countries <;>
      simp [hb, hm, hc] at hsome <;> subst hsome <;> simp

/-- Witness of C27: a plan with a configuration and two countries, and a plan with none. -/
theorem VmResource_Create_constraints_witness :
    VmResource.constraints samplePlanThree =
      some { BasicConfiguration := some "cpu-2-ram-4gb-storage-25gb",
             MaxTotalPricePerEpochUsd := none,
             Datacenter := some { Countries := ["DE", "FR"] },
             Hardware := none } ∧
    VmResource.constraints sampleVmPlan = none :=
  ⟨by decide, (VmResource_Create_constraints sampleVmPlan).2.1.mpr (by decide)⟩

/-! ## The port conversion -/

theorem toUint16_cast (p : Int) : (toUint16 p : Int) = p % 65536 := by
  unfold toUint16
  exact Int.toNat_of_nonneg (Int.emod_nonneg p (by decide))

/-- C29: the open ports sent by Create and by Update are the plan's entries converted one
by one in plan order, so the list sent has the plan's length; the port number sent for a
port value p is p modulo 65536, a value below 65536, which equals p exactly when
0 <= p <= 65535, so that an out-of-range p is wrapped: 65616 is sent as 80; and with a plan
that decodes Create makes its create call with these ports, whatever their values. -/
theorem open_ports_wrap_to_uint16 (data : VmResourceModel) (p : Int) :
    ((VmResource.createReq data).VmConfiguration.OpenPorts =
        VmResource.openPorts data.OpenPorts ∧
      (data.OpenPorts ≠ [] →
        VmResource.updates data =
          [{ Id := data.ID.ValueString,
             VmName := if data.Name.IsNull = true then none else some data.Name.ValueString,
             OpenPorts := some (VmResource.openPorts data.OpenPorts) }])) ∧
    ((VmResource.openPorts data.OpenPorts).length = data.OpenPorts.length ∧
      ∀ (i : Nat), (VmResource.openPorts data.OpenPorts)[i]? =
        (data.OpenPorts[i]?).map (fun (port : OpenPortModel) =>
          ({ Port := toUint16 port.Port.ValueInt64,
             Protocol := port.Protocol.ValueString } : OpenPorts))) ∧
    ((toUint16 p : Int) = p % 65536 ∧ toUint16 p < 65536 ∧
      ((toUint16 p : Int) = p ↔ (0 ≤ p ∧ p ≤ 65535)) ∧
      toUint16 65616 = 80) ∧
    (∀ (client : VmResourceClient) (diags : Diagnostics), HasError diags = false →
      (VmResource.Create client ⟨⟨diags, data⟩⟩).calls.head? =
        some (VmClientCall.CreateVmV3 (VmResource.createReq data))) := by
  refine ⟨⟨?_, ?_⟩, ⟨openPorts_length _, openPorts_getElem? _⟩, ⟨toUint16_cast p, ?_, ?_, ?_⟩,
    ?_⟩
  · unfold VmResource.createReq VmResource.vmConfig
    cases (!data.Hostname.IsNull && !data.Hostname.IsUnknown) <;> simp
  · intro hne
    rw [updates_eq]
    simp [hne]
  · have h := toUint16_cast p
    omega
  · have h := toUint16_cast p
    constructor
    · intro heq
      omega
    · intro hr
      omega
  · decide
  · intro client diags hdec
    exact Create_first_call client ⟨⟨diags, data⟩⟩ hdec

/-- Witness of C29: the plan's ports 22 and 65616 are sent as 22 and 80, in that order. -/
theorem open_ports_wrap_to_uint16_witness :
    (VmResource.createReq samplePlanThree).VmConfiguration.OpenPorts =
      [⟨22, "tcp"⟩, ⟨80, "udp"⟩] ∧
    (VmResource.Create clientCreatesThenActive ⟨⟨[], samplePlanThree⟩⟩).calls.head? =
      some (VmClientCall.CreateVmV3 (VmResource.createReq samplePlanThree)) :=
  have h := open_ports_wrap_to_uint16 samplePlanThree 65616
  ⟨h.1.1, h.2.2.2 clientCreatesThenActive [] (by decide)⟩

/-! ## Deposit estimate: hardware combinations and the constraints object -/

theorem flatten_map_length {α β : Type} (g : α → List β) (n : Nat)
    (hn : ∀ a, (g a).length = n) :
    ∀ (A : List α), ((A.map g).flatten).length = A.length * n := by
  intro A
  induction A with
  | nil => simp
  | cons x rest ih =>
    simp only [List.map_cons, List.flatten_cons, List.length_append, List.length_cons, ih, hn]
    rw [Nat.succ_mul, Nat.add_comm]

theorem flatten_map_getElem? {α β : Type} (g : α → List β) (n : Nat)
    (hn : ∀ a, (g a).length = n) :
    ∀ (A : List α) (i j : Nat) (a : α), A[i]? = some a → j < n →
      ((A.map g).flatten)[i * n + j]? = (g a)[j]? := by
  intro A
  induction A with
  | nil =>
    intro i j a ha
    simp at ha
  | cons x rest ih =>
    intro i j a ha hj
    simp only [List.map_cons, List.flatten_cons]
    cases i with
    | zero =>
      simp only [List.getElem?_cons_zero, Option.some.injEq] at ha
      subst ha
      rw [Nat.zero_mul, Nat.zero_add]
      exact List.getElem?_append_left (by rw [hn]; exact hj)
    | succ i =>
      simp only [List.getElem?_cons_succ] at ha
      have hlen : (g x).length ≤ (i + 1) * n + j := by
        rw [hn, Nat.succ_mul]
        omega
      rw [List.getElem?_append_right hlen, hn]
      have hidx : (i + 1) * n + j - n = i * n + j := by
        rw [Nat.succ_mul]
        omega
      rw [hidx]
      exact ih i j a ha hj

theorem cpuHardware_both (A M : List TfString) (hA : A ≠ []) (hM : M ≠ []) :
    estimateDepositDataSource.cpuHardware A M =
      (A.map (fun (arch : TfString) => M.map (fun (mfr : TfString) =>
        ({ Architecture := arch.ValueString, Manufacturer := mfr.ValueString } :
          CpuHardware)))).flatten := by
  unfold estimateDepositDataSource.cpuHardware
  rw [if_pos ⟨(length_pos_iff_ne_nil A).mpr hA, (length_pos_iff_ne_nil M).mpr hM⟩]

theorem memoryHardware_both (T G : List TfString) (hT : T ≠ []) (hG : G ≠ []) :
    estimateDepositDataSource.memoryHardware T G =
      (T.map (fun (memType : TfString) => G.map (fun (gen : TfString) =>
        ({ Type_ := memType.ValueString, Generation := gen.ValueString } :
          MemoryHardware)))).flatten := by
  unfold estimateDepositDataSource.memoryHardware
  rw [if_pos ⟨(length_pos_iff_ne_nil T).mpr hT, (length_pos_iff_ne_nil G).mpr hG⟩]

/-- The hardware part of the constraints, spelled out: absent when the five lists are all
empty, otherwise the three converted lists. -/
theorem hardware_eq (c : EstimateDepositConstraintsModel) :
    estimateDepositDataSource.hardware c =
      (if c.CpuArchitecture = [] ∧ c.CpuManufacturer = [] ∧ c.MemoryType = [] ∧
          c.MemoryGeneration = [] ∧ c.StorageType = [] then none
        else some
          { Cpu := estimateDepositDataSource.cpuHardware c.CpuArchitecture c.CpuManufacturer,
            Memory :=
              estimateDepositDataSource.memoryHardware c.MemoryType c.MemoryGeneration,
            Storage := c.StorageType.map (fun (storageType : TfString) =>
              ({ Type_ := storageType.ValueString } : StorageHardware)) }) := by
  unfold estimateDepositDataSource.hardware
  cases hA : c.CpuArchitecture <;> cases hM : c.CpuManufacturer <;>
    cases hT : c.MemoryType <;> cases hG : c.MemoryGeneration <;>
    cases hS : c.StorageType <;>
    simp [estimateDepositDataSource.cpuHardware, estimateDepositDataSource.memoryHardware]

theorem constraints_Hardware (c : EstimateDepositConstraintsModel) :
    (estimateDepositDataSource.constraints c).Hardware =
      estimateDepositDataSource.hardware c := by
  unfold estimateDepositDataSource.constraints
  cases estimateDepositDataSource.hardware c <;>
    cases c.BasicConfiguration.IsNull <;> cases c.MaxTotalPricePerEpochUsd.IsNull <;>
    cases c.DatacenterCountries <;> simp

/-- The deposit-estimate Read consults the client only at the request built from the
configuration. -/
theorem estimateRead_uses_estimateRequest (client other : DataSourceClient)
    (Config : Decoded EstimateDepositDataSourceModel)
    (h : client.EstimateDeposit (estimateDepositDataSource.estimateRequest Config.value) =
      other.EstimateDeposit (estimateDepositDataSource.estimateRequest Config.value)) :
    estimateDepositDataSource.Read client Config =
      estimateDepositDataSource.Read other Config := by
  unfold estimateDepositDataSource.Read
  simp only [h]

/-- C24: in the deposit-estimate Read, for lists A of cpu_architecture and M of
cpu_manufacturer values: when both are non-empty the CPU constraint list has |A|*|M|
entries, its entry number i*|M|+j is the pair of the i-th architecture and the j-th
manufacturer (architecture-major order), and its members are exactly the pairs (a, m) with
a in A and m in M; when only A is non-empty it is one entry per a, in order, with empty
manufacturer; when only M is non-empty it is one entry per m, in order, with empty
architecture. The same holds for memory_type and memory_generation. These lists are the
Cpu and Memory parts of the hardware constraints of the request. -/
theorem estimate_hardware_combinations (A M : List TfString) :
    ((A ≠ [] → M ≠ [] →
        (estimateDepositDataSource.cpuHardware A M).length = A.length * M.length ∧
        (∀ (i j : Nat) (a m : TfString), A[i]? = some a → M[j]? = some m →
          (estimateDepositDataSource.cpuHardware A M)[i * M.length + j]? =
            some { Architecture := a.ValueString, Manufacturer := m.ValueString }) ∧
        (∀ x, x ∈ estimateDepositDataSource.cpuHardware A M ↔
          ∃ a, a ∈ A ∧ ∃ m, m ∈ M ∧
            x = { Architecture := a.ValueString, Manufacturer := m.ValueString })) ∧
      (A ≠ [] → M = [] →
        estimateDepositDataSource.cpuHardware A M =
          A.map (fun (a : TfString) =>
            ({ Architecture := a.ValueString, Manufacturer := "" } : CpuHardware))) ∧
      (A = [] → M ≠ [] →
        estimateDepositDataSource.cpuHardware A M =
          M.map (fun (m : TfString) =>
            ({ Architecture := "", Manufacturer := m.ValueString } : CpuHardware)))) ∧
    ((A ≠ [] → M ≠ [] →
        (estimateDepositDataSource.memoryHardware A M).length = A.length * M.length ∧
        (∀ (i j : Nat) (a m : TfString), A[i]? = some a → M[j]? = some m →
          (estimateDepositDataSource.memoryHardware A M)[i * M.length + j]? =
            some { Type_ := a.ValueString, Generation := m.ValueString }) ∧
        (∀ x, x ∈ estimateDepositDataSource.memoryHardware A M ↔
          ∃ a, a ∈ A ∧ ∃ m, m ∈ M ∧
            x = { Type_ := a.ValueString, Generation := m.ValueString })) ∧
      (A ≠ [] → M = [] →
        estimateDepositDataSource.memoryHardware A M =
          A.map (fun (a : TfString) =>
            ({ Type_ := a.ValueString, Generation := "" } : MemoryHardware))) ∧
      (A = [] → M ≠ [] →
        estimateDepositDataSource.memoryHardware A M =
          M.map (fun (m : TfString) =>
            ({ Type_ := "", Generation := m.ValueString } : MemoryHardware)))) ∧
    (∀ (data : EstimateDepositDataSourceModel) (c : EstimateDepositConstraintsModel),
      data.Constraints = some c →
      ((c.CpuArchitecture = A → c.CpuManufacturer = M → (A ≠ [] ∨ M ≠ []) →
        ∃ constraints hardware,
          (estimateDepositDataSource.estimateRequest data).Constraints = some constraints ∧
          constraints.Hardware = some hardware ∧
          hardware.Cpu = estimateDepositDataSource.cpuHardware A M) ∧
      (c.MemoryType = A → c.MemoryGeneration = M → (A ≠ [] ∨ M ≠ []) →
        ∃ constraints hardware,
          (estimateDepositDataSource.estimateRequest data).Constraints = some constraints ∧
          constraints.Hardware = some hardware ∧
          hardware.Memory = estimateDepositDataSource.memoryHardware A M))) := by
  refine ⟨⟨?_, ?_, ?_⟩, ⟨?_, ?_, ?_⟩, ?_⟩
  · intro hA hM
    rw [cpuHardware_both A M hA hM]
    refine ⟨?_, ?_, ?_⟩
    · exact flatten_map_length _ M.length (fun a => by rw [List.length_map]) A
    · intro i j a m ha hm
      have hj : j < M.length := by
        rcases Nat.lt_or_ge j M.length with h | h
        · exact h
        · rw [List.getElem?_eq_none h] at hm
          exact Option.noConfusion hm
      rw [flatten_map_getElem? _ M.length (fun a => by rw [List.length_map]) A i j a ha hj,
        List.getElem?_map, hm]
      rfl
    · intro x
      simp only [List.mem_flatten, List.mem_map]
      constructor
      · rintro ⟨l, ⟨a, ha, rfl⟩, hx⟩
        rw [List.mem_map] at hx
        obtain ⟨m, hm, rfl⟩ := hx
        exact ⟨a, ha, m, hm, rfl⟩
      · rintro ⟨a, ha, m, hm, rfl⟩
        exact ⟨_, ⟨a, ha, rfl⟩, List.mem_map.mpr ⟨m, hm, rfl⟩⟩
  · intro hA hM
    unfold estimateDepositDataSource.cpuHardware
    subst hM
    simp [(length_pos_iff_ne_nil A).mpr hA]
  · intro hA hM
    unfold estimateDepositDataSource.cpuHardware
    subst hA
    simp
  · intro hA hM
    rw [memoryHardware_both A M hA hM]
    refine ⟨?_, ?_, ?_⟩
    · exact flatten_map_length _ M.length (fun a => by rw [List.length_map]) A
    · intro i j a m ha hm
      have hj : j < M.length := by
        rcases Nat.lt_or_ge j M.length with h | h
        · exact h
        · rw [List.getElem?_eq_none h] at hm
          exact Option.noConfusion hm
      rw [flatten_map_getElem? _ M.length (fun a => by rw [List.length_map]) A i j a ha hj,
        List.getElem?_map, hm]
      rfl
    · intro x
      simp only [List.mem_flatten, List.mem_map]
      constructor
      · rintro ⟨l, ⟨a, ha, rfl⟩, hx⟩
        rw [List.mem_map] at hx
        obtain ⟨m, hm, rfl⟩ := hx
        exact ⟨a, ha, m, hm, rfl⟩
      · rintro ⟨a, ha, m, hm, rfl⟩
        exact ⟨_, ⟨a, ha, rfl⟩, List.mem_map.mpr ⟨m, hm, rfl⟩⟩
  · intro hA hM
    unfold estimateDepositDataSource.memoryHardware
    subst hM
    simp [(length_pos_iff_ne_nil A).mpr hA]
  · intro hA hM
    unfold estimateDepositDataSource.memoryHardware
    subst hA
    simp
  · intro data c hc
    have hreq : (estimateDepositDataSource.estimateRequest data).Constraints =
        some (estimateDepositDataSource.constraints c) := by
      unfold estimateDepositDataSource.estimateRequest
      rw [hc]
    constructor
    · intro hA hM hne
      subst hA
      subst hM
      have hnot : ¬ (c.CpuArchitecture = [] ∧ c.CpuManufacturer = [] ∧ c.MemoryType = [] ∧
          c.MemoryGeneration = [] ∧ c.StorageType = []) :=
        fun hall => hne.elim (fun h => h hall.1) (fun h => h hall.2.1)
      refine ⟨_,
        ({ Cpu := (estimateDepositDataSource.cpuHardware c.CpuArchitecture
              c.CpuManufacturer),
           Memory := (estimateDepositDataSource.memoryHardware c.MemoryType
              c.MemoryGeneration),
           Storage := (c.StorageType.map (fun (storageType : TfString) =>
              ({ Type_ := storageType.ValueString } : StorageHardware))) } :
          HardwareConstraints), hreq, ?_, rfl⟩
      rw [constraints_Hardware, hardware_eq, if_neg hnot]
    · intro hA hM hne
      subst hA
      subst hM
      have hnot : ¬ (c.CpuArchitecture = [] ∧ c.CpuManufacturer = [] ∧ c.MemoryType = [] ∧
          c.MemoryGeneration = [] ∧ c.StorageType = []) :=
        fun hall => hne.elim (fun h => h hall.2.2.1) (fun h => h hall.2.2.2.1)
      refine ⟨_,
        ({ Cpu := (estimateDepositDataSource.cpuHardware c.CpuArchitecture
              c.CpuManufacturer),
           Memory := (estimateDepositDataSource.memoryHardware c.MemoryType
              c.MemoryGeneration),
           Storage := (c.StorageType.map (fun (storageType : TfString) =>
              ({ Type_ := storageType.ValueString } : StorageHardware))) } :
          HardwareConstraints), hreq, ?_, rfl⟩
      rw [constraints_Hardware, hardware_eq, if_neg hnot]

/-- Witness of C24: two architectures and two manufacturers give four pairs,
architecture first. -/
theorem estimate_hardware_combinations_witness :
    estimateDepositDataSource.cpuHardware
      [TfString.value "x86_64", TfString.value "arm64"]
      [TfString.value "AMD", TfString.value "Intel"] =
      [⟨"x86_64", "AMD"⟩, ⟨"x86_64", "Intel"⟩, ⟨"arm64", "AMD"⟩, ⟨"arm64", "Intel"⟩] ∧
    (estimateDepositDataSource.cpuHardware
      [TfString.value "x86_64", TfString.value "arm64"]
      [TfString.value "AMD", TfString.value "Intel"])[1 * 2 + 0]? =
      some ⟨"arm64", "AMD"⟩ ∧
    estimateDepositDataSource.cpuHardware [TfString.value "x86_64"] [] =
      [⟨"x86_64", ""⟩] :=
  have h := estimate_hardware_combinations
    [TfString.value "x86_64", TfString.value "arm64"]
    [TfString.value "AMD", TfString.value "Intel"]
  have h1 := estimate_hardware_combinations [TfString.value "x86_64"] []
  ⟨by decide, (h.1.1 (by decide) (by decide)).2.1 1 0 (TfString.value "arm64")
    (TfString.value "AMD") rfl rfl, h1.1.2.1 (by decide) rfl⟩

/-- C28: in the deposit-estimate Read, the request carries a constraints object exactly
when the configuration has a constraints block, also when every field of the block is
empty; and that object carries hardware constraints exactly when at least one of
cpu_architecture, cpu_manufacturer, memory_type, memory_generation and storage_type is
non-empty. The request is the one Read hands to the client. -/
theorem estimate_request_constraints_presence (data : EstimateDepositDataSourceModel) :
    ((estimateDepositDataSource.estimateRequest data).Constraints.isSome = true ↔
      data.Constraints.isSome = true) ∧
    (∀ c, data.Constraints = some c →
      (estimateDepositDataSource.estimateRequest data).Constraints =
        some (estimateDepositDataSource.constraints c) ∧
      ((estimateDepositDataSource.constraints c).Hardware.isSome = true ↔
        (c.CpuArchitecture ≠ [] ∨ c.CpuManufacturer ≠ [] ∨ c.MemoryType ≠ [] ∨
          c.MemoryGeneration ≠ [] ∨ c.StorageType ≠ []))) ∧
    (estimateDepositDataSource.estimateRequest
        (estimateConfig (some emptyConstraintsBlock))).Constraints =
      some { BasicConfiguration := none, MaxTotalPricePerEpochUsd := none,
             Datacenter := none, Hardware := none } ∧
    (∀ (client other : DataSourceClient) (diags : Diagnostics),
      client.EstimateDeposit (estimateDepositDataSource.estimateRequest data) =
        other.EstimateDeposit (estimateDepositDataSource.estimateRequest data) →
      estimateDepositDataSource.Read client ⟨diags, data⟩ =
        estimateDepositDataSource.Read other ⟨diags, data⟩) := by
  refine ⟨?_, ?_, by decide, ?_⟩
  · unfold estimateDepositDataSource.estimateRequest
    cases data.Constraints <;> simp
  · intro c hc
    constructor
    · unfold estimateDepositDataSource.estimateRequest
      rw [hc]
    · rw [constraints_Hardware, hardware_eq]
      by_cases hall : c.CpuArchitecture = [] ∧ c.CpuManufacturer = [] ∧ c.MemoryType = [] ∧
          c.MemoryGeneration = [] ∧ c.StorageType = []
      · rw [if_pos hall]
        obtain ⟨h1, h2, h3, h4, h5⟩ := hall
        simp [h1, h2, h3, h4, h5]
      · rw [if_neg hall]
        simp only [Option.isSome_some, true_iff]
        by_contra hnone
        apply hall
        simp only [not_or, not_not] at hnone
        exact hnone
  · intro client other diags h
    exact estimateRead_uses_estimateRequest client other ⟨diags, data⟩ h

/-- Witness of C28: a block with CPU lists gives hardware constraints, an absent block
gives no constraints object. -/
theorem estimate_request_constraints_presence_witness :
    (estimateDepositDataSource.constraints sampleConstraintsBlock).Hardware.isSome = true ∧
    (estimateDepositDataSource.estimateRequest (estimateConfig none)).Constraints.isSome =
      false :=
  ⟨((estimate_request_constraints_presence
      (estimateConfig (some sampleConstraintsBlock))).2.1 sampleConstraintsBlock rfl).2.mpr
      (Or.inl (by decide)),
    by decide⟩

end Fluence
